import Mathlib

/-!
# Epoch manager engine

A shallow embedding of `engine/collection/epochmgr/engine.go`.

The engine is a record of its Go fields.  Every call the engine makes on a
collaborator (factory, height registry, transaction pools, bundle contexts,
logger, parent context) is appended to `Engine.effects`, in program order, so
that "was called", "was not called" and "was called before" are statements
about a list.  What the collaborators answer is read from an `Env` record.
The two `select` statements that race a bundle signal against
`time.After(e.startupTimeout)` take their outcome from `Env` as well.

Go's `uint64` values are natural numbers, and the three arithmetic operations
of the file (`first.Height - 1`, `counter-1`,
`epochMaxHeight + flow.DefaultTransactionExpiry + 1`) are taken modulo `2^64`.
-/

namespace EpochMgr

/-! ## Machine integers -/

/-- Number of values of a Go `uint64`, that is `2^64`. -/
def uint64Size : Nat := 18446744073709551616

/-- Go `a + b` on `uint64`. -/
def uint64Add (a b : Nat) : Nat := (a + b) % uint64Size

/-- Go `a - b` on `uint64`. -/
def uint64Sub (a b : Nat) : Nat := (a + (uint64Size - b % uint64Size)) % uint64Size

/-! ## Errors -/

/-- An operand of a `fmt.Errorf` call, other than the wrapped error. -/
inductive FmtArg where
  | uint (n : Nat)
  | duration (nanoseconds : Nat)
  | epoch (ref : Nat)
  | identifier (id : Nat)
  | int (n : Nat)
  deriving DecidableEq, Repr

/-- Go error values built by `fmt.Errorf`: `errorf` has no `%w` verb, `wrapf`
wraps `inner` through `%w`.  The format string is kept verbatim next to its
operands.  `sentinel` is an error variable that another package declares, known by its
qualified name; `exceptionf` is an error built by `irrecoverable.NewExceptionf`. -/
inductive GoError where
  | errorf (format : String) (args : List FmtArg)
  | wrapf (format : String) (args : List FmtArg) (inner : GoError)
  | sentinel (name : String)
  | exceptionf (format : String) (args : List FmtArg)
  deriving DecidableEq, Repr

/-- Go `errors.Is(err, target)`: some error of the `Unwrap` chain of `err` equals `target`. -/
def errorsIs : GoError → GoError → Bool
  | GoError.errorf format args, target => decide (GoError.errorf format args = target)
  | GoError.wrapf format args inner, target =>
      decide (GoError.wrapf format args inner = target) || errorsIs inner target
  | GoError.sentinel name, target => decide (GoError.sentinel name = target)
  | GoError.exceptionf format args, target => decide (GoError.exceptionf format args = target)

/-- The sentinel `ErrNotAuthorizedForEpoch`. -/
def ErrNotAuthorizedForEpoch : GoError :=
  GoError.errorf "we are not an authorized participant for the epoch" []

/-- The sentinel `ErrTimeout`. -/
def ErrTimeout : GoError := GoError.errorf "timeout exceeded" []

/-- The constant `DefaultStartupTimeout = time.Minute`, in nanoseconds. -/
def DefaultStartupTimeout : Nat := 60000000000

/-! ## Data model -/

/-- Modelled from the spec: `flow.Header` (package `model/flow`), of which the engine reads
the block identifier `ID()` and the field `Height` (a `uint64`). -/
structure Header where
  ID : Nat
  Height : Nat
  deriving DecidableEq, Repr

/-- Modelled from the spec: `protocol.Epoch` (package `state/protocol`), the opaque epoch
descriptor; `ref` tells descriptors apart, its counter is read through `Env.Counter`. -/
structure Epoch where
  ref : Nat
  deriving DecidableEq, Repr

/-- Modelled from the spec: `EpochComponents` (file `epoch_components.go`), the bundle of the
six sub-services that `factory.Create` returns together for one epoch. -/
structure EpochComponents where
  state : Nat
  prop : Nat
  sync : Nat
  hotstuff : Nat
  voteAggregator : Nat
  timeoutAggregator : Nat
  deriving DecidableEq, Repr

/-- Modelled from the spec: `NewEpochComponents` (file `epoch_components.go`) bundles the six
values as given. -/
def NewEpochComponents (state prop sync hot voteAggregator timeoutAggregator : Nat) :
    EpochComponents :=
  EpochComponents.mk state prop sync hot voteAggregator timeoutAggregator

/-- Modelled from the spec: `StartableEpochComponents` (file `epoch_components.go`), a bundle
plus the cancellation handle of its private context; the handle is the number of the context
it cancels. -/
structure StartableEpochComponents where
  components : EpochComponents
  cancel : Nat
  deriving DecidableEq, Repr

/-- Modelled from the spec: `NewStartableEpochComponents` (file `epoch_components.go`) pairs a
bundle with its cancellation handle. -/
def NewStartableEpochComponents (components : EpochComponents) (cancel : Nat) :
    StartableEpochComponents :=
  StartableEpochComponents.mk components cancel

/-- Modelled from the spec: `flow.EpochPhase` (package `model/flow`), an integer type with the
named values `EpochPhaseUndefined`, `EpochPhaseStaking`, `EpochPhaseSetup`,
`EpochPhaseCommitted` and `EpochPhaseFallback`; `unknown n` stands for any other value. -/
inductive EpochPhase where
  | undefined
  | staking
  | setup
  | committed
  | fallback
  | unknown (value : Nat)
  deriving DecidableEq, Repr

/-- Levels of the log lines the engine writes. -/
inductive LogLevel where
  | info
  | warn
  | error
  deriving DecidableEq, Repr

/-- The closures handed to `heightEvents.OnHeight`.  The file builds one kind only:
`func() { e.epochStopEvents <- epochCounter }`. -/
inductive Callback where
  | sendEpochStop (epochCounter : Nat)
  deriving DecidableEq, Repr

/-- Calls on collaborators and observations of bundle signals, in program order. -/
inductive Effect where
  | log (level : LogLevel) (msg : String)
  | onHeight (height : Nat) (callback : Callback)
  | factoryCreate (epoch : Epoch)
  | withSignallerAndCancel (epochCtx : Nat)
  | componentsStart (components : EpochComponents) (epochCtx : Nat)
  | goHandleEpochErrors (epochCtx : Nat)
  | readyObserved (components : EpochComponents)
  | doneObserved (components : EpochComponents)
  | timeoutElapsed (nanoseconds : Nat)
  | cancel (epochCtx : Nat)
  | poolsClear (counter : Nat)
  | throw (err : GoError)
  | componentManagerStart
  | vote (nextEpoch : Epoch)
  deriving DecidableEq, Repr

/-- Answers of the collaborators of the engine.
* `DefaultTransactionExpiry` is the constant `flow.DefaultTransactionExpiry`;
* `CurrentEpochAt id` is `e.state.AtBlockID(id).Epochs().Current()`;
* `Counter epoch` is `epoch.Counter()`;
* `Create epoch` is `e.factory.Create(epoch)`, six components or an error;
* `readyBeforeTimeout c` tells whether `c.Ready()` wins the `select` of `startEpochComponents`;
* `doneBeforeTimeout c` tells whether `c.Done()` wins the `select` of `stopEpochComponents`;
* `FinalPhase` is `e.state.Final().Phase()` and `FinalHead` is `e.state.Final().Head()`;
* `FinalCurrentEpoch` is `e.state.Final().Epochs().Current()`;
* `NextEpochAt id` is `e.state.AtBlockID(id).Epochs().Next()`;
* `Vote epoch` is `e.voter.Vote(ctx, epoch)`, `none` standing for a nil error. -/
structure Env where
  DefaultTransactionExpiry : Nat
  CurrentEpochAt : Nat → Epoch
  Counter : Epoch → Except GoError Nat
  Create : Epoch → Except GoError (Nat × Nat × Nat × Nat × Nat × Nat)
  readyBeforeTimeout : EpochComponents → Bool
  doneBeforeTimeout : StartableEpochComponents → Bool
  FinalPhase : Except GoError EpochPhase
  FinalHead : Except GoError Header
  FinalCurrentEpoch : Epoch
  NextEpochAt : Nat → Epoch
  Vote : Epoch → Option GoError

/-- The Go map `e.epochs`, as an association list; `mapLookup` is `m[key]`. -/
def mapLookup : List (Nat × StartableEpochComponents) → Nat → Option StartableEpochComponents
  | [], _ => none
  | (k, v) :: rest, key => if k = key then some v else mapLookup rest key

/-- Go `delete(m, key)`. -/
def mapDelete : List (Nat × StartableEpochComponents) → Nat →
    List (Nat × StartableEpochComponents)
  | [], _ => []
  | (k, v) :: rest, key => if k = key then mapDelete rest key else (k, v) :: mapDelete rest key

/-- Go `m[key] = v`: the entry for `key` is replaced if there is one, added otherwise. -/
def mapStore (m : List (Nat × StartableEpochComponents)) (key : Nat)
    (v : StartableEpochComponents) : List (Nat × StartableEpochComponents) :=
  (key, v) :: mapDelete m key

/-- The struct `Engine`: its map, its timeout and its three initialised channels (a channel is
the list of values sent and not yet received), together with the record of effects and the
number of bundle contexts derived so far. -/
structure Engine where
  startupTimeout : Nat
  epochs : List (Nat × StartableEpochComponents)
  epochTransitionEvents : List Header
  epochSetupPhaseStartedEvents : List Header
  epochStopEvents : List Nat
  effects : List Effect
  contexts : Nat
  deriving DecidableEq, Repr

/-- The engine built by `New`: empty map, default timeout, empty channels. -/
def New : Engine :=
  { startupTimeout := DefaultStartupTimeout
    epochs := []
    epochTransitionEvents := []
    epochSetupPhaseStartedEvents := []
    epochStopEvents := []
    effects := []
    contexts := 0 }

/-- Appends calls to the record of effects. -/
def emit (e : Engine) (fx : List Effect) : Engine :=
  { e with effects := e.effects ++ fx }

/-! ## Operations of the engine -/

/-- `Engine.getEpochComponents`: `none` stands for `(nil, false)`. -/
def getEpochComponents (e : Engine) (counter : Nat) : Option StartableEpochComponents :=
  mapLookup e.epochs counter

/-- `Engine.storeEpochComponents`. -/
def storeEpochComponents (e : Engine) (counter : Nat) (components : StartableEpochComponents) :
    Engine :=
  { e with epochs := mapStore e.epochs counter components }

/-- `Engine.removeEpoch`. -/
def removeEpoch (e : Engine) (counter : Nat) : Engine :=
  { e with epochs := mapDelete e.epochs counter }

/-- Running a callback of the height registry: the send `e.epochStopEvents <- epochCounter`. -/
def Callback.invoke (cb : Callback) (e : Engine) : Engine :=
  match cb with
  | Callback.sendEpochStop epochCounter =>
      { e with epochStopEvents := e.epochStopEvents ++ [epochCounter] }

/-- `Engine.prepareToStopEpochComponents`. -/
def prepareToStopEpochComponents (env : Env) (e : Engine) (epochCounter epochMaxHeight : Nat) :
    Engine :=
  let stopAtHeight := uint64Add (uint64Add epochMaxHeight env.DefaultTransactionExpiry) 1
  emit e [Effect.log LogLevel.info "preparing to stop epoch components at height %d",
          Effect.onHeight stopAtHeight (Callback.sendEpochStop epochCounter)]

/-- `Engine.createEpochComponents`. -/
def createEpochComponents (env : Env) (e : Engine) (epoch : Epoch) :
    Engine × Except GoError EpochComponents :=
  let e1 := emit e [Effect.factoryCreate epoch]
  match env.Create epoch with
  | Except.error err =>
      (e1, Except.error (GoError.wrapf "could not setup requirements for epoch (%d): %w"
        [FmtArg.epoch epoch.ref] err))
  | Except.ok (state, prop, sync, hot, voteAggregator, timeoutAggregator) =>
      (e1, Except.ok (NewEpochComponents state prop sync hot voteAggregator timeoutAggregator))

/-- `Engine.startEpochComponents`. -/
def startEpochComponents (env : Env) (e : Engine) (counter : Nat)
    (components : EpochComponents) : Engine × Option GoError :=
  let epochCtx := e.contexts
  let e1 := emit { e with contexts := e.contexts + 1 }
    [Effect.withSignallerAndCancel epochCtx,
     Effect.componentsStart components epochCtx,
     Effect.goHandleEpochErrors epochCtx]
  if env.readyBeforeTimeout components then
    (storeEpochComponents (emit e1 [Effect.readyObserved components]) counter
      (NewStartableEpochComponents components epochCtx), none)
  else
    (emit e1 [Effect.timeoutElapsed e.startupTimeout, Effect.cancel epochCtx],
     some (GoError.wrapf "could not stop epoch %d components after %s: %w"
       [FmtArg.uint counter, FmtArg.duration e.startupTimeout] ErrTimeout))

/-- `Engine.stopEpochComponents`. -/
def stopEpochComponents (env : Env) (e : Engine) (counter : Nat) : Engine × Option GoError :=
  match getEpochComponents e counter with
  | none => (emit e [Effect.log LogLevel.warn "attempted to stop non-existent epoch %d"], none)
  | some components =>
      let e1 := emit e [Effect.cancel components.cancel]
      if env.doneBeforeTimeout components then
        let e2 := emit e1 [Effect.doneObserved components.components]
        let e3 := removeEpoch e2 counter
        (emit e3 [Effect.poolsClear counter], none)
      else
        (emit e1 [Effect.timeoutElapsed e.startupTimeout],
         some (GoError.wrapf "could not stop epoch %d components after %s: %w"
           [FmtArg.uint counter, FmtArg.duration e.startupTimeout] ErrTimeout))

/-- `Engine.onEpochTransition`. -/
def onEpochTransition (env : Env) (e : Engine) (first : Header) : Engine × Option GoError :=
  let epoch := env.CurrentEpochAt first.ID
  match env.Counter epoch with
  | Except.error err => (e, some (GoError.wrapf "could not get epoch counter: %w" [] err))
  | Except.ok counter =>
      let lastEpochMaxHeight := uint64Sub first.Height 1
      match getEpochComponents e counter with
      | some _ =>
          (emit e [Effect.log LogLevel.warn
            "epoch transition: components for new epoch already setup, exiting..."], none)
      | none =>
          let e1 := prepareToStopEpochComponents env e (uint64Sub counter 1) lastEpochMaxHeight
          let e2 := emit e1 [Effect.log LogLevel.info
            "epoch transition: creating components for new epoch..."]
          match createEpochComponents env e2 epoch with
          | (e3, Except.error err) =>
              if errorsIs err ErrNotAuthorizedForEpoch then
                (emit e3 [Effect.log LogLevel.info
                  "epoch transition: we are not authorized for new epoch, exiting..."], none)
              else
                (e3, some (GoError.wrapf "could not create epoch components: %w" [] err))
          | (e3, Except.ok components) =>
              match startEpochComponents env e3 counter components with
              | (e4, some err) =>
                  (e4, some (GoError.wrapf "could not start epoch components: %w" [] err))
              | (e4, none) =>
                  let e5 := emit e4 [Effect.log LogLevel.info
                    "epoch transition: new epoch components started successfully"]
                  (prepareToStopEpochComponents env e5 (uint64Sub counter 1) lastEpochMaxHeight,
                   none)

/-- One iteration of `Engine.handleEpochTransitionLoop` on the case
`firstBlock := <-e.epochTransitionEvents`; with an empty channel the worker stays blocked. -/
def handleEpochTransitionLoop (env : Env) (e : Engine) : Engine :=
  match e.epochTransitionEvents with
  | [] => e
  | firstBlock :: pending =>
      match onEpochTransition env { e with epochTransitionEvents := pending } firstBlock with
      | (e1, some err) => emit e1 [Effect.throw err]
      | (e1, none) => e1

/-- One iteration of `Engine.handleStopEpochLoop` on the case
`epochCounter := <-e.epochStopEvents`; with an empty channel the worker stays blocked. -/
def handleStopEpochLoop (env : Env) (e : Engine) : Engine :=
  match e.epochStopEvents with
  | [] => e
  | epochCounter :: pending =>
      match stopEpochComponents env { e with epochStopEvents := pending } epochCounter with
      | (e1, some err) => emit e1 [Effect.throw err]
      | (e1, none) => e1

/-- `Engine.EpochTransition`: the send `e.epochTransitionEvents <- first`. -/
def EpochTransition (e : Engine) (first : Header) : Engine :=
  { e with epochTransitionEvents := e.epochTransitionEvents ++ [first] }

/-- `Engine.EpochSetupPhaseStarted`: the send `e.epochSetupPhaseStartedEvents <- first`. -/
def EpochSetupPhaseStarted (e : Engine) (first : Header) : Engine :=
  { e with epochSetupPhaseStartedEvents := e.epochSetupPhaseStartedEvents ++ [first] }

/-- `Engine.checkShouldVoteOnStartup`. -/
def checkShouldVoteOnStartup (env : Env) (e : Engine) : Engine × Option GoError :=
  match env.FinalPhase with
  | Except.error err =>
      (e, some (GoError.wrapf "could not get epoch phase for finalized snapshot: %w" [] err))
  | Except.ok phase =>
      if phase = EpochPhase.setup then
        match env.FinalHead with
        | Except.error err =>
            (e, some (GoError.wrapf "could not get header for finalized snapshot: %w" [] err))
        | Except.ok header =>
            ({ e with epochSetupPhaseStartedEvents := e.epochSetupPhaseStartedEvents ++ [header] },
             none)
      else
        (e, none)

/-- `Engine.Start`.  `ctx.Throw` does not return: each `ctx.Throw(err)` ends the call, as the
code after it supposes (it goes on to use `components`, which is nil when `err` is not). -/
def Start (env : Env) (e : Engine) : Engine :=
  let e1 := emit e [Effect.componentManagerStart]
  match checkShouldVoteOnStartup env e1 with
  | (e2, some err) => emit e2 [Effect.throw err]
  | (e2, none) =>
      let epoch := env.FinalCurrentEpoch
      match env.Counter epoch with
      | Except.error err => emit e2 [Effect.throw err]
      | Except.ok counter =>
          match createEpochComponents env e2 epoch with
          | (e3, Except.error err) =>
              if errorsIs err ErrNotAuthorizedForEpoch then
                emit e3 [Effect.log LogLevel.info
                  "node is not authorized for current epoch - skipping initializing cluster consensus"]
              else
                emit e3 [Effect.throw err]
          | (e3, Except.ok components) =>
              match startEpochComponents env e3 counter components with
              | (e4, some err) => emit e4 [Effect.throw err]
              | (e4, none) => e4

/-- `Engine.onEpochSetupPhaseStarted`. -/
def onEpochSetupPhaseStarted (env : Env) (e : Engine) (nextEpoch : Epoch) : Engine :=
  let e1 := emit e [Effect.vote nextEpoch]
  match env.Vote nextEpoch with
  | some _ => emit e1 [Effect.log LogLevel.error "failed to submit QC vote for next epoch"]
  | none => e1

/-- One iteration of `Engine.handleEpochSetupPhaseStartedLoop` on the case
`firstBlock := <-e.epochSetupPhaseStartedEvents`; with an empty channel the worker stays
blocked. -/
def handleEpochSetupPhaseStartedLoop (env : Env) (e : Engine) : Engine :=
  match e.epochSetupPhaseStartedEvents with
  | [] => e
  | firstBlock :: pending =>
      let nextEpoch := env.NextEpochAt firstBlock.ID
      onEpochSetupPhaseStarted env { e with epochSetupPhaseStartedEvents := pending } nextEpoch

/-- The values of type `module.ReadyDoneAware` that `Ready` and `Done` collect: the component
manager `e.cm` of the engine, or a bundle of the registry. -/
inductive ReadyDoneAware where
  | componentManager
  | epochComponents (epoch : StartableEpochComponents)
  deriving DecidableEq, Repr

/-- `Engine.Ready`: the slice `components` handed to `util.AllReady`, whose channel closes once
every element of the slice is ready.  The `range` over the map visits each entry once. -/
def Ready (e : Engine) : List ReadyDoneAware :=
  [ReadyDoneAware.componentManager] ++
    e.epochs.map (fun entry => ReadyDoneAware.epochComponents entry.2)

/-- `Engine.Done`: the slice `components` handed to `util.AllDone`. -/
def Done (e : Engine) : List ReadyDoneAware :=
  [ReadyDoneAware.componentManager] ++
    e.epochs.map (fun entry => ReadyDoneAware.epochComponents entry.2)

/-- What the `select` of `handleEpochErrors` yields: the engine context is done first, or an
error (nil included) is received from the error channel of the bundle first. -/
inductive EpochErrorsSelect where
  | ctxDone
  | received (err : Option GoError)
  deriving DecidableEq, Repr

/-- `Engine.handleEpochErrors`, the goroutine `startEpochComponents` starts for a bundle. -/
def handleEpochErrors (e : Engine) (outcome : EpochErrorsSelect) : Engine :=
  match outcome with
  | EpochErrorsSelect.ctxDone => e
  | EpochErrorsSelect.received none => e
  | EpochErrorsSelect.received (some err) => emit e [Effect.throw err]

/-- The four channel fields of the struct `Engine`. -/
inductive Queue where
  | epochTransitionEvents
  | epochSetupPhaseStartedEvents
  | epochStopEvents
  | epochStartedEvents
  deriving DecidableEq, Repr

/-- The four worker loops the file defines. -/
inductive Worker where
  | handleEpochSetupPhaseStartedLoop
  | handleEpochTransitionLoop
  | handleStopEpochLoop
  | handleEpochStartedLoop
  deriving DecidableEq, Repr

/-- The channels as the composite literal of `New` makes them: `some n` for `make(chan T, n)`,
`none` for a field the literal does not set, which stays the nil channel. -/
def NewQueueCapacity : Queue → Option Nat
  | Queue.epochTransitionEvents => some 1
  | Queue.epochSetupPhaseStartedEvents => some 1
  | Queue.epochStopEvents => some 1
  | Queue.epochStartedEvents => none

/-- The workers `New` hands to the component manager builder, in the order of its `AddWorker`
calls. -/
def NewWorkers : List Worker :=
  [Worker.handleEpochSetupPhaseStartedLoop,
   Worker.handleEpochTransitionLoop,
   Worker.handleStopEpochLoop]

/-! ## Runs of the engine -/

/-- A step that can write the registry, together with what the collaborators answer while it
is taken: a notice from the transition queue or from the stop queue, or the call of `Start`. -/
inductive Notice where
  | transition (env : Env) (first : Header)
  | stop (env : Env) (counter : Nat)
  | start (env : Env)

/-- The engine after the transition worker (`onEpochTransition`) or the stop worker
(`stopEpochComponents`) has processed the notice, or after `Start` has returned. -/
def Notice.process (e : Engine) : Notice → Engine
  | Notice.transition env first => (onEpochTransition env e first).1
  | Notice.stop env counter => (stopEpochComponents env e counter).1
  | Notice.start env => Start env e

/-- The engine states visited while the notices are processed in order, the first state
included. -/
def run (e : Engine) : List Notice → List Engine
  | [] => [e]
  | n :: rest => e :: run (n.process e) rest

/-- The counter of the epoch a step can create a bundle for: the counter resolved from the first
block of a transition notice, the counter of the current epoch for `Start`; `none` for a stop
notice and when `epoch.Counter()` fails. -/
def Notice.resolvedCounter : Notice → Option Nat
  | Notice.transition env first =>
      match env.Counter (env.CurrentEpochAt first.ID) with
      | Except.ok counter => some counter
      | Except.error _ => none
  | Notice.stop _ _ => none
  | Notice.start env =>
      match env.Counter env.FinalCurrentEpoch with
      | Except.ok counter => some counter
      | Except.error _ => none

/-! ## Reading the record of effects -/

/-- The effects recorded between the engine states `before` and `after`. -/
def newEffects (before after : Engine) : List Effect :=
  after.effects.drop before.effects.length

/-- The `(height, callback)` pairs handed to `heightEvents.OnHeight`, in order. -/
def registrations : List Effect → List (Nat × Callback)
  | [] => []
  | Effect.onHeight height callback :: rest => (height, callback) :: registrations rest
  | _ :: rest => registrations rest

/-- The epochs handed to `factory.Create`, in order. -/
def creations : List Effect → List Epoch
  | [] => []
  | Effect.factoryCreate epoch :: rest => epoch :: creations rest
  | _ :: rest => creations rest

/-- The errors handed to `ctx.Throw`, in order. -/
def thrown : List Effect → List GoError
  | [] => []
  | Effect.throw err :: rest => err :: thrown rest
  | _ :: rest => thrown rest

/-- The contexts whose cancellation handle was invoked, in order. -/
def cancels : List Effect → List Nat
  | [] => []
  | Effect.cancel epochCtx :: rest => epochCtx :: cancels rest
  | _ :: rest => cancels rest

/-- The counters whose transaction-pool partition was cleared, in order. -/
def poolClears : List Effect → List Nat
  | [] => []
  | Effect.poolsClear counter :: rest => counter :: poolClears rest
  | _ :: rest => poolClears rest

/-- The height at which `onEpochTransition` asks for the previous epoch to be stopped, for a
first block of height `h`: `lastEpochMaxHeight := first.Height - 1` followed by
`epochMaxHeight + flow.DefaultTransactionExpiry + 1`, in `uint64` arithmetic. -/
def stopHeight (env : Env) (h : Nat) : Nat :=
  uint64Add (uint64Add (uint64Sub h 1) env.DefaultTransactionExpiry) 1

/-- The effects every run of `onEpochTransition` records first when the counter is not in the
map: the registration of the stop callback, then the call of the factory. -/
def transitionPrefix (env : Env) (first : Header) (c : Nat) : List Effect :=
  [Effect.log LogLevel.info "preparing to stop epoch components at height %d",
   Effect.onHeight (stopHeight env first.Height) (Callback.sendEpochStop (uint64Sub c 1)),
   Effect.log LogLevel.info "epoch transition: creating components for new epoch...",
   Effect.factoryCreate (env.CurrentEpochAt first.ID)]

/-- Number of entries of the map stored under `key`. -/
def entriesFor (m : List (Nat × StartableEpochComponents)) (key : Nat) : Nat :=
  m.countP (fun p => decide (p.1 = key))

/-! ## Sample collaborators and inputs -/

/-- Collaborators of a node that is authorized in every epoch: block `id` lies in the epoch of
counter `id`, the factory builds a bundle whose parts are numbered after the epoch, every
bundle signals ready and done in time, and the expiry constant is 600; the finalized head is
the block 0 of epoch 0, in the staking phase, and votes succeed. -/
def authorizedEnv : Env :=
  { DefaultTransactionExpiry := 600
    CurrentEpochAt := fun id => Epoch.mk id
    Counter := fun epoch => Except.ok epoch.ref
    Create := fun epoch => Except.ok (epoch.ref, epoch.ref, epoch.ref, epoch.ref, epoch.ref,
      epoch.ref)
    readyBeforeTimeout := fun _ => true
    doneBeforeTimeout := fun _ => true
    FinalPhase := Except.ok EpochPhase.staking
    FinalHead := Except.ok (Header.mk 0 0)
    FinalCurrentEpoch := Epoch.mk 0
    NextEpochAt := fun id => Epoch.mk (id + 1)
    Vote := fun _ => none }

/-- The first block of epoch 1, at height 1000. -/
def firstBlockOfEpoch1 : Header := Header.mk 1 1000

/-- The first block of epoch 2, at height 1100: epoch 1 lasted 100 blocks. -/
def firstBlockOfEpoch2 : Header := Header.mk 2 1100

/-- The first block of epoch 3, at height 1200: epoch 2 lasted 100 blocks. -/
def firstBlockOfEpoch3 : Header := Header.mk 3 1200

/-- Three transitions in a row, all of them before the first stop height 1600. -/
def threeTransitions : List Notice :=
  [Notice.transition authorizedEnv firstBlockOfEpoch1,
   Notice.transition authorizedEnv firstBlockOfEpoch2,
   Notice.transition authorizedEnv firstBlockOfEpoch3]

/-- The engine built by `New` after the transition to epoch 1 has been processed once. -/
def engineInEpoch1 : Engine := (onEpochTransition authorizedEnv New firstBlockOfEpoch1).1

/-- Collaborators of a node that is authorized in no epoch: as `authorizedEnv`, but the factory
answers `ErrNotAuthorizedForEpoch`. -/
def unauthorizedEnv : Env :=
  { authorizedEnv with Create := fun _ => Except.error ErrNotAuthorizedForEpoch }

/-- Collaborators whose bundles never signal: as `authorizedEnv`, but every race against the
timeout is lost. -/
def stuckEnv : Env :=
  { authorizedEnv with
    readyBeforeTimeout := fun _ => false
    doneBeforeTimeout := fun _ => false }

/-- A bundle for epoch 1, as the factory of `authorizedEnv` builds it. -/
def bundleOfEpoch1 : EpochComponents := NewEpochComponents 1 1 1 1 1 1

/-- The bundle A of epoch 0, started on context 0. -/
def bundleA : StartableEpochComponents :=
  NewStartableEpochComponents (NewEpochComponents 0 0 0 0 0 0) 0

/-- An engine that runs the bundle A for epoch 0 and nothing else. -/
def engineInEpoch0 : Engine :=
  { New with
    epochs := [(0, bundleA)]
    contexts := 1 }

/-- The transition to epoch 1, the stop of epoch 1, and the transition to epoch 1 delivered once
more. -/
def revisitNotices : List Notice :=
  [Notice.transition authorizedEnv firstBlockOfEpoch1,
   Notice.stop authorizedEnv 1,
   Notice.transition authorizedEnv firstBlockOfEpoch1]

/-- Collaborators whose factory breaks: as `authorizedEnv`, but `Create` fails with an error of
its own. -/
def brokenFactoryEnv : Env :=
  { authorizedEnv with Create := fun _ => Except.error (GoError.errorf "disk failure" []) }

end EpochMgr

/-!
# Epoch queries of a protocol-state snapshot

A shallow embedding of methods of `EpochQuery` in `state/protocol/badger/snapshot.go`.
A method that returns `(value, error)` returns a pair of options here, `none` standing for
nil, so that "a value together with an error" can be stated.  The protocol state is read
through `State.EpochStateAtBlockID`.
-/

namespace Badger

open EpochMgr

/-- The sentinel `protocol.ErrNextEpochNotSetup` (declared in `state/protocol/errors.go`). -/
def ErrNextEpochNotSetup : GoError := GoError.sentinel "protocol.ErrNextEpochNotSetup"

/-- The sentinel `protocol.ErrNextEpochNotCommitted` (declared in
`state/protocol/errors.go`). -/
def ErrNextEpochNotCommitted : GoError := GoError.sentinel "protocol.ErrNextEpochNotCommitted"

/-- The sentinel `protocol.ErrNextEpochAlreadyCommitted` (declared in
`state/protocol/errors.go`). -/
def ErrNextEpochAlreadyCommitted : GoError :=
  GoError.sentinel "protocol.ErrNextEpochAlreadyCommitted"

/-- The sentinel `protocol.ErrNoPreviousEpoch` (declared in `state/protocol/errors.go`). -/
def ErrNoPreviousEpoch : GoError := GoError.sentinel "protocol.ErrNoPreviousEpoch"

/-- The sentinel `storage.ErrNotFound` (declared in package `storage`). -/
def ErrNotFound : GoError := GoError.sentinel "storage.ErrNotFound"

/-- Go `irrecoverable.IsException(err)`: some error of the chain was built by
`irrecoverable.NewExceptionf`. -/
def isException : GoError → Bool
  | GoError.exceptionf _ _ => true
  | GoError.wrapf _ _ inner => isException inner
  | _ => false

/-- Modelled from the spec: `flow.EpochSetup` (package `model/flow`), the service event that
sets an epoch up; the queries read its `Counter`, `body` stands for the rest. -/
structure EpochSetup where
  Counter : Nat
  body : Nat
  deriving DecidableEq, Repr

/-- Modelled from the spec: `flow.EpochCommit` (package `model/flow`), the service event that
commits an epoch; the queries read its `Counter`, `body` stands for the rest. -/
structure EpochCommit where
  Counter : Nat
  body : Nat
  deriving DecidableEq, Repr

/-- Modelled from the spec: `flow.EpochExtension` (package `model/flow`), a range of views
added to an epoch. -/
structure EpochExtension where
  FirstView : Nat
  FinalView : Nat
  deriving DecidableEq, Repr

/-- Modelled from the spec: `flow.RichEpochStateEntry` (package `model/flow`), of which the
queries read the setup and commit events of the previous, current and next epoch and the
extensions `PreviousEpoch.EpochExtensions` and `NextEpoch.EpochExtensions`.  A field holds the
value its Go pointer points to. -/
structure RichEpochStateEntry where
  PreviousEpochSetup : EpochSetup
  PreviousEpochCommit : EpochCommit
  PreviousEpochExtensions : List EpochExtension
  CurrentEpochSetup : EpochSetup
  CurrentEpochCommit : EpochCommit
  NextEpochSetup : EpochSetup
  NextEpochCommit : EpochCommit
  NextEpochExtensions : List EpochExtension
  deriving DecidableEq, Repr

/-- Modelled from the spec: `protocol.EpochProtocolState` (package `state/protocol`), the
answer of `EpochStateAtBlockID`, with its methods `EpochPhase()`, `Entry()` and
`PreviousEpochExists()` as fields. -/
structure EpochProtocolState where
  EpochPhase : EpochPhase
  Entry : RichEpochStateEntry
  PreviousEpochExists : Bool
  deriving DecidableEq, Repr

/-- Modelled from the spec: `protocol.TentativeEpoch` as `inmem.NewSetupEpoch` builds it
(package `state/protocol/inmem`): an epoch backed by its setup event alone. -/
structure TentativeEpoch where
  setupEvent : EpochSetup
  deriving DecidableEq, Repr

/-- Modelled from the spec: `inmem.NewSetupEpoch`. -/
def NewSetupEpoch (setupEvent : EpochSetup) : TentativeEpoch := TentativeEpoch.mk setupEvent

/-- Modelled from the spec: `protocol.CommittedEpoch` as the constructors of package
`state/protocol/inmem` build it: setup and commit events, extensions, and the height
boundaries that are known. -/
structure CommittedEpoch where
  setupEvent : EpochSetup
  commitEvent : EpochCommit
  extensions : List EpochExtension
  firstHeight : Option Nat
  finalHeight : Option Nat
  deriving DecidableEq, Repr

/-- Modelled from the spec: `inmem.NewCommittedEpoch`, an epoch without known boundaries. -/
def NewCommittedEpoch (setupEvent : EpochSetup) (commitEvent : EpochCommit)
    (extensions : List EpochExtension) : CommittedEpoch :=
  CommittedEpoch.mk setupEvent commitEvent extensions none none

/-- Modelled from the spec: `inmem.NewEpochWithStartBoundary`, an epoch whose first height is
known. -/
def NewEpochWithStartBoundary (setupEvent : EpochSetup) (commitEvent : EpochCommit)
    (extensions : List EpochExtension) (firstHeight : Nat) : CommittedEpoch :=
  CommittedEpoch.mk setupEvent commitEvent extensions (some firstHeight) none

/-- Modelled from the spec: `inmem.NewEpochWithEndBoundary`, an epoch whose final height is
known. -/
def NewEpochWithEndBoundary (setupEvent : EpochSetup) (commitEvent : EpochCommit)
    (extensions : List EpochExtension) (finalHeight : Nat) : CommittedEpoch :=
  CommittedEpoch.mk setupEvent commitEvent extensions none (some finalHeight)

/-- Modelled from the spec: `inmem.NewEpochWithStartAndEndBoundaries`, an epoch whose first
and final heights are known. -/
def NewEpochWithStartAndEndBoundaries (setupEvent : EpochSetup) (commitEvent : EpochCommit)
    (extensions : List EpochExtension) (firstHeight finalHeight : Nat) : CommittedEpoch :=
  CommittedEpoch.mk setupEvent commitEvent extensions (some firstHeight) (some finalHeight)

/-- The struct `State`, of which the embedded code uses
* `state.protocolState.EpochStateAtBlockID`;
* the database, read through `operation.RetrieveEpochFirstHeight(epoch, &height)` inside
  `state.db.View`: `RetrieveEpochFirstHeight epoch` is the height it writes, or the error it
  returns, in which case it leaves `height` as it was;
* the field `sporkRootBlockHeight`. -/
structure State where
  EpochStateAtBlockID : Nat → Except GoError EpochProtocolState
  RetrieveEpochFirstHeight : Nat → Except GoError Nat
  sporkRootBlockHeight : Nat

/-- The struct `Snapshot`: the state and the identifier of the reference block. -/
structure Snapshot where
  state : State
  blockID : Nat

/-- The struct `EpochQuery`. -/
structure EpochQuery where
  snap : Snapshot

/-- `EpochQuery.NextUnsafe`. -/
def NextUnsafe (q : EpochQuery) : Option TentativeEpoch × Option GoError :=
  match q.snap.state.EpochStateAtBlockID q.snap.blockID with
  | Except.error err =>
      (none, some (GoError.wrapf "could not get protocol state snapshot at block %x: %w"
        [FmtArg.identifier q.snap.blockID] err))
  | Except.ok epochState =>
      match epochState.EpochPhase with
      | EpochPhase.staking => (none, some ErrNextEpochNotSetup)
      | EpochPhase.fallback => (none, some ErrNextEpochNotSetup)
      | EpochPhase.setup => (some (NewSetupEpoch epochState.Entry.NextEpochSetup), none)
      | EpochPhase.committed => (none, some ErrNextEpochAlreadyCommitted)
      | _ =>
          (none, some (GoError.errorf
            "data corruption: unknown epoch phase implies malformed protocol state epoch data"
            []))

/-- `EpochQuery.NextCommitted`. -/
def NextCommitted (q : EpochQuery) : Option CommittedEpoch × Option GoError :=
  match q.snap.state.EpochStateAtBlockID q.snap.blockID with
  | Except.error err =>
      (none, some (GoError.wrapf "could not get protocol state snapshot at block %x: %w"
        [FmtArg.identifier q.snap.blockID] err))
  | Except.ok epochState =>
      let entry := epochState.Entry
      match epochState.EpochPhase with
      | EpochPhase.staking => (none, some ErrNextEpochNotCommitted)
      | EpochPhase.fallback => (none, some ErrNextEpochNotCommitted)
      | EpochPhase.setup => (none, some ErrNextEpochNotCommitted)
      | EpochPhase.committed =>
          if entry.NextEpochExtensions.length > 0 then
            (none, some (GoError.exceptionf
              "state with current epoch %d corrupted, because future epoch %d already has %d extensions"
              [FmtArg.uint entry.CurrentEpochCommit.Counter,
               FmtArg.uint entry.NextEpochSetup.Counter,
               FmtArg.int entry.NextEpochExtensions.length]))
          else
            (some (NewCommittedEpoch entry.NextEpochSetup entry.NextEpochCommit
              entry.NextEpochExtensions), none)
      | _ =>
          (none, some (GoError.errorf
            "data corruption: unknown epoch phase implies malformed protocol state epoch data"
            []))

/-- `EpochQuery.retrieveEpochHeightBounds`: the five results
`(firstHeight, finalHeight, isFirstHeightKnown, isLastHeightKnown, err)`.  The named results
start at their zero values; `state.db.View` returns what the function it runs returns. -/
def retrieveEpochHeightBounds (q : EpochQuery) (epoch : Nat) :
    Nat × Nat × Bool × Bool × Option GoError :=
  let first : Except GoError (Nat × Bool) :=
    match q.snap.state.RetrieveEpochFirstHeight epoch with
    | Except.error err =>
        if errorsIs err ErrNotFound then Except.ok (0, false) else Except.error err
    | Except.ok firstHeight => Except.ok (firstHeight, true)
  match first with
  | Except.error err => (0, 0, false, false, some err)
  | Except.ok (firstHeight, isFirstHeightKnown) =>
      match q.snap.state.RetrieveEpochFirstHeight (uint64Add epoch 1) with
      | Except.error err =>
          if errorsIs err ErrNotFound then
            (firstHeight, 0, isFirstHeightKnown, false, none)
          else
            (0, 0, false, false, some err)
      | Except.ok subsequentEpochFirstHeight =>
          (firstHeight, uint64Sub subsequentEpochFirstHeight 1, isFirstHeightKnown, true, none)

/-- `EpochQuery.Previous`. -/
def Previous (q : EpochQuery) : Option CommittedEpoch × Option GoError :=
  match q.snap.state.EpochStateAtBlockID q.snap.blockID with
  | Except.error err =>
      (none, some (GoError.wrapf "could not get protocol state snapshot at block %x: %w"
        [FmtArg.identifier q.snap.blockID] err))
  | Except.ok epochState =>
      let entry := epochState.Entry
      if !epochState.PreviousEpochExists then
        (none, some ErrNoPreviousEpoch)
      else
        let setup := entry.PreviousEpochSetup
        let commit := entry.PreviousEpochCommit
        let extensions := entry.PreviousEpochExtensions
        match retrieveEpochHeightBounds q setup.Counter with
        | (_, _, _, _, some err) =>
            (none, some (GoError.wrapf "could not get epoch height bounds: %w" [] err))
        | (firstHeight, finalHeight, firstHeightKnown, finalHeightKnown, none) =>
            if firstHeightKnown && finalHeightKnown then
              (some (NewEpochWithStartAndEndBoundaries setup commit extensions firstHeight
                finalHeight), none)
            else if firstHeightKnown && !finalHeightKnown then
              (some (NewEpochWithStartBoundary setup commit extensions firstHeight), none)
            else if !firstHeightKnown && finalHeightKnown then
              (some (NewEpochWithEndBoundary setup commit extensions finalHeight), none)
            else if !firstHeightKnown && !finalHeightKnown then
              (some (NewCommittedEpoch setup commit extensions), none)
            else
              (none, some (GoError.errorf
                "sanity check failed: impossible combination of boundaries for previous epoch"
                []))

/-- Step (ii) of `Snapshot.SealingSegment`: the loop over `head.Payload.Seals` that keeps in
`lowestSealedByHead` the header of lowest height; `ByBlockID` is `s.state.headers.ByBlockID`,
`sealBlockID` is `seal.BlockID`, and the first call is made with `blockSealedAtHead`. -/
def lowestSealedByHead (ByBlockID : Nat → Except GoError Header) (sealBlockID : Nat)
    (lowest : Header) : List Nat → Except GoError Header
  | [] => Except.ok lowest
  | sealInHead :: rest =>
      match ByBlockID sealInHead with
      | Except.error e =>
          Except.error (GoError.wrapf "could not get block (id=%x) for seal: %w"
            [FmtArg.identifier sealBlockID] e)
      | Except.ok h =>
          if h.Height < lowest.Height then
            lowestSealedByHead ByBlockID sealBlockID h rest
          else
            lowestSealedByHead ByBlockID sealBlockID lowest rest

/-- Step (iii) of `Snapshot.SealingSegment`: the value of `limitHeight` after the first `if`,
for `blockSealedAtHead.Height = sealedHeight` and `flow.DefaultTransactionExpiry = expiry`. -/
def historyCutoff (state : State) (expiry sealedHeight : Nat) : Nat :=
  let limitHeight := state.sporkRootBlockHeight
  if sealedHeight > uint64Add state.sporkRootBlockHeight expiry then
    uint64Sub sealedHeight expiry
  else
    limitHeight

/-- The lines of `Snapshot.SealingSegment` that follow step (iii): the lower of the cut-off and
of `lowestSealedByHead.Height = lowestHeight` becomes `limitHeight`, and a value below the
spork root height ends the call with an error. -/
def sealingSegmentLimitHeight (state : State) (expiry sealedHeight lowestHeight : Nat) :
    Except GoError Nat :=
  let limitHeight := historyCutoff state expiry sealedHeight
  if lowestHeight < limitHeight then
    let limitHeight := lowestHeight
    if limitHeight < state.sporkRootBlockHeight then
      Except.error (GoError.errorf
        "unexpected internal error: calculated history-cutoff at height %d, which is lower than the spork's root height %d"
        [FmtArg.uint limitHeight, FmtArg.uint state.sporkRootBlockHeight])
    else
      Except.ok limitHeight
  else
    Except.ok limitHeight

/-- Steps (ii) and (iii) of `Snapshot.SealingSegment` in sequence, up to the sanity check: the
loop over `head.Payload.Seals`, started with `blockSealedAtHead`, then the choice of
`limitHeight` from `blockSealedAtHead.Height` and `lowestSealedByHead.Height`. -/
def sealingSegmentHistoryLimit (state : State) (expiry : Nat)
    (ByBlockID : Nat → Except GoError Header) (sealBlockID : Nat) (blockSealedAtHead : Header)
    (seals : List Nat) : Except GoError Nat :=
  match lowestSealedByHead ByBlockID sealBlockID blockSealedAtHead seals with
  | Except.error err => Except.error err
  | Except.ok lowest =>
      sealingSegmentLimitHeight state expiry blockSealedAtHead.Height lowest.Height

/-! ## Sample protocol states -/

/-- Sample headers: the block `id` has the height `10 * id`. -/
def sampleHeaders (id : Nat) : Except GoError Header := Except.ok (Header.mk id (10 * id))

/-- A database that stores the first height 1000 for epoch 4 and 2000 for epoch 5, and nothing
for any other epoch. -/
def sampleFirstHeights (epoch : Nat) : Except GoError Nat :=
  if epoch = 4 then Except.ok 1000
  else if epoch = 5 then Except.ok 2000
  else Except.error ErrNotFound

/-- An entry in which the previous, current and next epoch have the counters 4, 5 and 6 and
no epoch has extensions. -/
def sampleEntry : RichEpochStateEntry :=
  { PreviousEpochSetup := EpochSetup.mk 4 0
    PreviousEpochCommit := EpochCommit.mk 4 0
    PreviousEpochExtensions := []
    CurrentEpochSetup := EpochSetup.mk 5 0
    CurrentEpochCommit := EpochCommit.mk 5 0
    NextEpochSetup := EpochSetup.mk 6 0
    NextEpochCommit := EpochCommit.mk 6 0
    NextEpochExtensions := [] }

/-- A query at block 7 of a state that knows `sampleEntry` in the given phase at every
block, with the first heights of `sampleFirstHeights` and the spork root at height 100. -/
def queryInPhase (phase : EpochPhase) : EpochQuery :=
  EpochQuery.mk (Snapshot.mk
    (State.mk (fun _ => Except.ok (EpochProtocolState.mk phase sampleEntry true))
      sampleFirstHeights 100) 7)

end Badger

/-!
# Block context for off-chain re-execution

A shallow embedding of `fvm/evm/offchain/blocks/block_context.go`.  A `gethCommon.Hash` is
the string of its 64 hexadecimal digits.
-/

namespace Blocks

/-- Modelled from the spec: `flow.ChainID` (package `model/flow`), a string type with the
constants `flow.Mainnet` and `flow.Testnet`; `other name` stands for any other chain. -/
inductive ChainID where
  | Mainnet
  | Testnet
  | other (name : String)
  deriving DecidableEq, Repr

/-- A `gethCommon.Hash`, written as 64 hexadecimal digits. -/
abbrev Hash := String

/-- The zero value `gethCommon.Hash{}`. -/
def emptyHash : Hash := "0000000000000000000000000000000000000000000000000000000000000000"

/-- `gethCommon.HexToHash` on a string of 64 hexadecimal digits. -/
def HexToHash (s : String) : Hash := s

/-- The constant `blockHashListFixHCUEVMHeightMainnet`. -/
def blockHashListFixHCUEVMHeightMainnet : Nat := 8357079

/-- The constant `blockHashListFixHCUEVMHeightTestnet`. -/
def blockHashListFixHCUEVMHeightTestnet : Nat := 16848829

/-- The constant `coinbaseAddressChangeEVMHeightTestnet`. -/
def coinbaseAddressChangeEVMHeightTestnet : Nat := 1385490

/-- The variable `genesisCoinbaseAddressTestnet`, as the hexadecimal digits of the address. -/
def genesisCoinbaseAddressTestnet : String := "0000000000000000000000021169100eecb7c1a6"

/-- The slice `mainnetHashes` of `generateFixedHashes`. -/
def mainnetHashes : List String :=
  ["acb08ca38e1f155f1d038c6d2e1acc0a38915624b5772551c4f985f3ebc3a3e0",
   "5914c330c16ee5e6b8e60d0435d0390ef3a29cde3e177090c23cf34e111792eb",
   "89efffebedded274fc0c72a4d3e953d990b5f54b82b696c65390f87b2f9b331c",
   "824a13a4d2252ff045cc785aa77c6ab8f85b48a24aa5ac198417bc05248e3d20",
   "5c0eefa82e36a4a7bc8b67f4856f756407189f4011d74c1cc6125599bcd6a18d",
   "6e6435cf4a9dc503a213fee4c8e5909f32ef284b3dbe780fadf78ce2a70a6a56",
   "f312e8571dbd7e2c347a0032d7ac42b62966a833ddacf2ba1fd1b0c1dbf755c0",
   "e9ef75691eadf0e6e9ca88cc0dc9c29e520aa611dc21ba390eead58284949873",
   "bc2fedff2ca293a75dc36c577dd05742671549586a333e458c8c723a3d3ba40e",
   "04256e11dc4ecc63eee1b3ad22e31860d26a1cc2103e34f91f12f4a61cd3150f",
   "454081c5e315537eda05e5fdd8e5b34df7473386c16d140dcf0df9c35159310c",
   "f4a897310404d46b19a87a45f4e53743c12c1b4530383d3a8ecc972940461cf0",
   "81765ca144baff8e65ebe989403c8f86ede26cee5580ff5320817a108e54e887",
   "cb96415a6f8d3ac6abed34fcc83b2745775c0bdffb7561392e1eeab63c28bd19",
   "c70a0e0279c46e6fae534bf1dbee7796078ae1a9c214d7719b12dcfd4fbbf55c",
   "4668064ef2d42bbae07e44276b55922ff7830f8ff203d91f91854252bf42dcfc",
   "bc966f7acce679568f84c0f6164079a4b238b856bce15091fd62d3d94506b92e",
   "b6d1beb5b1be5715eb61f0b6528e339c75604f2ebf0605238905a0c1fc4f0594",
   "e367fba588c1fa71fec1e769963d3106a0e73d13e2ec441d2de44949673804b0",
   "2ea9607ed6160325c0fb6514ad2d0eb4397afe131c787a6d189e39907ade71ac",
   "5297cff89b9f573c2f7920be0c8d3e71c32f3016a1c893e9f41048e979533a70",
   "9f81c00947b14ddfb6793437a787d0bb8ba5692e264f7f5087bbd4e8bdc961f7",
   "6ef10778647ef844ce9c53b740890980a564619e3ce866faea7bd75b67971873",
   "db1d873cfb81b4aa32b7d575542d545176782737d7a7f3c9a288205124e91467",
   "cdab6dc09455023a24c38ae89232d4dd5e76d13935f38eb4d60a8ae3c2f87270",
   "9cc982be62369ee866334c1ce1660046cf23f109e7baea6a6525ac9fa2657143",
   "8ef919c45b46bbee779b7511a0dfe23cc9631bbd48103e2f9b7cbe9b492ac61e",
   "26da1293ebe6664711039a56d9f2fcb245a7b3803c4219cbd27430307624977b",
   "681c1001f30ebd45fe2ec071e168476c3d3367a18cbbb14784f5ad549b6f6c76",
   "03a921c3db624982c82090c5f562599f0bef0e542bf145c3784e055dafc43f75",
   "e0304d9cd962ba44165e5dcd4c29bae6e9eeaa263413c8e0ca41d0cf883130a9",
   "a931939f13b5dc447464b115b487820467743016fb5bee8b43864ad836a98261",
   "c7ed304fca9a13944e3f81c5fe4e8df4a7327d1c89fd63de357551e99996d9bd",
   "80f7f4870cdd284f129babe4d08c002acb3a63a43b6d73ea39c28820c9002d20",
   "e2d09b3b3d27e1d5448c1772e9d300fa1615c791e2d8b4ebce3d4c24e6058cbf",
   "754869cba21c3bd12d94a23571a947f8a33dc369e6cf4ca18f2fd40e7b5f5a53",
   "e2dc7e12450ddbc50087fd76041623416c13010be0a804f4676af1768e5d61ac",
   "7bb9175b93b7cab1e02a3f571f399db950908b57b45f1d584f3a5ac1781496a8",
   "2e7e5f02e2c107b73dae8b20a0f52d52ea1aa7248c6b4876f70808e5168dada9",
   "e19d12c9f01d7b8cdf6831e269e0a011cd744a10aa1da65780f80a50c812eafb",
   "6bdaa6249d9616d1244a7e23995dc416b9f3cc464ca2d5941cccb8d5b1a1eac8",
   "38e68d98e93683c14c3c0cbf82298c329857503bd88e488c6cc8ce83436295bd",
   "e6149e3ed7747619bcba88919daf4e9dc167a276887e8bad88158fe796aff9a9",
   "e6c8562da3023e8d864f04545f26ec68f5a3d9ad984e225104ee63617e22cdec",
   "677b31d0b0fd1be96e13968e9cf679797082b5fe7a2c3a9934516f9d05a35c5d",
   "d894c76d4e18fdd1424435028631b008224fa480faf7dd4404faa26805f226f4",
   "38421bae5c3e39fb73178621e97fc5a8eeb1b6e25a8faba76aa6f808819aa263",
   "ac90729f29643e4107280ae8b69fe4e862c1cfbeef57a9f70579b16db9479410",
   "a671eff0c687d04816889d0c56e704796690771cb5a1eff8c83ae5ef417f79bf",
   "601fc2b0ca9979c4b092a812a88934f46381e42037278523f191e8207ad1e20b",
   "0dcadeeb37a0836c4aa287c43a7f1e6e72eaabc8fb0f5ad6209f87e69f2bf412",
   "02bd187372fe4c6bf894fabf7191afca7f2f052e5d42a2cc6fb7f2e6b1a07716",
   "39da57b24b312b1838a44de3286c51a0189608bfaa5904a7a2a35c675b947322",
   "fe16a19cdeacc8ce05bf38d3617c1e90579b6991775d3c0358bf3dc52aeae032",
   "9e7e8957797b6fb78679c60c249cb8b83e045e760a6ec24c506d565ae94c1730",
   "7ae42245a1611e7d32d573ddc2863f9f1902683a17d46b57794ec90ad61a9d6d",
   "f599ba650e87dcf51733485aef08e71f1d8f5e47c459250902daf3db9bb9f526",
   "7d914de318e12963c059aa04fe03cb45849b16620a1e7c2a883164bca65ad3e7",
   "d66014e30f72e1bb309235b6d9b8db6f6fe13b624c0ec81ed657ef215d13e29f",
   "7d25f2ab344c3ce12cad30a992264dae73668e694d8690bff158c0c66951b6eb",
   "c4eeb03288ac4ec6166d31909e3fdea938b76f637bdd4963910aa0cfedf4496f",
   "a30beb208f4ccaec67f83f72b72d18a428b5876ebf53184248ab3438c226729c",
   "67d9c883f3f8df5afdd8e897f54f4ddd4522d761d23429c1697034e3bebe8df6",
   "fffc4c5760e75dc839acb6654e0274afbe07b20ca46e90b0da0262432473955c",
   "3238927e1ff0d18a573cff7ea6d081579bd9ec9de9f6ba2f67301ef88d65057c",
   "3af6b7b1124dbabca4aa2734711484ff6fc6d76130cf81633e051ffdc01b3583",
   "0475c59145cad6563ed3f0cae8d03a09c73d4862c5a090f8d5ba5c43f3f744fe",
   "896c5230f74946f18dc31d879d228715303ddaf01d6c1050dc4cac1cab8f5273",
   "a0959444effc54fc3d04a31a87ec466063c510762b2b4e099cda3794c0d59c07",
   "0f7b8362a5f8bfe9104a2dbcbf25dac6dfaae4fd41862cb0f0e028062b7db9fd",
   "83303d47daa193a0e9f1cb38b7fef57508b6f8f80aa46d5663f64800c9bd25de",
   "82892728f36bf81b17e2fc6762444d938f5b8b6e80c09c7189e73a8b6b9b2b04",
   "39f93ea2ce0afb9ea531662a38cd65984ae38b10076a37ddd10fd45ed35674d0",
   "6783668b699abfe0b3bcbbc79988e7c1c5191038497cd73e52502702d18b8cdd",
   "6fb5147a8b6cff70490dd2dcbee8c26e32808034978f8989bd0d73ac1c5cd79b",
   "b3b550f194004cfb54f24f738fe901058fa4eea680d5f704a1e49996aa7df019",
   "2e81de6c3c6a1828322fea4a5d7add9c9c4bc940d37760cd78a15f7185bbec5e",
   "8ea70bc7c983074e7d32d9c47e24ebea9ddc0a04aa4061e82c40566cbb886061",
   "f0c2785d27868755124be6ae2cdde18804893493f53c2bf3b9ce3bc37a983afb",
   "f7e684111cb2b43644b5e2a07bcdfbb9231ba8647dae01103bb15ee84ed59dce",
   "a4c839a3ec06907bc87e18a06aab314e184bf55d8d66acf57012d81bed5f5a0a",
   "e6f94c1f935b7505d65b70571a169572a5586582dfcd7ec43614eb5a53169556",
   "5f67958fb79aec5be7e950deb0a9a86fbcd328eb75298946014f06c200fd8dcb",
   "ba54fe0ea8a35e899ec5e5ff9aa888ae7c5ed8630336a098c131809b6e3a815c",
   "11eea2b61707439bfcc198d3d483fc7fbc8f5c83f70b6190b6bd1bd11a0edfd4",
   "d1088b19e8814dca954f5a78f827ea6e20de2b8e0839d5f2d2ece9cc58d72c76",
   "c5e0a35346bc8c9a45338f5844cd13f5f5b94ae90494c8609b7fe2dd69925429",
   "32089be74f3bd2191d7e8116a742b40f613d75bd77765c28a11d937755ca52fe",
   "f584db14565d9abc212b02935724bf05da840670b46e83a64990d7463571f9c2",
   "a959dab01d61bfb54bfcb58bcdb609f42e2a062fcc63eb3d5b866e582fc589a8",
   "cf09a5617dde47025acdc7dc544f9d78fa396c383ecee103b5b74b532d9a586a",
   "03bbdbf7f22cd92a696f1ffac34c99d7e57c201edfdfc617826ef2f648d38475",
   "7f1a8c24c456052fcc3721707a56c457eb7d80ce8d83d8d23c5a9a0cb70eeaec",
   "2ed7147f47b4f12924358d18f778cec7d28dd53e9189a5096a7449f42a1ce29d",
   "c78b588dc0e967fc85abad5d5a18f2be86b7a77363ce701f245507a7043de3f2",
   "bcc0b4ed36d1512825bb2a2db5ed41cf5a7f5fa5634c8199415eae7a145ab772",
   "c520f97ac043cf2431641d4532c4a44f9664e728c08382ec798ac49997f19695",
   "a7825ca8bc2f6ac8556b88cc9a3c2a533504e5a8e011149cc15eaace9320c23d",
   "de8cc99029674ccd55105e8b5182b22e8c219a8a35e9e5fbb386d232e8e1ffd4",
   "2ae0a0239db0cdc5108215d38f30d783b4619824a5b420cbfca4fd6242586fa5",
   "3ce22aea444053e3456ca4edacb1060a5a355a7ca7e585af873388f99e654028",
   "f18aea7d73a0a8b2c313eaf7e742a08225e68341de787a4003fe49c06a5d4d13",
   "82dfb93809f99c59f6d41402e863580fe080278faca77cf2eddb651fedb77b05",
   "08c1d039a238c625ff6715aafc33ee8a1675bfa482ba6edbd0d9cc63d947b5b5",
   "a90aa55518cc9000eceade9b79644cf723c22f60caf849604dbb2ac22a8b5a86",
   "077cd67222a27be3640cd4d5cb3946bbc0f7df3fca7c5dd2ab66e4f9187f979e",
   "e8ccaf643c060c92fca26ab6adec347a6c3fee28bfb2089c5973bfc319cd8da5",
   "49e9c991a4d793b5ab62c3dc16290cfee8389fb12ab90e182964dbbefb72ad3e",
   "9ab6a29e6b5cc88f1791de37ab48ea5daa9e222365fb2b590c8f04109a372a5c",
   "8022544ade8da7ab8b34bf3bc8cd15e90697a4e72e760c809880830e2aadbdc5",
   "cc6b301ae355cdadf19e48e6cde96d98961c9aee896bf9ed815cb47dae0e1c22",
   "02b5781e6a697fdd26883f63ecb7d947e0789ed1fffb551bec429a139c0dcef8",
   "bfd97e8342aee5eee212638e37b691edac398b54bc535ae3458ca72c530ebba6",
   "1546f5334900491745f87d82fec8082c65cbf6e975b9474041cc7e22fe369130",
   "8d42b170698fc0c2662a2fc6d1017a45bb7af9c335e1c5a2cc107759d3aab7dd",
   "0cd379d9866856ed9fc3ad93190cee5d5ab8dc738b71fbb4bfa14e44d2b342bd",
   "b287e14cd59493d0f0a8d6a8a8ccb056da71527af9610bd38a80f89f43ba9e0e",
   "699f32bab442ea206544c0478fbf8e55093bdf246346014f242bdf1be60b9b9f",
   "ef55d74e0c1b660dd69bbef8b1d87ad827da29f2ab5169c14fd17e5ab3f2906e",
   "cef5074e106ea292c52651ae438bd80ff34b8ebfd31e00ab137190ac8829967f",
   "312dba438b767fb62feeed74223e5345241e3c9d078863b82c9768d52635d6e2",
   "102da56cd23259629a60db3c3e60eb2ddcf124ee47ed6e37e09b1cbd023a2a55",
   "d8a8e6bd81976810315c0950dffc466ae9ef5440629cbfdae970adf9be85a2eb",
   "d890f76eed51ff1f08b2e08c13123b5b59b92db93874c3a1774c22589ccdfbfa",
   "8b9a63cd3ff092638e11ed29b542cce0b5098f2f3ef965f5c0b4c18cae90bc69",
   "1abf154ec1d34306d97189ea9af96a6a33c4bdc597cbc14897b89decbf38661e",
   "07ca0710e82029b6385832a4b546e0336c587b8ea9280fc384afb611d80ab7ba",
   "b043f239fe9bb9e78e4102b7ed49d35beea61ed7d677eb53cdbcbbc2783b4079",
   "1b50849c36638c9afe17cb095d4bc978d8883404b1c58cd3acf2ed09f188c602",
   "51853c7a3fa6b70dde4f16610ab43241a89ebd3bcd0c473606833551358a8f7c",
   "350b1984c35d9d48f6f0dbf97e33e76edabb0125538b52927182ea00a4736021",
   "126ea9840493f9ecbdb8cf04327f0ab8c9315a7420772b2bfd263fd16d1e28b1",
   "b0190ad8ed68d4f8f91a54240ac7e2205be58b5f8ac5f23e8ffd280c3e554c96",
   "47e46e9f19a2088625dcb5a1a5c6210f3b4f30e748ba23c6391f314fea4f5bcb",
   "82b39c4162a1e38739942ca62fb80aa1de7f9a833c0de58d67796a243175b917",
   "d0cd963ed709c3573789cd8e4c35ae28692db1a6c99f7b38aceb7411a4f7be98",
   "37a325b033d3f6f1d56f27dd4c5169301f7eba32e8f4c8a8349cc7ece87ddd9d",
   "51c95c79b6819aa2efb727fd29cd73368488e828fbde2b64af4576e79bf242f6",
   "3bc469e4ad8a997d246006f09febb05acfe065db25c4a33c8f2437b0dfef0878",
   "b58599ffd76d2147235706a200780a5ec6195e2a5c13d2b7b8d242b7c1958d16",
   "140462e616516eb56075d1ea6c01661c2f2638e471a28ccbfcb5d5cf94eb3e74",
   "9d1cd56f1a33c62840af5b75f5b1e3b0a1475db362a7b8999b8897c8defe8579",
   "5adea11dd63543557d0f95028656284e482e894672342b664c2d483654c96271",
   "b01f5826fe1aaf8cfa9955d9f2d66fa2e896e8406117b87291a05c8c0b1510d2",
   "5974e67c55df5f4c6a0e3230d4322aa70ee9ff975a6e0c65b4fdcf6b84d4b31e",
   "329fdcec3d7c1e61b190fa5ab4c6d58cdce2441671c695470c95e00679390289",
   "a5f0189e64f96ef6e06f5208718ba903d1934eb7f0b85aa38fade6e45e1278bb",
   "0b4ab1c1a890edd1b714c390399293cf1e1d1deef68ee4ef005e3b68ff17ce6d",
   "5449ba71016c81101f874c61702fe7c472d50c2bff7c815028cc6c84d761aaf9",
   "d5d5fdd27c59b705652ba82caf7ec3ddd07d4e3168ec4006b3c21b431cf82971",
   "8a2e4c552b152c8b76cb7e07ea727f26c607b600bb382af4b9f066041156a7fe",
   "96a49a267355918ba085c665fefbcc6a53e29b35734ec8d1570cbbec61081154",
   "f040e21168602b67d8afba7aff7cf0aaa4acdb463aedab7a29fe2248f41582d3",
   "a83dc07b7b05d05954aebd19afb76ab9794e35d1f0bfeb0222f7434579a9fec8",
   "3259f7323e6e0a7ca95dbec594b4b7ce5f7350bd54ac97a3bdc35c333e1024f2",
   "c84287dce56c2837eb140485775c13645d3d7195bad44174497c1624e3d6bcf8",
   "5326aed27fbdb6a4e59a974bee60aa1ae71195aaa311bfeba212c152e0f56266",
   "8d83acde8c0c2606bbda85fef834620309546855d5917d6162a3f14683095b47",
   "cba4417044bed9ff8f494919f23661efce69821367fe850a837f7cdd64f5d814",
   "1bf83c9a48b54e8b4b095bee90f5bcc1ac8e8897b351d93205a64c133bc5bd7b",
   "0ebb774b03cadda941343d9b2bbf2e7075f049e6e309dd232cf44a36578935ad",
   "d193e2601554fb3d1fa0c638e147297a76e4a6ac2c02209bc65d7294dbf002e6",
   "a9b3ba41d99da589a8dd1dfd776d121e6d4ac4f1ee52d1cc3517d2226fc09ad9",
   "dd53cbd732125e3f22ef9fadd789685d10a49f88f21a6dd66c3790a4b7f2b85b",
   "6f827b1068f38167235778d893da3e6c7a949a6641fa5b0aa4a116449e7545ba",
   "80c4debfeb8d3433350b12856003a0378485b087a0e51d4a974ec88fe8b899b2",
   "addf88642352377a5d80a9f576e1ed7b8754c09aba6be508e2b8f3b1d7d9e042",
   "8c961cd106e03576e181925fa16dfda42302f96da8679ef61eb64c1a4742e5b6",
   "7c02dcbda0fa59f3e843836105151bc1a49a66e2a02fb5941595d23abdd376c6",
   "45da6f88684c89476755a45df16d1bb602fde60f95d8756311495bb53b441637",
   "3df1b14731bb4b7a070864eeade24fa37c3584475fe3cf199f41709710ac7f4a",
   "6638900a817ceda30dbfcc8931ab64d047b281c71ce9e7d203f8790fcea042b1",
   "b2378c5c9b4812924571836703eeae38364924c2c0430e0a671f2b3a8d338130",
   "f4825a9397baa4bf07ad69e8dc7e69c03a76c0d394160729542f1b46ff03f338",
   "50573280946a2c75b36064277f4bbb79875881c6f9f55dc834b0f408ce02be00",
   "3a6903db22957442e3bd81727d3038c69562403aa8584302f49c28e5f0f4f5ce",
   "081be91f15adc3c6591e317a188d524c1d16d01ba396508e5ed6a897c169e9a8",
   "84bddbda2880e71a37578cd427c7602c3580b6af74fe9640cdad994678ed6edc",
   "c1b6f2cf31192cf7a3643b57fa98ee056e0dd6c6f28eec65821f4fb5b6721971",
   "f9d11cea4b504a360c0d62c3d908d35f5742112588f2a9fa7eefb5d90c1383f5",
   "478adc2d34dce7af32071a0e2eedb8c7fb6ebb90bfa404f6ebe10776badf1fbd",
   "8d809a7afb8b0f327646e1efa6f00670642ba9dde2fa2569d67e5c11a2c822da",
   "0231b304c4325ac717cce997b2f33f885523062f931d812253035916abfb8e47",
   "f49b278ef762922930de0e7d4b8ada81b64d010539dbf5a2530e1f88c4a6ad29",
   "617f5ec465f421abd0e6291b6ca5f8e027f2d500b406d87b6056101bac98a1b4",
   "1081fddf73cb61f080a9fcef1d3ee2bdf466c3ed35876ee82482c1a49bdf2385",
   "25b819d32eb42de93e50bfbb656030051d7e4ff20d3c78e11506df28a64707ae",
   "97f38910f204943718d61a88cc539a3f281d540477b0fb2c7929aada1061a1aa",
   "bf46882478c2a7955093126c7072d7b7fe472967979de522c2c14739bbab7d07",
   "31a8a2038327e176933240df416d3035861e959eac4528560ff348347c716f27",
   "d827a95da4a08258897313e839a9613c62de031517db363580c29ccfccfaacc8",
   "b5de63a660dae61c272f9dc1e646da96eca8a62ef3764c2e3b0ae6b258532268",
   "60d8f10911e03d48eb7274864a09b19756096e0c28f5ca42a26c4f9b3b7fdc5c",
   "e5bfc9d179f5fb0810cacbed185cc2b2042b774b95dde4048e8c9b4b4043bd31",
   "c061bf4ed829c8a43e2c5aa336c67cb4e22635c8e15791cf67ab92e0efb73d30",
   "aea5b83e75a1dd4f705ef09097965dcd010806537361e228cbe275d783d03a6c",
   "61fab563337233435da3d3be1e8c0d2332edcbd5bb7085c931e5ed4de2f80ed4",
   "83044467ce97ee203e81fedac56db84ca469ecf40d278d6e18380db17a719cb6",
   "fc1dfdc26e01d3974267abd90281f512a6497cea25c198e79318c49a069987f6",
   "2190499382ade5b6211f7cb7ee8301140c25a8a1e9f95f78a253dd0cee72a9b3",
   "cdc317b64a7c7d6146d3e63d295b690cea5c8c5deed5e42b094361dcf2038614",
   "8496b471f706842289855bd5dad8e8ce5a45a0244a537407a62ae82bf28f283e",
   "dd68dde67735cf4fac77a75f658c01f30b3dd373b7443597c93cf1ee9e1c375c",
   "7d9fc45eb9727f3a1bc09abb274a904bd1c7c4a8b0ddc131a66d0c35fab12c6b",
   "d3212e0196e6716a17f83983cfd28a90d4ffd7e7aeb93659a85cc5585266d153",
   "529b13f078978955ed8c139326647f68298aad6515c978fd532d67814d68a819",
   "047170f4b389cb5ea020d89957aa1c263d00c7e5923c357fafe2a9539295a70a",
   "a78a5b14dcf7d45dc1147f12138a46aea7d74643f150947184121c4d8e83aacc",
   "5fc7cd475121963671bda69d4e83b5da3b915f94780f9b21ad11e14876e6a2ae",
   "ddf9d7f5b52966e8dc5643c2c7780ce8d5512b581859fad0f11d7862b9082a0e",
   "98d4c1b60953deba57b070f6686ad1e56dafabe4e0461ff823f7e4f1e2d68a6d",
   "da05a4b3332528d56f466d3eda964682bc31f90795155ad306960e85239d1570",
   "52da74b3f44371219361d635f8ec93f428b068aee1d49adfda3f1080b812c403",
   "03d5d11bb421694cf5829985b2d2ed69cdb66c59874e772f9133feba146e56fd",
   "95112eaea86e4518c06e90875d56fa96d2c2e1d279263b8aeb55e2ef609c0015",
   "7385b128fcd181847ccd65e61535a3b1e6c935085feb1f116d07b69f754797c9",
   "025829df5b0e89d33e50e4da9cbac3699faf423a17a01f82abb1dc5a4aeaf7bf",
   "b8d71572694b145ff3a891e14463c46bfc2a7f3ce66f4b72489dade529fede9c",
   "67106f52b3bebaf6148ca60c81bc8802050f299d8e3139a8045ef34a0ee8a83b",
   "c1e4c64335250f030a8dff08151d8631de4f1737973ece0a66ce5819a6bcdab9",
   "15ccfb66ee051bc937c87c622ffc726f5f6c9b2c83acf52ed0dc6c63d33e0764",
   "dabbdafa2406d76784fd51b3f5f4014f97e91a0293e96cac0d7252400793352d",
   "4c6fe6506950104f209a64e0975ced68826c9d6d5c604725c7cc38119741fe1e",
   "4c0da75b314859992796ac6fa932c9804e6cbc0372b8af03dc17ee487dd46a01",
   "126d57ea0faa1410e2bff97a97dee4bb95f931c65e424936a3c663136cf44b28",
   "7b2000fbbbcb50649b57f7de2fe8e0c2384c16839def35e4ca3b368306c737aa",
   "191a431907c471085ce9133b62f3ab70ad7ba440ac70790400981e68f46a3a34",
   "7c6b5159af1596f1b1116915f58686bf5943222da9e864f415626328ee0ae8f0",
   "c01fc7330f29cdc41647dc85b357fe1c734410628077db6c61f736f2288e91be",
   "c1c9811dc7c62642ae25fbecdbd276124bbb0b2b3ccde483d81831a092fe8940",
   "183760186863265934b5678d6701d33b02427f0260de63ab92620cdd0ea0a193",
   "91036fe1c4780fc9a73005bd4fd0e674d0fdd2c372c1ea036e03d89296322b08",
   "279f655e7eb78b83a915ebf71097429c2ce71ade9c0ef44f5342f7361dda1c1e",
   "5b9ea6fe50b0bc7338a425931d5587e7bf29ddc886f95a013dc265f9ad4e6a5f",
   "e58b9814df7395a036222c5154c090e1edb7413d786f744bc71d3a3e7d3ae51a",
   "72f05a38389a396e7e099943e7626432809e8fea44b2b59c7f5b1be6e544c477",
   "66efc642ef86130ae927b9a8211a7898a1a0d4633d800b069b8a435f38a87f2d",
   "57e2163c10bc4cf0291a22e157e30e2f3bd32774777d562d66b5a56785af16cd",
   "d8bb29af4ab87ee4c6a5f906da83b486b0cb68804d46520402560fd361f9c046",
   "08c384948e4a5437238b38307ef1433aad79196ccf3192061381fbe1cb2f95a6",
   "4961223a92ed9aac5200710c1fac16222cebf4f45d71f9bcf747772ebcc10624",
   "51749e1822fdbd6e3160abdeae195e281affc52170d4d350b3f205f742ed7b13",
   "14e8dc225152adf94b64a266a412317eb84fd518055718d4f8261e0fdf8a9826",
   "4c5dec521f84e603ac86babbe7763fe82125a9eaaa705d8cddd6eec95953a4b5",
   "8acce8dfac2236fafc944be02d072bfb63ddaea49045e31283d73ab38823fcb7",
   "12cddcbe68b1fabd5650ded7d323b80460ee122c96e3b58c8b5d29a17b917ec3",
   "d86759a0c43a2fde5e79adaaa167f9d05338aa8b2bc6fc5f9b1263164aa60343",
   "5267ab3dd6d646eb7bb1c04b9c23fa104287011a46714accc33f608d36d0f2e7",
   "d8d8d61f18ebffb56574b089b975016513abba64f68fe0da8c0f8d0a62e0416c",
   "b0f64d75d6754023267a8bd9dcdd975002ce1aea4d2e8103edf80ed391be3782",
   "b72d60462ce989b717868769b43678b933f239f977e22e2a0d61fa59721ee3a0",
   "be9a8aa7883625a2f43670b961827cb4d58edf21618af86e376abb6d743a54c0",
   "a233d9c85d895c54f9df1c93659ac3b1ad9f46458142a5310f40f11ee9bf6316",
   "75ee0e41d376721a8a59c7c9dd40282780a0ca863db78dee7a589cfc4c98b3e9",
   "8b34745c1c95a176ca7f21bd1350ab491763379a3ff99f60214003217f6a7118",
   "75e4c59a6469d9da7de866054c21689625786d6ced18cf6130aec6fd45766025"]

/-- The slice `testnetHashes` of `generateFixedHashes`. -/
def testnetHashes : List String :=
  ["fa857cb5d4b774e975d149a91dc47687ab6400301bba7fab1a70e82bd57ab33b",
   "57c87eeb449e976020fb60b3366b867ffc9d88ec5c0f10171af4c7c771462130",
   "1af58b777b8054a15f3e0c60ec1c0501bd7626003a4fabb2017e16f1f4f9b0aa",
   "155eb38e56a75c59863434446071a29df399e0b79a0f7627f3c0def08c0dee4a",
   "fc541a457aaacc00c4bbf2ddd296c212c7c7436a1b15fdf40971436f4679060b",
   "22461d010d68d2b67a7a3373782af7f75eb240a845c4b1fa1c399c48f7d3eaad",
   "e62881132d705937c2a0f88cd0e94f595e922e752f5a3225ecbb4e4f91f242e5",
   "61084954ebe8d12d9ac71a9ce32f2f72c5ab819ab3382215e0122b98ef98bf6d",
   "b65786186ff332a66cf502565101ed3fdf0a005d8ea847829a909cafc948cdb7",
   "6ec4b77f75ce5bd028a22f88049d856dbf83b34480f24eb13ed567de839e06f9",
   "c1db0ccc2f546863cda1e14da73d951e4fa4c788427f13500a1a7557709de271",
   "b8a6f83f59913bece208fbc481bdf8a0ac332433f8cb01a3c5c1b7ae377f2700",
   "9a8c588bb81d8c622b8c6d9073233c176440da4dce49433b56398c30239cfe8d",
   "a84205d415780ed3c0566f9f4578efeb6ec4ca51f8a93cc7f89a00ccce8dcb39",
   "c5d6591d91eef2ca446351e95dc4134438360c1b7389d975d636cbacba435280",
   "7be74dcff396c8abf98c6727659575a5b157c9ec98c6f1c9504732054f09aaf5",
   "a7dcad11df6d5778824decb3624953440a2e8f01036083c10adb36b4465ee14a",
   "ac6e904295a3d736e7f22ecb5698c1fd8964e3f0afc07ee2487e63ee606b9bbf",
   "d7c2cff7f8a08373b8aed134fe1fa80899ddaaa8dd7722fca9b2954228b25803",
   "580cf925b0d2ec1617e17f0be43402381d537e789bd5a08c3a681dcdcae2d731",
   "c71cde092dddca890f9f44567a651434a801119dfca6fa6a8ad6daa26ce4d6a2",
   "b010526b4edd19af408eae841184d97f1ad6e8955c4a6ac8240e32f75a26e5f9",
   "9278a4d8204e7b937c41c71b9f03c97c49203d4cc6e4e6d429be80ff1d11bf02",
   "d57366198709ee6be52ea72cb54cfb6282ddd6708e487839f74b93c06c9a994a",
   "1d17a3f34d23425ad6fa3b1f57cb1276d988c3064c727995cd6966af22323830",
   "660a0a66a46fae20c0a4f2b1a5f11c246ce39bc1338f641ea304cf2dc9bd0940",
   "e4562f14b6464d2ee4e92764b6126fab3b37b12c8b0ccb0cbc539a0f1d54318f",
   "3ed39df06d960213a978379790386ec1c6df288a524c9bc11dbc869d1133e86d",
   "f09abfcf424b6bcb7a54fc613828e5ff756b619c957c51457d833efbbfd9c601",
   "58b6fe973b269639c2a6dc768e1f1f328c3c1d098b6ded3511b1f8e3393f8344",
   "398fd65258285061025e5b53043496832acca2a6b61906046605df18767a9da3",
   "b933d1d819cdbeff8e3acf9cba0fe7b3e6db3bb582da027a0f1e432219bd6033",
   "99baada49d56352f2e221cf62116c70485a83c1174bcd50cf5ba62b35d1661a9",
   "19a47884389d1f995a37c7e2b19525d44a27a32a5df2c0b9c2954fe458655baf",
   "3820ea36958821d31b8f2eee80fc17e72dcf361f052c0399931ce979e9a10293",
   "3a3655c7bb4fb1814002b468d63f72c0626d4c7df4ceac28a68c970a3686712a",
   "bc181caec490ade2d715e7d0c82cb9ad3fd685dc962d8ffca00861d88f5366b4",
   "da92ccf74d37b40738c41222cee137c149889966c54d62d91472d2ea81be37f2",
   "e51d0d81a40598e0d6281d2bbc56a1d8c5aa3c8233f2bd9be2316ad6a24a2dc3",
   "6cb2e1aea92658471cc40ec0a4bfd64d8e76bc0b9bb5707306fe89d93158e7c4",
   "e4bb2e67f5ff721ecfac0df301bf3db9704d47a9d33c2f952be17dc23a113c45",
   "7d29bf4f9796573cf5274900ec667bced39cb0377409d281a2dbceaf99ec8fd9",
   "45b32bbc856daf25ad81206623f8a7fb53f0afbb488f72ffef4d8f0a9431e62b",
   "b5aca33f4af1f65d9e9e35035597b58896d99abd5b7954593ffc70c86a90c94d",
   "7a21bc1136bd1b288fb5be1fd43b39cdfeae9b424e3da274e241dbc1ac780d72",
   "95bd53bea9d44609b8b24ff5c30feb08c91d92f239632f8093fbb8f37a704112",
   "61551f4fb10bd3b97870af25c6c18d8582d6badef8e87e3c5297befd1331003a",
   "ba43a4bd43dcdf44ce163b58d35df3def39f2a2ed29cfcf76f3d7571827b8bc1",
   "329c277c2f0555d33e294377bf906c404a163ee653d0894661714a25b1d3c8fb",
   "6e143a6cf96b0b8eb695bd77b1e28f2a61f4dac8a47b3cf2b69d6737d8441242",
   "991bc0911f5914677f4ba476717a53b0b889b91cf178ae66c0625167f7ac0801",
   "541fb4e3a4fc928a017bdce01393ea8113b2236dafbb3809973f7b8352442d32",
   "9c9181ad53d6506666187974b6b9e3a9c0bee8d085d10cc79f50bfb4248ca129",
   "1cb89bb5668ac284574be9118a78d3fa5d674c84579c75d5596a47d2acce29f6",
   "116b1c4d1a8fef4cd852a8841b689fff4f1df3a0f5bbeb545942150f4b806646",
   "b54f3b2b235b816bda74453e228378fcf9b79a293534aac71dbfeb6b0ee1ecad",
   "9acb23972960f0b4c5d3c6b061a2a1c4af4f7a6d4a0cdd8ec7134ae7bd59f95d",
   "17f3d6c720bc5efd5ee8226d353d1b347828e621400a2a282a190f5b7bbdd0f0",
   "1838dc6001bb37cff89aa8675ec0ae8efdfd35c5dc8a793538c31d08df4b8232",
   "ad362ed3de8ac036d4a89d31282f26e10cb50fa900c6ad76f7ab06cb7155d234",
   "2bd6a5464607a39d0bcdd07e15d4752d1a52b644bf9a81d8d7e5f9cff0af30af",
   "44124bbba59755b9004d53c3e721820c40c1cc163b7639b4c1a03ce6955e292b",
   "f19520a13533371cea4cc20daeef421c31c0a88d4604e58b56ebef82288cdaaf",
   "c1796053a6e8847cf3d8a545670dd953d1273dd3d9a6e4df6e59e33950cc2890",
   "49aeb76ef737a04fe91c3a61dc8c7b87adad5978d8951f8d033ddeae6fa2b720",
   "bed2427fb70a9a9a576528569ccfd8fc86ab0ecd4ca7a932d5a8f39316f887a0",
   "a8da98fa12885b4165f7635906d9bc240c2eaa66079bf18f496dbecb68c7c49e",
   "cd7e523f67b5ab520d1c8972f78db9a8d283c66ccf000aa31cda8216fe2e508b",
   "1e29c627ce7b6402eb5115c59a48d561f4420c44748d7de2ed185142beab4a29",
   "5ddf101e94858f06934c6019eaa22b93d88eca16592720e9dcd982894ac27060",
   "c408705873fb0ab3fc4f5811e69ee20b0a1600f52bb4663e29362f4391601ebe",
   "ddf70a2c37e60622148124c22f8f0e96b4eba0af4d5b8b18015d574f33923a7e",
   "d6e1f406e0d96c486c1bcbb09768ff0e5577f18c97cdf2c3e86dda54b4007448",
   "656b861ba19271a6591c7468af61a9d29e331eccc9e526a3d25517d29bd69809",
   "24372783456ac149b4fd0dc41ee16d55500a3c433fc3b1bd3c1c45c8a93c89c5",
   "2bbbb4392ab7f1fd8a160a80163b69b5f8db16fdf97c2d8ee9e29df1d9ebd9fe",
   "cc9fd404792808740bdee891c8e93e3d41bfe56c2438396d1ca8a692dd5fb990",
   "38080ff661e3142133b82633be87af6db2d33f386d05f8439672a1984aa88d13",
   "22b7125bf763c17087306776783ab6d1c50084e8a7435b015207f99295aa1af9",
   "570c31b148e5f909873e8d2253401a64eace826993948cd2f3f4d03a798c6c54",
   "f0cb29da50bff805a3a1736dbe33ea139893534d0e25a98f354aa5f279adbc97",
   "cd6b07cee12ae00058b20a6d31173c934933e6339a00885554ccefde008b12e3",
   "323fa87c41960355883ada3b85bbc13303d8202761ea70d015841060c7f7fde7",
   "01c7c87db4a01af781695e2984e68b72f04a0f7859749bcfdcbee73466bf0990",
   "a79003be6397a1fac1d183ebd14d72f69cfd9ab310cd8f9cc9c3d835b05d7556",
   "50dcfbe053447768b56f6c3159cc6d37aa5791d87abfad32b2952e36de8a20c7",
   "21647bb0680b8b09b357a54518a50d6c4163d78889f26ef48bc93cfe43acb16d",
   "96dfe03bc8aa7dd74ef98b4cb7cad866c851b8fd145f4b5bdb54c7b799e58adf",
   "87037ff5508a2a31c62cbef1feb19f3ec22f44ade292e0a036e8a7d8ef3d13bd",
   "6e7336d4e63a744ae45cfd320ca237ba4b194d930bcbfbfde2d172616df367b8",
   "780126f3f77af11cac4a71371812160e436d50f09ee01eb312d6839b7dd4e3a3",
   "9373a2bdc426bc5bf3242c7f3ecc83a19f2cfc0772ecdeb846e423fc8ec40b5e",
   "0339e7901bccba1e3c8e05956536823b2b0e7189c66f5796b7602b63a8fd1ff9",
   "b213bb94b274991d4288a6405954059e99b4c4b891a74a1abcd83ea295331b18",
   "d0a7195ec0cd987709b4dc6416e0ed6fc9939054ecbf502da8c4c6a09836ed9c",
   "7b9c334b3aeb75a795f9d6c7c0ee01ab219f31860880eb3480921dcd2a057d2b",
   "9c4e722d126467603530d242fe91a19fa90ebd3a461ee38f36ef5eefa07e996c",
   "4306ac8ccd2ce6a880350f95c7d59635371ba3d78bb13353c5b7ff06f7c6fc40",
   "4b9360e2d86f20850d2c6ff222ed16c6a4252c00afad8d488c30c162b3a10da7",
   "927f20b9dcfbb80f4a6b5d6067a586835bdcb5f3e921ed87bec67fb5160181d1",
   "e620bc51fbeb8011f57324b0a7ae6f45c46050cd624887f0a50879880632fdaa",
   "ee7b749b81e86d46fa3e93b9aba29285bae38a91f175dbf7c619d05fcf91e857",
   "573d5039fa570ceb3fa136be73c432b49a19af00a7f109325b78160f7dc13db1",
   "9ab1936825e830d4eab7a945701528579f78a8d1702a76a774e7456ddd3a254e",
   "2b3538a6fed897c0143f51b82f7e9e1929cb698e7de8d88aa8b1d23cabd58fa9",
   "21e2f8ae0522da985262ccf8422d98d75068ccd448d15c4bfec9f793713c7644",
   "c02a276e24fbb64f5b35d4b6555d1d873095e076868cea8dcfdad9e606612f9b",
   "7756adb6b470c5126693a4de57c1d5b38afab4f7ffc4f982374e8466051bcfca",
   "f82cbe9343e63fa4bf486f8e4113f91abef7c994e6f7068b500942fede79f095",
   "782f9df4e3f669149a575922a7318d523b1ab8a5911a2b1c2850839d5762cf03",
   "89ef33e05604e28f762b3cdf2f20d876adcb104a87c2636c5facb61ec47d020c",
   "59e374462a0c7e32df5e087d4d250936ef54aa19ca824ebaa63b66406180719d",
   "11fc2b68e458f12e93398a453c5efac599691bd89d40c35e003dc594d87bf51d",
   "5f793edc159efab968da834bd44187fff951cec822ca1b8982b1f36d966956be",
   "da0d474d5e0ec5d0966e1986a5de3f085e0f491da67cdb43d52fdc9848b14314",
   "8d4eec56231819d18f3fb3ec6e6881b269c0ccb881eedecb5916d2b4ef82c6cf",
   "137e7ea7c47a724f8a4494a3e73e74f146282382935d64d25385dd720f537e98",
   "1a2a9c7707443c848897141a4f659fbd0b7fefa47365f2af43183777dcb4a8ef",
   "7747a6f738959e6d75f16fe6d0782b455258b9c93d0380a230722cd6ae11e0bb",
   "314e30caef6c7c09b2a85056610949febb6abbbf7702c5d6706cef658123d782",
   "9ab42848b175c62790b5aa4f256899bb609d05723d364b8d349160afadfd9f95",
   "853b07dda09eb155dcebbac23e2fa5d76c5f619f3cabfa5e25fd82706485bd25",
   "a2b0053632aafe21d4dff287c03c362cae2a1d3267cd87d82a7ba9a3795129c9",
   "7918541145cb2c5918b8fa20a31298a7bc9b8f43aebb69f046f78d070a7f22ef",
   "0827e91cf9ec4dbb95966d68cdeb90dc8399457f47922d1e53eb2972c87756ef",
   "6121dac0131fc1fe0f7652d6c2195141c0e6a9b7e5cb555647ec3bb2f90b912d",
   "134fae4eec772042a832efc19e2f3e449db962f3573c070f2920591c306967b1",
   "b9a716636f3d1dd47e61aa1216f55317230cf734e06c9f740552f2bbd6e8210a",
   "d5caa5c0bb57e75c78de5f6f132e19776b777dd205d37ff6c2179412caa32c40",
   "e11c15139b71e7078a664d430e115c631ac8cdd89a8f4b35e4bbbeb9ec85dc17",
   "cbff909b284e4b1858adff2a0cee75032a2b2411d805604dfe820e40e855d6b5",
   "5b4ce1b89dde6b8b5cbec1b454306b7f53a9dadcdbe5df429ea5a33635d989d3",
   "c06a55411e962e0bf9cc11c14e854be084906b374cc181868c29ebcab0b66775",
   "ad16c4f73055baa8c0c6f69e294019ea90e3e97ee90923c4478156e15180d19c",
   "76866d7b50747a469e9891c529b7a58a4b9082d113b7acbe2b46f6049a8d36c7",
   "df96c9eba4763a1c3a8a0d2eb14e57847ce679adeda80b04cb86ef4f40cf290a",
   "6421d33aed4529b00db819051abed4ae78f28778feab921177c24378d48b427b",
   "cb76cbf3c146f5890eef6a8e78349b9291b75d2ca3b947b027f52dab0acbcdd4",
   "cb9a9e1606d5d6cc59bce096733be7e6902d8c8de19d22cc0f5435ad4e719015",
   "d3b9005c6b93a657d8edd2312d4d59b8807ea7c509079dfd1e4a8cef3d6852ba",
   "ebc705fd3ee20a69c5e99b1bf063acff8c926eec9358a36294b8df0fdcd31eb5",
   "c99e64329e066cc19b2e9962bfa2eb474bb7f9bd1c797421878209c16ca85d80",
   "55a081aab8afb0cfe83873b812c4495a762bdfc866d74c038d64f73d26944db3",
   "d830b389b67743e2a2cec5d64af37ce1b991b2781bf2a3fb1e8283bc78e98495",
   "558d06ff221f4d6e5265465ef2928828a80b498f95d7b1853c4a93d842931ccd",
   "e967f7ac0177971566b44535eed88a5ffcd0b2ec09de03edbf817f8e110eaf5b",
   "404df2a8bcf278cae68d9a43b86ff9c2781461ccd227c20aa5e0c5b1db2c0cb1",
   "f8f5160a6d1e91a3cae676b1e8f8563da2e1cb92869df51c190f0d91f62c81b2",
   "30a23be3cb0e3feab447217745d537e6c5299f3a95172c234bb84de54169b694",
   "7c5e66106c5e7cb9e68cd6bec431acdb4b0c9394f2c000a60f0ec558b1667750",
   "be103be330df170331a747138325af15173704afb808abfd6fc5742c677de241",
   "d711f0d3914c1bee36324e055ade9058750f2b3d0206f516382702de8eda3757",
   "519658c8746832821044b074a40661ea1497ca50426888303d8eec43ae8b9d6a",
   "87cd56d2f6ff774a0c75b029c2a888df7b41319380336f3e4663fe5417229687",
   "2efe240e7018fd0443262223d286c04120199063f4ef194bdef9af0ab34fa4a8",
   "8c9a69c950bea4e4beecc286124bf44e2cc78614f767580d59dc22cf94bd23f6",
   "e7641851ddf32f8fa1937528a2c88a2ef512d45f0a7296c232df6584471ad7ba",
   "a5beb770e26085eb45a6c5e15acb5844fdda167261e92b20c87dc72c1e0d0a1d",
   "f54988150d2ba3327251b7a4672ec9bff6fe93f06a7a9f19030f17e693281f11",
   "6cbfa48ae32ef9b3798f0afe4b86798497a758735dc3ac3e0aa6b42710476f58",
   "35130215ec7db0e57d5964dacb9aa2ea858e70fc864edd08cf062334823a3ce8",
   "a935e9ddece310c12baa815a0077e151b300a293f88651d7715ea33151d4016e",
   "167e10bb4d35aa27a4916de2f846ff5d323a0090c9d37b9c35ca455272ab07be",
   "a85a1222927f535ca37587d38ab4db2bc940bfc0c6d703003119329d05469a75",
   "826ab7e279754c009dcd86421f3bdaaa3325bdfff8352788c9f8cfbdddfcfafe",
   "8336015f3f6ca5d69d5af6dfd521a3e3c024c08121bd42de3a25e5bffb417d42",
   "194125cbe3f428afbf59da1dd144062ad288011e10beca10ca534f935ea7290d",
   "3bb36e7a0165d3b6f51b628c18e6b4d9e355b05c5be7a616c881dc395c623c66",
   "c092f7add11cee0facec22c78badba46fb8688538df1443b7356ceea83bae10d",
   "31552a2bb308a5778e815fee39b007ce5a633d2e7ba27f08eee2bec6f8d387b7",
   "373533933e0aae2d2dcffb59b09c49fa64506606aa0359eddf00326ee7bbcc7e",
   "0f580299cabe89b2dc9809735d14fdabf60cc1b65824bb5f6b5cf283b68210ee",
   "138c02ce7b36a4d7e82f942a3291bbb357b2e8845b579189ce4c35e01e6b859f",
   "9dc184037f271c4043b1a6d01d9fbed5d2f156fb561ec2612e5b1cd6aa486083",
   "cb2ae942cd73059bfe666d9ef78cee5a557cda842c9503df0f7d6b00be815cc5",
   "f941433597eaa923318023f040798918f743db7bf6d33bc6a13bc8c2e8d3e711",
   "02a1f2c523e2705b1ab122a06c08bd64080ef76d09d517c56c4e64a3f6626021",
   "ac3dda90e10c66d26ebb6911924713785f48e8e3d2150aa06ae90db456e1c9a0",
   "61a39a58e915f953d1ea5c0483f3f45b33ed6f097d76ea6d03d7cf81616f33bd",
   "b3ff677201fa7543da2f635753305a128c4076409268f1ee53ee824989193e90",
   "3a2cf44822616731ce40cde80365738e4a4d9af161de3cc2bb3e4f4d3ced8009",
   "b1a3f23c441a6afece152c4b2e1f1da6fc952f997bc8711a6122e26afafeb5b1",
   "87123bd9968d64fead15b346ad4ef3b0918aebc596fb7ce8c016c09085985bbd",
   "eae98597fc685154c882a62073157e1538e37270573de17e7f9bd1af724e1164",
   "e6dc4cfe6c4b77ebc2a915a49157447a65f85c275ba6c888fddbfae95a2d1c2b",
   "45ffffa2166eff3624a6b83e5d953669e3639188556330a58656d51ac9008f15",
   "2b5658b7d00f6d34890e71cf1d57b520e934f6b4087cca5c50604a7c8190488d",
   "d9b516ec359cccafc8cd2c5721bed137cb0d4b7bb21ba4772baed786a9f059a6",
   "5005e282fff3675ff3ac18906d5cf9df5b992d0bd95fc9cd3258f386f1c5b5ea",
   "2dea763455c4ae2c662bd9db6529b85cfd397744cb3da1a639925b0fa2b048b4",
   "497399dc295066a487984ab67cbfec9bf3d65184bc424a7b96268f2c03e6557f",
   "8f87e5ab712b41e1bc6f74fd74bb8e96323f62f62bedb35ed578992ddbbd5f47",
   "a5504fbce2afcd7277b0bd94581050195607d5c6701cff8d8e25f05a2d50d81c",
   "205b534ee10a3633f87c8ab36590d114f516985470ef5851077ac5c95aa83f16",
   "0d2093c088c08840643f542a44d9e8c389694f03dc9c62a264445de5758e73c3",
   "b32c1de573b72b62ce6b77d628f758acbfe89ecaa17d3c4c94cad8dff45dd0c9",
   "6d75d744de2e5dd7ebd3fa47b22ca0d99d4255ee36b5e767567479e0134e0697",
   "d3228e2e8e5de7178f2afc4b6f86b13287469b55410a164397bc602a0e3bd2db",
   "5d0a5e9e280f90c7d1f69b69ff3b5bfb94bce299dde8799520fe92912afd2cff",
   "aafabddd3fe15559af9138aa113c2473fed25a41ee52877a05dc2f9b24416827",
   "00a9160b3ae08d4066e53992f3cc004b3f6bf3d840613d6e847fb16323ddb270",
   "1473078fe8d18a5e3f791064c1083783fdc19517a3f2af47777d8778bb2b2f89",
   "aa2b720f1b7fd016086641fa0c3a6f8133c5f7eb3e9a65cd01ad0b51e7c35719",
   "ecdd45371e9a284e97416f414d665afa0aec864277a03c333e785e4d6ba6d439",
   "66a7301e8f3d54360b15fc64610398888301a3caeb685dc71e0ec0fdd175937f",
   "bd156dc25f23d82eaef927957d4c8c883ec0c80de4c58310313764ccc701d281",
   "3e8aa53535920d5886779d30687c2350800e9c712c5c2414db463b9c99f3052e",
   "308a237dad23fa158e7590ce7c75e788ec3ae6be8f6972a867f2eb94f6417c96",
   "4b12d020e1df286f672fe5d2eac74d95f817d0bbb8bee15a7913ebd9c3a8014a",
   "303c6f66eaff75bf2145e3bcc343245bcbedb2df46af1fb1e8382473fd2ab402",
   "d21e974892bd9209a0e2333b22acb55ec2a4abc015755379640cb81d4ba38d82",
   "40bdb0c10ce735f5e6abf18bf46dd8ef5625ea828fbfc6e380b70809d7cf76dd",
   "c0b4d28f557f71bcc41eb3573e2afb6da0c127639972bbcb8f4962cff0896f7a",
   "d2e36f3773f4c313fafb160ac753f1a11b53783920d45552b693f7a37b80bbe2",
   "3fd160ad0045137801256a22fed09f5f31aacf31f1681fbf6d70bc03972d2253",
   "2c0c05796774bdbb27c0a6ec5559817b4cd48feee80dff2c540257f86733e397",
   "5f17ad7ebf06c9ee5f7c86716e2392fd65b773eb6c94f47ac1ea1e12afbacfd0",
   "0dc16b207a0a9a722cd0b6ce18419eeb2c7809a9f90f3ebca7cc084d6714469d",
   "8f576a107b37c1309055282825effed4d57dd7e96fd69595ad300c26f77b07a5",
   "b433f6a339e84a5dbd8e6638a4547dd029b642d1007199948678d7574350b64e",
   "738768e552067738d3ba97fabe8ea93c0a6ba3b64cc24fab0e9b0c2ce4842982",
   "533020acb857afd489d4766280665cc484d184ed8eeaacd031e8a5e70b5c4a88",
   "1d84007a810cb751a5f7207b36cffb1a7f50c1553cbcb0c922c7cb1ada8bb409",
   "a0b398eb392174cfa24948edcf03c50553a7367c7f6ed50970456484ea09680b",
   "f156f642f5fd502eb9d0fff911981506c32e6c40b12362e6b3082dffb7fc6550",
   "2338e90aafd734d44bd50aad3f4d0f4255e2d2505546925e810798626c79f4f4",
   "c141f87ed878c297468d5be367ce8df0c7d90be4b6be070059eb9345f8250b62",
   "57106030bb89bd435844ef9baf318c9696af10784a4cf09359bff4b22a4d74eb",
   "2419aa33614ded3307173c53d6f614b6567d6f50fdc9a99fd32a299efc3de982",
   "07e60b9438f0b0fc97151c34b781b2a6370cb4d6c48ecbbfe0016a24ebe7bf31",
   "c09518a1b22c36e3d599af9f956090609fff015a794680a12f730364c721aae4",
   "65ddb5cf2927237525c5b3d3613eb346660cba60d0478ea917b6f0aa4907d7d9",
   "1c8935ede01448904447520b90c742615062e404f3525fe5bd667e06f7341c13",
   "fcb9e121eb526413ec8c827a3dda5e619a85ffbcb7508f0525ac22a121a100f5",
   "6d0a6422309f64d722ba79f621a4fe3db0ecf16b40366313b146a97d95667307",
   "4ad7e9d2a199b2eb3cc1cf7bb35e7b03a0ca18bd7382ed29a18b97ed01cd63a0",
   "69e377941f0263ce3c585789ae6106782d1f15db0b1942a9627b2bd6fe83e13d",
   "bb51ed5948d59b0dcb2f5cb5f8a27d3f70b8c71660b0d6d4ab658b6a7ca2356c",
   "6695e79e0e07fde8c05da60736ba373d55271d5a7c6da2a2c7d30e957a46e7e7",
   "48bd888c98b158b5c82b148f091a91bb1881b9a1931227f0a5269649a8eebaff",
   "771382cfa5138ccd32fdddad18e3eb8f1a06eee10704248d1e4d49f32872afe6",
   "176bb2e118aeb292912fa1903470621ae385e819a50c580301b33165666f3c7d",
   "15596f8c5f8fb397e5214e6f5eaf286a813b6e5d8bebae2bad1d550511f92840",
   "bdacbb2d763783f1ac51fd2477276543f79db13a434697a2aedd8523a1427e1f",
   "ca0e3b746890e8d626840d445989bb0e703f3e4c792aaa49a6b8952ea7696063",
   "1319af4c3801a463f0e1b7a9cfe2cfbb79e769fb0daed1a2868ade7665765ea6",
   "172f67582c5270cf0ef8264ef64bc5e17a53aac87693eff1860dfe56aea4209e",
   "0462589f719e853654d1ca00038dfc806ae7acb9bb5a3f9e6d458f3d4206f532",
   "f7480a6f46b553517f41238cbd5a6069eab164fd1512e1685f9bddf5c1afa59c",
   "a5cfdbe5c0b38b0904b5fe6afc2ce583dce1dbc7b4cd88224cbd88efa30b0291",
   "6f07b548ced6405ef78693332d516d041780f85f0771cfbaba8bbb86a6cdfb7d",
   "de0184abac150e780e26f1e7de09da64dfee433e8c9a9efe8d93a673350016b8",
   "8e7cee539c6315ad939a9495e40e7e70e2d07f6b2920cdbcc689457cd9e11997",
   "0088ccc025bf814e8098607bfbd17448024495a62610700b6000ec448afc1ca3",
   "d3a0503fdb8802e979871dca7d3c10a928cedf1978e44f42ecb72b96ada13dc3",
   "add0b405d079dd0c682a1e5026ef1a5b989b0bdf044d2db28249b4d51a74c5dc"]

/-- The map `fixedHashes` as `generateFixedHashes` fills it at start-up: entry `i` of the array
of a chain is `HexToHash` of entry `i` of its slice; a chain without an entry reads as the
zero array. -/
def fixedHashes : ChainID → List Hash
  | ChainID.Mainnet => mainnetHashes.map HexToHash
  | ChainID.Testnet => testnetHashes.map HexToHash
  | ChainID.other _ => List.replicate 256 emptyHash

/-- `UseBlockHashCorrection`. -/
def UseBlockHashCorrection (chainID : ChainID) (evmHeightOfCurrentBlock queriedEVMHeight : Nat) :
    Hash × Bool :=
  if chainID = ChainID.Mainnet ∧ evmHeightOfCurrentBlock < blockHashListFixHCUEVMHeightMainnet then
    ((fixedHashes ChainID.Mainnet).getD (queriedEVMHeight % 256) emptyHash, true)
  else if chainID = ChainID.Testnet ∧
      evmHeightOfCurrentBlock < blockHashListFixHCUEVMHeightTestnet then
    ((fixedHashes ChainID.Testnet).getD (queriedEVMHeight % 256) emptyHash, true)
  else
    (emptyHash, false)

/-- The parts of package `fvm/evm/types` that `NewBlockContext` copies into its result, taken as
parameters. -/
structure Types where
  CoinbaseAddress : String
  EVMChainIDFromFlowChainID : ChainID → Nat
  DefaultDirectCallBaseGasUsage : Nat
  DefaultDirectCallGasPrice : Nat

/-- The fields of `types.BlockContext` that `NewBlockContext` sets. -/
structure BlockContext where
  ChainID : Nat
  BlockNumber : Nat
  BlockTimestamp : Nat
  DirectCallBaseGasUsage : Nat
  DirectCallGasPrice : Nat
  GasFeeCollector : String
  GetHashFunc : Nat → Hash
  Random : Hash
  Tracer : Nat

/-- `NewBlockContext`; the second component is the error, always nil.  `height - hashHeight`
is computed after `hashHeight >= height` has been ruled out, so it does not wrap. -/
def NewBlockContext (types : Types) (chainID : ChainID) (height timestamp : Nat)
    (getHashByHeight : Nat → Hash) (prevRandao : Hash) (tracer : Nat) :
    BlockContext × Option EpochMgr.GoError :=
  let miner :=
    if chainID = ChainID.Testnet ∧ height < coinbaseAddressChangeEVMHeightTestnet then
      genesisCoinbaseAddressTestnet
    else
      types.CoinbaseAddress
  ({ ChainID := types.EVMChainIDFromFlowChainID chainID
     BlockNumber := height
     BlockTimestamp := timestamp
     DirectCallBaseGasUsage := types.DefaultDirectCallBaseGasUsage
     DirectCallGasPrice := types.DefaultDirectCallGasPrice
     GasFeeCollector := miner
     GetHashFunc := fun hashHeight =>
       if hashHeight ≥ height then
         emptyHash
       else if height - hashHeight > 256 then
         emptyHash
       else
         match UseBlockHashCorrection chainID height hashHeight with
         | (hash, true) => hash
         | (_, false) => getHashByHeight hashHeight
     Random := prevRandao
     Tracer := tracer }, none)

/-- Sample parameters for package `fvm/evm/types`. -/
def sampleTypes : Types :=
  { CoinbaseAddress := "0000000000000000000000030000000000000000"
    EVMChainIDFromFlowChainID := fun _ => 747
    DefaultDirectCallBaseGasUsage := 21000
    DefaultDirectCallGasPrice := 0 }

/-- A sample source of block hashes: the hash of height `n` is the decimal writing of `n`. -/
def sampleHashByHeight (n : Nat) : Hash := toString n

end Blocks

/-!
# Chained transaction results

A shallow embedding of `storage/store/chained/transaction_results.go`.
-/

namespace Chained

open EpochMgr

/-- The sentinel `storage.ErrNotFound` (declared in package `storage`). -/
def ErrNotFound : GoError := GoError.sentinel "storage.ErrNotFound"

/-- Modelled from the spec: `flow.TransactionResult` (package `model/flow`), the result of one
transaction; `body` stands for its content. -/
structure TransactionResult where
  TransactionID : Nat
  body : Nat
  deriving DecidableEq, Repr

/-- Modelled from the spec: `storage.TransactionResultsReader` (package `storage`), of which
the two embedded methods use the two lookups of one result.  A lookup answers a pair, `none`
standing for nil. -/
structure TransactionResultsReader where
  ByBlockIDTransactionID : Nat → Nat → Option TransactionResult × Option GoError
  ByBlockIDTransactionIndex : Nat → Nat → Option TransactionResult × Option GoError

/-- The struct `ChainedTransactionResults`. -/
structure ChainedTransactionResults where
  first : TransactionResultsReader
  second : TransactionResultsReader

/-- `NewTransactionResults`. -/
def NewTransactionResults (first second : TransactionResultsReader) :
    ChainedTransactionResults :=
  ChainedTransactionResults.mk first second

/-- The store a lookup was sent to. -/
inductive Consulted where
  | first
  | second
  deriving DecidableEq, Repr

/-- `ChainedTransactionResults.ByBlockIDTransactionID`: the result, the error, and the stores
consulted, in order. -/
def ByBlockIDTransactionID (c : ChainedTransactionResults) (blockID transactionID : Nat) :
    Option TransactionResult × Option GoError × List Consulted :=
  match c.first.ByBlockIDTransactionID blockID transactionID with
  | (result, none) => (result, none, [Consulted.first])
  | (_, some err) =>
      if errorsIs err ErrNotFound then
        let answer := c.second.ByBlockIDTransactionID blockID transactionID
        (answer.1, answer.2, [Consulted.first, Consulted.second])
      else
        (none, some err, [Consulted.first])

/-- `ChainedTransactionResults.ByBlockIDTransactionIndex`: the result, the error, and the
stores consulted, in order. -/
def ByBlockIDTransactionIndex (c : ChainedTransactionResults) (blockID txIndex : Nat) :
    Option TransactionResult × Option GoError × List Consulted :=
  match c.first.ByBlockIDTransactionIndex blockID txIndex with
  | (result, none) => (result, none, [Consulted.first])
  | (_, some err) =>
      if errorsIs err ErrNotFound then
        let answer := c.second.ByBlockIDTransactionIndex blockID txIndex
        (answer.1, answer.2, [Consulted.first, Consulted.second])
      else
        (none, some err, [Consulted.first])

/-- A store that knows the transaction 1 of block 1 and nothing else. -/
def storeWithOne : TransactionResultsReader :=
  { ByBlockIDTransactionID := fun blockID transactionID =>
      if blockID = 1 ∧ transactionID = 1 then (some (TransactionResult.mk 1 10), none)
      else (none, some ErrNotFound)
    ByBlockIDTransactionIndex := fun blockID txIndex =>
      if blockID = 1 ∧ txIndex = 0 then (some (TransactionResult.mk 1 10), none)
      else (none, some ErrNotFound) }

/-- A store that knows the transaction 2 of block 2 and nothing else. -/
def storeWithTwo : TransactionResultsReader :=
  { ByBlockIDTransactionID := fun blockID transactionID =>
      if blockID = 2 ∧ transactionID = 2 then (some (TransactionResult.mk 2 20), none)
      else (none, some ErrNotFound)
    ByBlockIDTransactionIndex := fun blockID txIndex =>
      if blockID = 2 ∧ txIndex = 0 then (some (TransactionResult.mk 2 20), none)
      else (none, some ErrNotFound) }

/-- A store whose lookups fail with an error of its own. -/
def brokenStore : TransactionResultsReader :=
  { ByBlockIDTransactionID := fun _ _ => (none, some (GoError.errorf "database closed" []))
    ByBlockIDTransactionIndex := fun _ _ => (none, some (GoError.errorf "database closed" [])) }

end Chained

namespace EpochMgr

/-! ## Lemmas on the operations -/

theorem newEffects_emit (e : Engine) (fx : List Effect) : newEffects e (emit e fx) = fx := by
  simp [newEffects, emit]

theorem stopHeight_int (env : Env) (h : Nat) (hh : h < uint64Size)
    (hsum : h + env.DefaultTransactionExpiry < uint64Size) :
    (stopHeight env h : Int) = ((h : Int) - 1) + env.DefaultTransactionExpiry + 1 := by
  unfold stopHeight uint64Add uint64Sub uint64Size at *
  rcases Nat.eq_zero_or_pos h with h0 | hpos
  · subst h0
    norm_num
    omega
  · have h1 : (h + (18446744073709551616 - 1 % 18446744073709551616)) % 18446744073709551616
        = h - 1 := by omega
    rw [h1]
    have h2 : (h - 1 + env.DefaultTransactionExpiry) % 18446744073709551616
        = h - 1 + env.DefaultTransactionExpiry := by omega
    rw [h2]
    have h3 : (h - 1 + env.DefaultTransactionExpiry + 1) % 18446744073709551616
        = h - 1 + env.DefaultTransactionExpiry + 1 := by omega
    rw [h3]
    omega

theorem registrations_append (a b : List Effect) :
    registrations (a ++ b) = registrations a ++ registrations b := by
  induction a with
  | nil => rfl
  | cons x rest ih => cases x <;> simp [registrations, ih]

theorem creations_append (a b : List Effect) :
    creations (a ++ b) = creations a ++ creations b := by
  induction a with
  | nil => rfl
  | cons x rest ih => cases x <;> simp [registrations, creations, ih]

theorem thrown_append (a b : List Effect) : thrown (a ++ b) = thrown a ++ thrown b := by
  induction a with
  | nil => rfl
  | cons x rest ih => cases x <;> simp [thrown, ih]

/-- Branch of `onEpochTransition`: `epoch.Counter()` fails. -/
theorem onEpochTransition_counterError (env : Env) (e : Engine) (first : Header) (err : GoError)
    (hc : env.Counter (env.CurrentEpochAt first.ID) = Except.error err) :
    onEpochTransition env e first =
      (e, some (GoError.wrapf "could not get epoch counter: %w" [] err)) := by
  simp [onEpochTransition, hc]

/-- Branch of `onEpochTransition`: the map already holds the counter. -/
theorem onEpochTransition_exists (env : Env) (e : Engine) (first : Header) (c : Nat)
    (b : StartableEpochComponents)
    (hc : env.Counter (env.CurrentEpochAt first.ID) = Except.ok c)
    (hb : getEpochComponents e c = some b) :
    onEpochTransition env e first =
      (emit e [Effect.log LogLevel.warn
        "epoch transition: components for new epoch already setup, exiting..."], none) := by
  simp [onEpochTransition, hc, hb]

/-- Branch of `onEpochTransition`: the factory fails with an error that is
`ErrNotAuthorizedForEpoch`. -/
theorem onEpochTransition_notAuthorized (env : Env) (e : Engine) (first : Header) (c : Nat)
    (err : GoError)
    (hc : env.Counter (env.CurrentEpochAt first.ID) = Except.ok c)
    (habs : getEpochComponents e c = none)
    (hcr : env.Create (env.CurrentEpochAt first.ID) = Except.error err)
    (hna : errorsIs err ErrNotAuthorizedForEpoch = true) :
    onEpochTransition env e first =
      (emit e (transitionPrefix env first c ++ [Effect.log LogLevel.info
        "epoch transition: we are not authorized for new epoch, exiting..."]), none) := by
  have hna2 : errorsIs (GoError.wrapf "could not setup requirements for epoch (%d): %w"
      [FmtArg.epoch (env.CurrentEpochAt first.ID).ref] err) ErrNotAuthorizedForEpoch = true := by
    simp [errorsIs, hna]
  simp [onEpochTransition, hc, habs, createEpochComponents, hcr, hna2, emit,
    prepareToStopEpochComponents, transitionPrefix, stopHeight]

/-- Branch of `onEpochTransition`: the factory fails with any other error. -/
theorem onEpochTransition_createFailed (env : Env) (e : Engine) (first : Header) (c : Nat)
    (err : GoError)
    (hc : env.Counter (env.CurrentEpochAt first.ID) = Except.ok c)
    (habs : getEpochComponents e c = none)
    (hcr : env.Create (env.CurrentEpochAt first.ID) = Except.error err)
    (hna : errorsIs err ErrNotAuthorizedForEpoch = false) :
    onEpochTransition env e first =
      (emit e (transitionPrefix env first c),
       some (GoError.wrapf "could not create epoch components: %w" []
         (GoError.wrapf "could not setup requirements for epoch (%d): %w"
           [FmtArg.epoch (env.CurrentEpochAt first.ID).ref] err))) := by
  have hna2 : errorsIs (GoError.wrapf "could not setup requirements for epoch (%d): %w"
      [FmtArg.epoch (env.CurrentEpochAt first.ID).ref] err) ErrNotAuthorizedForEpoch = false := by
    unfold errorsIs
    rw [hna]
    simp [ErrNotAuthorizedForEpoch]
  simp [onEpochTransition, hc, habs, createEpochComponents, hcr, hna2, emit,
    prepareToStopEpochComponents, transitionPrefix, stopHeight]

/-- Branch of `onEpochTransition`: the bundle is created and the timeout wins the race. -/
theorem onEpochTransition_startTimeout (env : Env) (e : Engine) (first : Header) (c : Nat)
    (s1 s2 s3 s4 s5 s6 : Nat)
    (hc : env.Counter (env.CurrentEpochAt first.ID) = Except.ok c)
    (habs : getEpochComponents e c = none)
    (hcr : env.Create (env.CurrentEpochAt first.ID) = Except.ok (s1, s2, s3, s4, s5, s6))
    (hr : env.readyBeforeTimeout (NewEpochComponents s1 s2 s3 s4 s5 s6) = false) :
    onEpochTransition env e first =
      (emit { e with contexts := e.contexts + 1 } (transitionPrefix env first c ++
        [Effect.withSignallerAndCancel e.contexts,
         Effect.componentsStart (NewEpochComponents s1 s2 s3 s4 s5 s6) e.contexts,
         Effect.goHandleEpochErrors e.contexts,
         Effect.timeoutElapsed e.startupTimeout,
         Effect.cancel e.contexts]),
       some (GoError.wrapf "could not start epoch components: %w" []
         (GoError.wrapf "could not stop epoch %d components after %s: %w"
           [FmtArg.uint c, FmtArg.duration e.startupTimeout] ErrTimeout))) := by
  simp [onEpochTransition, hc, habs, createEpochComponents, hcr, startEpochComponents, hr, emit,
    prepareToStopEpochComponents, transitionPrefix, stopHeight]

/-- Branch of `onEpochTransition`: the bundle is created and becomes ready in time. -/
theorem onEpochTransition_started (env : Env) (e : Engine) (first : Header) (c : Nat)
    (s1 s2 s3 s4 s5 s6 : Nat)
    (hc : env.Counter (env.CurrentEpochAt first.ID) = Except.ok c)
    (habs : getEpochComponents e c = none)
    (hcr : env.Create (env.CurrentEpochAt first.ID) = Except.ok (s1, s2, s3, s4, s5, s6))
    (hr : env.readyBeforeTimeout (NewEpochComponents s1 s2 s3 s4 s5 s6) = true) :
    onEpochTransition env e first =
      (emit { e with
          contexts := e.contexts + 1
          epochs := mapStore e.epochs c
            (NewStartableEpochComponents (NewEpochComponents s1 s2 s3 s4 s5 s6) e.contexts) }
        (transitionPrefix env first c ++
        [Effect.withSignallerAndCancel e.contexts,
         Effect.componentsStart (NewEpochComponents s1 s2 s3 s4 s5 s6) e.contexts,
         Effect.goHandleEpochErrors e.contexts,
         Effect.readyObserved (NewEpochComponents s1 s2 s3 s4 s5 s6),
         Effect.log LogLevel.info "epoch transition: new epoch components started successfully",
         Effect.log LogLevel.info "preparing to stop epoch components at height %d",
         Effect.onHeight (stopHeight env first.Height)
           (Callback.sendEpochStop (uint64Sub c 1))]), none) := by
  simp [onEpochTransition, hc, habs, createEpochComponents, hcr, startEpochComponents, hr, emit,
    prepareToStopEpochComponents, transitionPrefix, stopHeight, storeEpochComponents]

/-- The registrations of `onEpochTransition` when the counter is not in the map: there is one,
and all are for the stop height and the counter before. -/
theorem onEpochTransition_registrations_absent (env : Env) (e : Engine) (first : Header)
    (c : Nat) (hc : env.Counter (env.CurrentEpochAt first.ID) = Except.ok c)
    (habs : getEpochComponents e c = none) :
    registrations (newEffects e (onEpochTransition env e first).1) ≠ [] ∧
      ∀ r ∈ registrations (newEffects e (onEpochTransition env e first).1),
        r = (stopHeight env first.Height, Callback.sendEpochStop (uint64Sub c 1)) := by
  cases hcr : env.Create (env.CurrentEpochAt first.ID) with
  | error err =>
      cases hna : errorsIs err ErrNotAuthorizedForEpoch with
      | true =>
          rw [onEpochTransition_notAuthorized env e first c err hc habs hcr hna]
          simp [newEffects_emit, registrations, transitionPrefix]
      | false =>
          rw [onEpochTransition_createFailed env e first c err hc habs hcr hna]
          simp [newEffects_emit, registrations, transitionPrefix]
  | ok six =>
      obtain ⟨s1, s2, s3, s4, s5, s6⟩ := six
      cases hr : env.readyBeforeTimeout (NewEpochComponents s1 s2 s3 s4 s5 s6) with
      | false =>
          rw [onEpochTransition_startTimeout env e first c s1 s2 s3 s4 s5 s6 hc habs hcr hr]
          simp [newEffects, emit, registrations, transitionPrefix]
      | true =>
          rw [onEpochTransition_started env e first c s1 s2 s3 s4 s5 s6 hc habs hcr hr]
          simp [newEffects, emit, registrations, transitionPrefix]

/-! ## Stop scheduling -/

/-- C1: when the counter resolved from the first block has no bundle in the registry,
`onEpochTransition` registers a stop callback with the height registry, and every callback it
registers is registered at height `(h - 1) + DefaultTransactionExpiry + 1` as Go computes it
on `uint64`, where `h` is the height of the first block; whenever that sum does not leave the
`uint64` range this is the integer `(h - 1) + DefaultTransactionExpiry + 1`. -/
theorem C1_stop_registered_at_expiry_height (env : Env) (e : Engine) (first : Header) (c : Nat)
    (hc : env.Counter (env.CurrentEpochAt first.ID) = Except.ok c)
    (habs : getEpochComponents e c = none) :
    registrations (newEffects e (onEpochTransition env e first).1) ≠ [] ∧
    (∀ r ∈ registrations (newEffects e (onEpochTransition env e first).1),
      r.1 = uint64Add (uint64Add (uint64Sub first.Height 1) env.DefaultTransactionExpiry) 1 ∧
      r.2 = Callback.sendEpochStop (uint64Sub c 1)) ∧
    (first.Height < uint64Size → first.Height + env.DefaultTransactionExpiry < uint64Size →
      ∀ r ∈ registrations (newEffects e (onEpochTransition env e first).1),
        (r.1 : Int) = ((first.Height : Int) - 1) + env.DefaultTransactionExpiry + 1) := by
  have key := onEpochTransition_registrations_absent env e first c hc habs
  refine ⟨key.1, ?_, ?_⟩
  · intro r hr
    rw [key.2 r hr]
    exact ⟨rfl, rfl⟩
  · intro hh hsum r hr
    rw [key.2 r hr]
    exact stopHeight_int env first.Height hh hsum

/-- C1 at a sample input: the transition to epoch 1 at height 1000, on the engine built by
`New`, with an expiry of 600. -/
theorem C1_stop_registered_at_expiry_height_witness :
    authorizedEnv.Counter (authorizedEnv.CurrentEpochAt firstBlockOfEpoch1.ID) = Except.ok 1 ∧
    getEpochComponents New 1 = none ∧
    registrations (newEffects New (onEpochTransition authorizedEnv New firstBlockOfEpoch1).1)
      ≠ [] ∧
    (∀ r ∈ registrations
        (newEffects New (onEpochTransition authorizedEnv New firstBlockOfEpoch1).1),
      r.1 = uint64Add (uint64Add (uint64Sub firstBlockOfEpoch1.Height 1)
        authorizedEnv.DefaultTransactionExpiry) 1 ∧
      r.2 = Callback.sendEpochStop (uint64Sub 1 1)) ∧
    (firstBlockOfEpoch1.Height < uint64Size →
      firstBlockOfEpoch1.Height + authorizedEnv.DefaultTransactionExpiry < uint64Size →
      ∀ r ∈ registrations
          (newEffects New (onEpochTransition authorizedEnv New firstBlockOfEpoch1).1),
        (r.1 : Int) = ((firstBlockOfEpoch1.Height : Int) - 1)
          + authorizedEnv.DefaultTransactionExpiry + 1) :=
  ⟨rfl, rfl, C1_stop_registered_at_expiry_height authorizedEnv New firstBlockOfEpoch1 1 rfl rfl⟩

/-! ## Size of the registry -/

theorem mapDelete_length_le (m : List (Nat × StartableEpochComponents)) (key : Nat) :
    (mapDelete m key).length ≤ m.length := by
  induction m with
  | nil => simp [mapDelete]
  | cons p rest ih =>
      obtain ⟨k, v⟩ := p
      unfold mapDelete
      split
      · simp only [List.length_cons]; omega
      · simp only [List.length_cons]; omega

theorem mapStore_length_le (m : List (Nat × StartableEpochComponents)) (key : Nat)
    (v : StartableEpochComponents) : (mapStore m key v).length ≤ m.length + 1 := by
  have := mapDelete_length_le m key
  simp only [mapStore, List.length_cons]
  omega

/-- The registry after `startEpochComponents`: unchanged, or with the new bundle stored. -/
theorem startEpochComponents_epochs (env : Env) (e : Engine) (counter : Nat)
    (components : EpochComponents) :
    (startEpochComponents env e counter components).1.epochs = e.epochs ∨
    (startEpochComponents env e counter components).1.epochs =
      mapStore e.epochs counter (NewStartableEpochComponents components e.contexts) := by
  unfold startEpochComponents
  cases env.readyBeforeTimeout components <;> simp [emit, storeEpochComponents]

/-- The registry after `onEpochTransition`: unchanged, or with one bundle stored under the
counter resolved from the first block. -/
theorem onEpochTransition_epochs (env : Env) (e : Engine) (first : Header) :
    (onEpochTransition env e first).1.epochs = e.epochs ∨
    ∃ c b, env.Counter (env.CurrentEpochAt first.ID) = Except.ok c ∧
      getEpochComponents e c = none ∧
      (onEpochTransition env e first).1.epochs = mapStore e.epochs c b := by
  cases hc : env.Counter (env.CurrentEpochAt first.ID) with
  | error err => left; rw [onEpochTransition_counterError env e first err hc]
  | ok c =>
    cases hb : getEpochComponents e c with
    | some b => left; rw [onEpochTransition_exists env e first c b hc hb]; rfl
    | none =>
      cases hcr : env.Create (env.CurrentEpochAt first.ID) with
      | error err =>
          cases hna : errorsIs err ErrNotAuthorizedForEpoch with
          | true =>
              left; rw [onEpochTransition_notAuthorized env e first c err hc hb hcr hna]; rfl
          | false =>
              left; rw [onEpochTransition_createFailed env e first c err hc hb hcr hna]; rfl
      | ok six =>
          obtain ⟨s1, s2, s3, s4, s5, s6⟩ := six
          cases hr : env.readyBeforeTimeout (NewEpochComponents s1 s2 s3 s4 s5 s6) with
          | false =>
              left
              rw [onEpochTransition_startTimeout env e first c s1 s2 s3 s4 s5 s6 hc hb hcr hr]
              rfl
          | true =>
              right
              refine ⟨c, NewStartableEpochComponents (NewEpochComponents s1 s2 s3 s4 s5 s6)
                e.contexts, rfl, hb, ?_⟩
              rw [onEpochTransition_started env e first c s1 s2 s3 s4 s5 s6 hc hb hcr hr]
              rfl

/-- The registry after `stopEpochComponents`: unchanged, or with the counter deleted. -/
theorem stopEpochComponents_epochs (env : Env) (e : Engine) (counter : Nat) :
    (stopEpochComponents env e counter).1.epochs = e.epochs ∨
    (stopEpochComponents env e counter).1.epochs = mapDelete e.epochs counter := by
  unfold stopEpochComponents
  cases getEpochComponents e counter with
  | none => left; rfl
  | some b =>
      cases hd : env.doneBeforeTimeout b with
      | false => left; simp [hd, emit]
      | true => right; simp [hd, emit, removeEpoch]

theorem onEpochTransition_length_le (env : Env) (e : Engine) (first : Header) :
    (onEpochTransition env e first).1.epochs.length ≤ e.epochs.length + 1 := by
  rcases onEpochTransition_epochs env e first with h | ⟨c, b, _, _, h⟩
  · rw [h]; omega
  · rw [h]; exact mapStore_length_le e.epochs c b

theorem stopEpochComponents_length_le (env : Env) (e : Engine) (counter : Nat) :
    (stopEpochComponents env e counter).1.epochs.length ≤ e.epochs.length := by
  rcases stopEpochComponents_epochs env e counter with h | h
  · rw [h]
  · rw [h]; exact mapDelete_length_le e.epochs counter

/-- C2, on the code: the engine puts no bound on the registry.  Transitions to epochs 1, 2 and 3
at heights 1000, 1100 and 1200 register the stops of epochs 0, 1 and 2 at heights 1600, 1700
and 1800, so that no stop is due while they are processed, and take the registry of the
engine built by `New` through the sizes 0, 1, 2 and 3; `Ready` and `Done` then wait on four
components, three bundles among them, where their comments say "max 2". -/
theorem C2_three_transitions_hold_three_bundles :
    List.map (fun s => s.epochs.length) (run New threeTransitions) = [0, 1, 2, 3] ∧
    (∃ s ∈ run New threeTransitions, 2 < s.epochs.length) ∧
    List.map (fun s => (Ready s).length) (run New threeTransitions) = [1, 2, 3, 4] ∧
    List.map (fun s => (Done s).length) (run New threeTransitions) = [1, 2, 3, 4] ∧
    List.map (fun s => List.map (fun r => r.1) (registrations s.effects))
        (run New threeTransitions)
      = [[], [1600, 1600], [1600, 1600, 1700, 1700],
         [1600, 1600, 1700, 1700, 1800, 1800]] := by
  refine ⟨by decide, ?_, by decide, by decide, by decide⟩
  refine ⟨(Notice.transition authorizedEnv firstBlockOfEpoch3).process
    ((Notice.transition authorizedEnv firstBlockOfEpoch2).process
      ((Notice.transition authorizedEnv firstBlockOfEpoch1).process New)), ?_, by decide⟩
  simp [run, threeTransitions]

/-! ## Duplicate delivery -/

theorem entriesFor_mapDelete (m : List (Nat × StartableEpochComponents)) (key : Nat) :
    entriesFor (mapDelete m key) key = 0 := by
  induction m with
  | nil => rfl
  | cons p rest ih =>
      obtain ⟨k, v⟩ := p
      unfold mapDelete
      split
      · exact ih
      · rename_i hne
        unfold entriesFor at ih ⊢
        rw [List.countP_cons_of_neg]
        · exact ih
        · simpa using hne

theorem entriesFor_mapStore (m : List (Nat × StartableEpochComponents)) (key : Nat)
    (v : StartableEpochComponents) : entriesFor (mapStore m key v) key = 1 := by
  have h := entriesFor_mapDelete m key
  unfold entriesFor at h ⊢
  unfold mapStore
  rw [List.countP_cons_of_pos]
  · omega
  · simp

/-- C3: when the registry already holds a bundle for the counter resolved from the first block,
`onEpochTransition` returns nil, calls neither the factory nor the height registry and leaves
the engine as it was up to one warning line; and when that bundle is there because the same
notice was processed once before, from a state without a bundle for the counter, the two
deliveries together returned no error, called the factory once and left one entry for the
counter. -/
theorem C3_duplicate_transition_is_noop (env : Env) (e : Engine) (first : Header) (c : Nat)
    (b : StartableEpochComponents)
    (hc : env.Counter (env.CurrentEpochAt first.ID) = Except.ok c)
    (hb : getEpochComponents e c = some b) :
    (onEpochTransition env e first).2 = none ∧
    (onEpochTransition env e first).1.epochs = e.epochs ∧
    creations (newEffects e (onEpochTransition env e first).1) = [] ∧
    registrations (newEffects e (onEpochTransition env e first).1) = [] ∧
    (onEpochTransition env e first).1 = emit e [Effect.log LogLevel.warn
      "epoch transition: components for new epoch already setup, exiting..."] ∧
    (∀ e0 : Engine, getEpochComponents e0 c = none → (onEpochTransition env e0 first).1 = e →
      (onEpochTransition env e0 first).2 = none ∧
      creations (newEffects e0 (onEpochTransition env e first).1)
        = [env.CurrentEpochAt first.ID] ∧
      entriesFor (onEpochTransition env e first).1.epochs c = 1) := by
  rw [onEpochTransition_exists env e first c b hc hb]
  refine ⟨rfl, rfl, ?_, ?_, rfl, ?_⟩
  · simp [newEffects_emit, creations]
  · simp [newEffects_emit, registrations]
  · intro e0 habs he
    have hsame : (onEpochTransition env e0 first).1.epochs = e0.epochs → False := by
      intro h
      rw [he] at h
      unfold getEpochComponents at hb habs
      rw [h, habs] at hb
      exact Option.noConfusion hb
    cases hcr : env.Create (env.CurrentEpochAt first.ID) with
    | error err =>
        cases hna : errorsIs err ErrNotAuthorizedForEpoch with
        | true =>
            rw [onEpochTransition_notAuthorized env e0 first c err hc habs hcr hna] at hsame
            exact (hsame rfl).elim
        | false =>
            rw [onEpochTransition_createFailed env e0 first c err hc habs hcr hna] at hsame
            exact (hsame rfl).elim
    | ok six =>
        obtain ⟨s1, s2, s3, s4, s5, s6⟩ := six
        cases hr : env.readyBeforeTimeout (NewEpochComponents s1 s2 s3 s4 s5 s6) with
        | false =>
            rw [onEpochTransition_startTimeout env e0 first c s1 s2 s3 s4 s5 s6 hc habs hcr hr]
              at hsame
            exact (hsame rfl).elim
        | true =>
            rw [onEpochTransition_started env e0 first c s1 s2 s3 s4 s5 s6 hc habs hcr hr] at he
            rw [onEpochTransition_started env e0 first c s1 s2 s3 s4 s5 s6 hc habs hcr hr]
            subst he
            refine ⟨rfl, ?_, ?_⟩
            · simp [newEffects, emit, creations_append, creations, transitionPrefix]
            · exact entriesFor_mapStore e0.epochs c _

/-- C3 at a sample input: the transition to epoch 1 delivered a second time to the engine that
has processed it once. -/
theorem C3_duplicate_transition_is_noop_witness :
    authorizedEnv.Counter (authorizedEnv.CurrentEpochAt firstBlockOfEpoch1.ID) = Except.ok 1 ∧
    getEpochComponents engineInEpoch1 1
      = some (StartableEpochComponents.mk (EpochComponents.mk 1 1 1 1 1 1) 0) ∧
    (onEpochTransition authorizedEnv engineInEpoch1 firstBlockOfEpoch1).2 = none ∧
    (onEpochTransition authorizedEnv engineInEpoch1 firstBlockOfEpoch1).1.epochs
      = engineInEpoch1.epochs ∧
    creations (newEffects engineInEpoch1
      (onEpochTransition authorizedEnv engineInEpoch1 firstBlockOfEpoch1).1) = [] ∧
    registrations (newEffects engineInEpoch1
      (onEpochTransition authorizedEnv engineInEpoch1 firstBlockOfEpoch1).1) = [] ∧
    creations (newEffects New
      (onEpochTransition authorizedEnv engineInEpoch1 firstBlockOfEpoch1).1) = [Epoch.mk 1] ∧
    entriesFor (onEpochTransition authorizedEnv engineInEpoch1 firstBlockOfEpoch1).1.epochs 1
      = 1 :=
  have h := C3_duplicate_transition_is_noop authorizedEnv engineInEpoch1 firstBlockOfEpoch1 1
    (StartableEpochComponents.mk (EpochComponents.mk 1 1 1 1 1 1) 0) rfl rfl
  ⟨rfl, rfl, h.1, h.2.1, h.2.2.1, h.2.2.2.1, (h.2.2.2.2.2 New rfl rfl).2.1,
    (h.2.2.2.2.2 New rfl rfl).2.2⟩

/-! ## Non-authorization and start-up timeout -/

/-- When the factory answers non-authorization, `onEpochTransition` returns nil and only
appends effects, none of which is a throw. -/
theorem onEpochTransition_silent (env : Env) (e : Engine) (first : Header) (c : Nat)
    (err : GoError)
    (hc : env.Counter (env.CurrentEpochAt first.ID) = Except.ok c)
    (hcr : env.Create (env.CurrentEpochAt first.ID) = Except.error err)
    (hna : errorsIs err ErrNotAuthorizedForEpoch = true) :
    ∃ fx, onEpochTransition env e first = (emit e fx, none) ∧ thrown fx = [] := by
  cases hb : getEpochComponents e c with
  | some b => exact ⟨_, onEpochTransition_exists env e first c b hc hb, rfl⟩
  | none => exact ⟨_, onEpochTransition_notAuthorized env e first c err hc hb hcr hna, rfl⟩

/-- C4: if `factory.Create` answers an error that is `ErrNotAuthorizedForEpoch` for the epoch of
counter `E` of a transition notice, `onEpochTransition` returns nil and leaves the registry
unchanged, the transition worker throws nothing, and when the factory was called (no bundle
for `E` before) the registry has no entry for `E` afterwards. -/
theorem C4_non_authorization_is_silent (env : Env) (e : Engine) (first : Header) (E : Nat)
    (err : GoError)
    (hc : env.Counter (env.CurrentEpochAt first.ID) = Except.ok E)
    (hcr : env.Create (env.CurrentEpochAt first.ID) = Except.error err)
    (hna : errorsIs err ErrNotAuthorizedForEpoch = true) :
    (onEpochTransition env e first).2 = none ∧
    (onEpochTransition env e first).1.epochs = e.epochs ∧
    (∀ pending : List Header,
      thrown (newEffects e (handleEpochTransitionLoop env
        { e with epochTransitionEvents := first :: pending })) = []) ∧
    (getEpochComponents e E = none →
      creations (newEffects e (onEpochTransition env e first).1)
        = [env.CurrentEpochAt first.ID] ∧
      getEpochComponents (onEpochTransition env e first).1 E = none) := by
  obtain ⟨fx, hfx, _⟩ := onEpochTransition_silent env e first E err hc hcr hna
  refine ⟨by rw [hfx], by rw [hfx]; rfl, ?_, ?_⟩
  · intro pending
    obtain ⟨fx2, hfx2, hthrown⟩ := onEpochTransition_silent env
      { e with epochTransitionEvents := pending } first E err hc hcr hna
    simp only [handleEpochTransitionLoop, hfx2]
    simpa [newEffects, emit] using hthrown
  · intro habs
    rw [onEpochTransition_notAuthorized env e first E err hc habs hcr hna]
    refine ⟨?_, habs⟩
    simp [newEffects_emit, creations_append, creations, transitionPrefix]

/-- C4 at a sample input: the transition to epoch 1 on a node that is not authorized. -/
theorem C4_non_authorization_is_silent_witness :
    unauthorizedEnv.Counter (unauthorizedEnv.CurrentEpochAt firstBlockOfEpoch1.ID)
      = Except.ok 1 ∧
    unauthorizedEnv.Create (unauthorizedEnv.CurrentEpochAt firstBlockOfEpoch1.ID)
      = Except.error ErrNotAuthorizedForEpoch ∧
    errorsIs ErrNotAuthorizedForEpoch ErrNotAuthorizedForEpoch = true ∧
    getEpochComponents New 1 = none ∧
    (onEpochTransition unauthorizedEnv New firstBlockOfEpoch1).2 = none ∧
    (onEpochTransition unauthorizedEnv New firstBlockOfEpoch1).1.epochs = New.epochs ∧
    thrown (newEffects New (handleEpochTransitionLoop unauthorizedEnv
      { New with epochTransitionEvents := firstBlockOfEpoch1 :: [] })) = [] ∧
    getEpochComponents (onEpochTransition unauthorizedEnv New firstBlockOfEpoch1).1 1 = none :=
  have h := C4_non_authorization_is_silent unauthorizedEnv New firstBlockOfEpoch1 1
    ErrNotAuthorizedForEpoch rfl rfl (by decide)
  ⟨rfl, rfl, by decide, rfl, h.1, h.2.1, h.2.2.1 [], (h.2.2.2 rfl).2⟩

/-- C5: if the timeout wins the race against the Ready signal of the bundle,
`startEpochComponents` returns an error for which `errors.Is(e, ErrTimeout)` holds, cancels the
context it started the bundle on, and leaves the registry unchanged, so that a counter without
an entry before has none afterwards. -/
theorem C5_startup_timeout_escalates (env : Env) (e : Engine) (counter : Nat)
    (components : EpochComponents)
    (hr : env.readyBeforeTimeout components = false) :
    (∃ err, (startEpochComponents env e counter components).2 = some err ∧
      errorsIs err ErrTimeout = true) ∧
    newEffects e (startEpochComponents env e counter components).1 =
      [Effect.withSignallerAndCancel e.contexts,
       Effect.componentsStart components e.contexts,
       Effect.goHandleEpochErrors e.contexts,
       Effect.timeoutElapsed e.startupTimeout,
       Effect.cancel e.contexts] ∧
    (startEpochComponents env e counter components).1.epochs = e.epochs ∧
    (getEpochComponents e counter = none →
      getEpochComponents (startEpochComponents env e counter components).1 counter = none) := by
  have hstep : startEpochComponents env e counter components =
      (emit { e with contexts := e.contexts + 1 }
        [Effect.withSignallerAndCancel e.contexts,
         Effect.componentsStart components e.contexts,
         Effect.goHandleEpochErrors e.contexts,
         Effect.timeoutElapsed e.startupTimeout,
         Effect.cancel e.contexts],
       some (GoError.wrapf "could not stop epoch %d components after %s: %w"
         [FmtArg.uint counter, FmtArg.duration e.startupTimeout] ErrTimeout)) := by
    simp [startEpochComponents, hr, emit]
  rw [hstep]
  refine ⟨⟨_, rfl, ?_⟩, ?_, rfl, fun h => h⟩
  · simp [errorsIs, ErrTimeout]
  · simp [newEffects, emit]

/-- C5 at a sample input: a bundle for epoch 1 that never signals Ready. -/
theorem C5_startup_timeout_escalates_witness :
    stuckEnv.readyBeforeTimeout bundleOfEpoch1 = false ∧
    (∃ err, (startEpochComponents stuckEnv New 1 bundleOfEpoch1).2 = some err ∧
      errorsIs err ErrTimeout = true) ∧
    Effect.cancel 0 ∈ newEffects New (startEpochComponents stuckEnv New 1 bundleOfEpoch1).1 ∧
    getEpochComponents (startEpochComponents stuckEnv New 1 bundleOfEpoch1).1 1 = none :=
  have h := C5_startup_timeout_escalates stuckEnv New 1 bundleOfEpoch1 rfl
  ⟨rfl, h.1, by rw [h.2.1]; decide, h.2.2.2 rfl⟩

/-! ## The stop worker -/

theorem cancels_append (a b : List Effect) : cancels (a ++ b) = cancels a ++ cancels b := by
  induction a with
  | nil => rfl
  | cons x rest ih => cases x <;> simp [cancels, ih]

theorem poolClears_append (a b : List Effect) :
    poolClears (a ++ b) = poolClears a ++ poolClears b := by
  induction a with
  | nil => rfl
  | cons x rest ih => cases x <;> simp [poolClears, ih]

theorem mapLookup_mapDelete (m : List (Nat × StartableEpochComponents)) (key k : Nat) :
    mapLookup (mapDelete m key) k = if k = key then none else mapLookup m k := by
  induction m with
  | nil => simp [mapDelete, mapLookup]
  | cons p rest ih =>
      obtain ⟨k0, v⟩ := p
      unfold mapDelete
      by_cases h0 : k0 = key
      · rw [if_pos h0, ih]
        by_cases hk : k = key
        · simp [hk]
        · have : ¬ k0 = k := by rw [h0]; exact fun h => hk h.symm
          simp [hk, mapLookup, this]
      · rw [if_neg h0]
        by_cases hk0 : k0 = k
        · have : ¬ k = key := by rw [← hk0]; exact h0
          simp [mapLookup, hk0, this]
        · simp only [mapLookup, if_neg hk0, ih]

/-- Branch of `stopEpochComponents`: the bundle signals Done in time. -/
theorem stopEpochComponents_done (env : Env) (e : Engine) (c : Nat)
    (b : StartableEpochComponents) (hb : getEpochComponents e c = some b)
    (hd : env.doneBeforeTimeout b = true) :
    stopEpochComponents env e c =
      (emit { e with epochs := mapDelete e.epochs c }
        [Effect.cancel b.cancel, Effect.doneObserved b.components, Effect.poolsClear c],
       none) := by
  simp [stopEpochComponents, hb, hd, emit, removeEpoch]

/-- Branch of `stopEpochComponents`: the timeout wins the race against Done. -/
theorem stopEpochComponents_timeout (env : Env) (e : Engine) (c : Nat)
    (b : StartableEpochComponents) (hb : getEpochComponents e c = some b)
    (hd : env.doneBeforeTimeout b = false) :
    stopEpochComponents env e c =
      (emit e [Effect.cancel b.cancel, Effect.timeoutElapsed e.startupTimeout],
       some (GoError.wrapf "could not stop epoch %d components after %s: %w"
         [FmtArg.uint c, FmtArg.duration e.startupTimeout] ErrTimeout)) := by
  simp [stopEpochComponents, hb, hd, emit]

/-- C6: for a counter with no registry entry, `stopEpochComponents` returns nil, leaves the
registry unchanged, invokes no cancellation handle and clears no transaction-pool partition:
all it does is write one warning line. -/
theorem C6_stop_of_absent_epoch_is_noop (env : Env) (e : Engine) (counter : Nat)
    (habs : getEpochComponents e counter = none) :
    (stopEpochComponents env e counter).2 = none ∧
    (stopEpochComponents env e counter).1.epochs = e.epochs ∧
    cancels (newEffects e (stopEpochComponents env e counter).1) = [] ∧
    poolClears (newEffects e (stopEpochComponents env e counter).1) = [] ∧
    (stopEpochComponents env e counter).1 =
      emit e [Effect.log LogLevel.warn "attempted to stop non-existent epoch %d"] := by
  have hstep : stopEpochComponents env e counter =
      (emit e [Effect.log LogLevel.warn "attempted to stop non-existent epoch %d"], none) := by
    simp [stopEpochComponents, habs]
  rw [hstep]
  refine ⟨rfl, rfl, ?_, ?_, rfl⟩
  · simp [newEffects_emit, cancels]
  · simp [newEffects_emit, poolClears]

/-- C6 at a sample input: a stop notice for epoch 7 on an engine that runs epoch 0 only. -/
theorem C6_stop_of_absent_epoch_is_noop_witness :
    getEpochComponents engineInEpoch0 7 = none ∧
    (stopEpochComponents authorizedEnv engineInEpoch0 7).2 = none ∧
    (stopEpochComponents authorizedEnv engineInEpoch0 7).1.epochs = [(0, bundleA)] ∧
    cancels (newEffects engineInEpoch0 (stopEpochComponents authorizedEnv engineInEpoch0 7).1)
      = [] ∧
    poolClears (newEffects engineInEpoch0
      (stopEpochComponents authorizedEnv engineInEpoch0 7).1) = [] :=
  have h := C6_stop_of_absent_epoch_is_noop authorizedEnv engineInEpoch0 7 rfl
  ⟨rfl, h.1, h.2.1, h.2.2.1, h.2.2.2.1⟩

/-- C7: for a counter `c` whose bundle signals Done before the timeout, `stopEpochComponents`
invokes the cancellation handle of that bundle, observes Done, then clears the
transaction-pool partition of `c`, in this order and nothing else; it returns nil; and
afterwards the registry has no entry for `c` and every other counter maps to what it mapped
to before. -/
theorem C7_successful_stop_removes_and_clears (env : Env) (e : Engine) (c : Nat)
    (b : StartableEpochComponents) (hb : getEpochComponents e c = some b)
    (hd : env.doneBeforeTimeout b = true) :
    (stopEpochComponents env e c).2 = none ∧
    newEffects e (stopEpochComponents env e c).1 =
      [Effect.cancel b.cancel, Effect.doneObserved b.components, Effect.poolsClear c] ∧
    (stopEpochComponents env e c).1.epochs = mapDelete e.epochs c ∧
    getEpochComponents (stopEpochComponents env e c).1 c = none ∧
    (∀ k, k ≠ c →
      getEpochComponents (stopEpochComponents env e c).1 k = getEpochComponents e k) := by
  rw [stopEpochComponents_done env e c b hb hd]
  refine ⟨rfl, ?_, rfl, ?_, ?_⟩
  · simp [newEffects, emit]
  · simp [getEpochComponents, emit, mapLookup_mapDelete]
  · intro k hk
    simp [getEpochComponents, emit, mapLookup_mapDelete, hk]

/-- C7 at a sample input: the stop of epoch 0 on an engine that runs the bundle A for it. -/
theorem C7_successful_stop_removes_and_clears_witness :
    getEpochComponents engineInEpoch0 0 = some bundleA ∧
    authorizedEnv.doneBeforeTimeout bundleA = true ∧
    (stopEpochComponents authorizedEnv engineInEpoch0 0).2 = none ∧
    newEffects engineInEpoch0 (stopEpochComponents authorizedEnv engineInEpoch0 0).1 =
      [Effect.cancel bundleA.cancel, Effect.doneObserved bundleA.components,
       Effect.poolsClear 0] ∧
    (stopEpochComponents authorizedEnv engineInEpoch0 0).1.epochs = [] :=
  have h := C7_successful_stop_removes_and_clears authorizedEnv engineInEpoch0 0 bundleA rfl rfl
  ⟨rfl, rfl, h.1, h.2.1, h.2.2.1⟩

/-- C8: if the bundle of counter `c` does not signal Done before the timeout,
`stopEpochComponents` returns an error for which `errors.Is(e, ErrTimeout)` holds; the handle
was invoked, but the registry is unchanged, so the entry for `c` is still there, and no
transaction-pool partition was cleared; the stop worker throws that error. -/
theorem C8_stop_timeout_keeps_entry (env : Env) (e : Engine) (c : Nat)
    (b : StartableEpochComponents) (hb : getEpochComponents e c = some b)
    (hd : env.doneBeforeTimeout b = false) :
    (∃ err, (stopEpochComponents env e c).2 = some err ∧ errorsIs err ErrTimeout = true ∧
      ∀ pending : List Nat,
        thrown (newEffects e (handleStopEpochLoop env
          { e with epochStopEvents := c :: pending })) = [err]) ∧
    (stopEpochComponents env e c).1.epochs = e.epochs ∧
    getEpochComponents (stopEpochComponents env e c).1 c = some b ∧
    poolClears (newEffects e (stopEpochComponents env e c).1) = [] ∧
    newEffects e (stopEpochComponents env e c).1 =
      [Effect.cancel b.cancel, Effect.timeoutElapsed e.startupTimeout] := by
  rw [stopEpochComponents_timeout env e c b hb hd]
  refine ⟨⟨_, rfl, ?_, ?_⟩, rfl, hb, ?_, ?_⟩
  · simp [errorsIs, ErrTimeout]
  · intro pending
    have hb2 : getEpochComponents { e with epochStopEvents := pending } c = some b := hb
    simp only [handleStopEpochLoop, stopEpochComponents_timeout env _ c b hb2 hd]
    simp [newEffects, emit, thrown]
  · simp [newEffects_emit, poolClears]
  · simp [newEffects_emit]

/-- C8 at a sample input: the stop of epoch 0 when the bundle A never signals Done. -/
theorem C8_stop_timeout_keeps_entry_witness :
    getEpochComponents engineInEpoch0 0 = some bundleA ∧
    stuckEnv.doneBeforeTimeout bundleA = false ∧
    (∃ err, (stopEpochComponents stuckEnv engineInEpoch0 0).2 = some err ∧
      errorsIs err ErrTimeout = true) ∧
    getEpochComponents (stopEpochComponents stuckEnv engineInEpoch0 0).1 0 = some bundleA ∧
    poolClears (newEffects engineInEpoch0 (stopEpochComponents stuckEnv engineInEpoch0 0).1)
      = [] :=
  have h := C8_stop_timeout_keeps_entry stuckEnv engineInEpoch0 0 bundleA rfl rfl
  ⟨rfl, rfl, h.1.elim (fun err he => ⟨err, he.1, he.2.1⟩), h.2.2.1, h.2.2.2.1⟩

/-! ## The scenario of two epochs, and the registered callbacks -/

/-- C9: from a registry that holds the bundle A for epoch 0 and nothing else, the transition
notice for epoch 1 with a first block of height 1000 (the factory authorizes, the bundle
becomes ready) returns nil, registers the stop of epoch 0 at height
`999 + DefaultTransactionExpiry + 1` (as Go computes it on `uint64`) and leaves the registry
with A under 0 and the new bundle B under 1; the stop notice for 0 (A signals Done) then
cancels the context of A, observes Done, clears the pool partition 0, returns nil and leaves
the registry with B under 1 only. -/
theorem C9_two_epoch_scenario (env : Env) (e : Engine) (first : Header)
    (A : StartableEpochComponents) (s1 s2 s3 s4 s5 s6 : Nat)
    (hreg : e.epochs = [(0, A)])
    (hh : first.Height = 1000)
    (hc : env.Counter (env.CurrentEpochAt first.ID) = Except.ok 1)
    (hcr : env.Create (env.CurrentEpochAt first.ID) = Except.ok (s1, s2, s3, s4, s5, s6))
    (hr : env.readyBeforeTimeout (NewEpochComponents s1 s2 s3 s4 s5 s6) = true)
    (hd : env.doneBeforeTimeout A = true) :
    (onEpochTransition env e first).2 = none ∧
    registrations (newEffects e (onEpochTransition env e first).1) =
      [(uint64Add (uint64Add 999 env.DefaultTransactionExpiry) 1, Callback.sendEpochStop 0),
       (uint64Add (uint64Add 999 env.DefaultTransactionExpiry) 1, Callback.sendEpochStop 0)] ∧
    (999 + env.DefaultTransactionExpiry + 1 < uint64Size →
      uint64Add (uint64Add 999 env.DefaultTransactionExpiry) 1
        = 999 + env.DefaultTransactionExpiry + 1) ∧
    (onEpochTransition env e first).1.epochs =
      [(1, NewStartableEpochComponents (NewEpochComponents s1 s2 s3 s4 s5 s6) e.contexts),
       (0, A)] ∧
    (stopEpochComponents env (onEpochTransition env e first).1 0).2 = none ∧
    newEffects (onEpochTransition env e first).1
        (stopEpochComponents env (onEpochTransition env e first).1 0).1 =
      [Effect.cancel A.cancel, Effect.doneObserved A.components, Effect.poolsClear 0] ∧
    (stopEpochComponents env (onEpochTransition env e first).1 0).1.epochs =
      [(1, NewStartableEpochComponents (NewEpochComponents s1 s2 s3 s4 s5 s6) e.contexts)] := by
  have habs : getEpochComponents e 1 = none := by
    simp [getEpochComponents, hreg, mapLookup]
  have hsub : uint64Sub 1000 1 = 999 := by decide
  have hprev : uint64Sub 1 1 = 0 := by decide
  have hstore : mapStore e.epochs 1
      (NewStartableEpochComponents (NewEpochComponents s1 s2 s3 s4 s5 s6) e.contexts) =
      [(1, NewStartableEpochComponents (NewEpochComponents s1 s2 s3 s4 s5 s6) e.contexts),
       (0, A)] := by
    simp [hreg, mapStore, mapDelete]
  rw [onEpochTransition_started env e first 1 s1 s2 s3 s4 s5 s6 hc habs hcr hr, hstore]
  have hA : getEpochComponents
      (emit { e with
          contexts := e.contexts + 1
          epochs := [(1, NewStartableEpochComponents (NewEpochComponents s1 s2 s3 s4 s5 s6)
            e.contexts), (0, A)] }
        (transitionPrefix env first 1 ++
        [Effect.withSignallerAndCancel e.contexts,
         Effect.componentsStart (NewEpochComponents s1 s2 s3 s4 s5 s6) e.contexts,
         Effect.goHandleEpochErrors e.contexts,
         Effect.readyObserved (NewEpochComponents s1 s2 s3 s4 s5 s6),
         Effect.log LogLevel.info "epoch transition: new epoch components started successfully",
         Effect.log LogLevel.info "preparing to stop epoch components at height %d",
         Effect.onHeight (stopHeight env first.Height)
           (Callback.sendEpochStop (uint64Sub 1 1))])) 0 = some A := by
    simp [getEpochComponents, emit, mapLookup]
  rw [stopEpochComponents_done env _ 0 A hA hd]
  refine ⟨rfl, ?_, ?_, rfl, rfl, ?_, ?_⟩
  · simp [newEffects, emit, registrations, transitionPrefix, stopHeight, hh, hsub, hprev]
  · intro hsum
    unfold uint64Add uint64Size at *
    omega
  · simp [newEffects, emit]
  · simp [emit, mapDelete]

/-- C9 at a sample input: the engine that runs the bundle A for epoch 0, the first block of
epoch 1 at height 1000 and an expiry of 600; the stop is registered at height 1600. -/
theorem C9_two_epoch_scenario_witness :
    engineInEpoch0.epochs = [(0, bundleA)] ∧
    firstBlockOfEpoch1.Height = 1000 ∧
    registrations (newEffects engineInEpoch0
        (onEpochTransition authorizedEnv engineInEpoch0 firstBlockOfEpoch1).1) =
      [(1600, Callback.sendEpochStop 0), (1600, Callback.sendEpochStop 0)] ∧
    (onEpochTransition authorizedEnv engineInEpoch0 firstBlockOfEpoch1).1.epochs =
      [(1, NewStartableEpochComponents (NewEpochComponents 1 1 1 1 1 1) 1), (0, bundleA)] ∧
    (stopEpochComponents authorizedEnv
      (onEpochTransition authorizedEnv engineInEpoch0 firstBlockOfEpoch1).1 0).1.epochs =
      [(1, NewStartableEpochComponents (NewEpochComponents 1 1 1 1 1 1) 1)] ∧
    poolClears (newEffects (onEpochTransition authorizedEnv engineInEpoch0 firstBlockOfEpoch1).1
      (stopEpochComponents authorizedEnv
        (onEpochTransition authorizedEnv engineInEpoch0 firstBlockOfEpoch1).1 0).1) = [0] :=
  have h := C9_two_epoch_scenario authorizedEnv engineInEpoch0 firstBlockOfEpoch1 bundleA
    1 1 1 1 1 1 rfl rfl rfl rfl rfl rfl
  ⟨rfl, rfl, h.2.1, h.2.2.2.1, h.2.2.2.2.2.2, by rw [h.2.2.2.2.2.1]; rfl⟩

/-- The callbacks `onEpochTransition` registers all send the counter before the one resolved
from the first block. -/
theorem onEpochTransition_callbacks (env : Env) (e : Engine) (first : Header) (N : Nat)
    (hc : env.Counter (env.CurrentEpochAt first.ID) = Except.ok N) :
    ∀ r ∈ registrations (newEffects e (onEpochTransition env e first).1),
      r.2 = Callback.sendEpochStop (uint64Sub N 1) := by
  cases hb : getEpochComponents e N with
  | some b =>
      rw [onEpochTransition_exists env e first N b hc hb]
      simp [newEffects_emit, registrations]
  | none =>
      intro r hr
      rw [(onEpochTransition_registrations_absent env e first N hc hb).2 r hr]

/-- C10: for a transition to the epoch of counter `N`, every callback that `onEpochTransition`
hands to the height registry, when it is invoked on any engine state, appends to the stop
queue one notice carrying `N - 1` (as Go computes it on `uint64`, the plain `N - 1` for
`0 < N`) and changes nothing else; and there is such a callback when `N` has no bundle. -/
theorem C10_callback_enqueues_previous_counter (env : Env) (e : Engine) (first : Header) (N : Nat)
    (hc : env.Counter (env.CurrentEpochAt first.ID) = Except.ok N) :
    (∀ r ∈ registrations (newEffects e (onEpochTransition env e first).1), ∀ s : Engine,
      r.2.invoke s = { s with epochStopEvents := s.epochStopEvents ++ [uint64Sub N 1] }) ∧
    (getEpochComponents e N = none →
      registrations (newEffects e (onEpochTransition env e first).1) ≠ []) ∧
    (0 < N → N < uint64Size → uint64Sub N 1 = N - 1) := by
  refine ⟨?_, ?_, ?_⟩
  · intro r hr s
    rw [onEpochTransition_callbacks env e first N hc r hr]
    rfl
  · intro habs
    exact (onEpochTransition_registrations_absent env e first N hc habs).1
  · intro hpos hlt
    unfold uint64Sub uint64Size at *
    omega

/-- C10 at a sample input: the callbacks of the transition to epoch 1, invoked on the engine
built by `New`, leave the stop queue holding the counter 0. -/
theorem C10_callback_enqueues_previous_counter_witness :
    authorizedEnv.Counter (authorizedEnv.CurrentEpochAt firstBlockOfEpoch1.ID) = Except.ok 1 ∧
    (∀ r ∈ registrations
        (newEffects New (onEpochTransition authorizedEnv New firstBlockOfEpoch1).1),
      (r.2.invoke New).epochStopEvents = [0]) ∧
    registrations (newEffects New (onEpochTransition authorizedEnv New firstBlockOfEpoch1).1)
      ≠ [] :=
  have h := C10_callback_enqueues_previous_counter authorizedEnv New firstBlockOfEpoch1 1 rfl
  ⟨rfl, fun r hr => by rw [h.1 r hr New]; rfl, h.2.1 rfl⟩

/-! ## Counters delivered again, and factory failures -/

theorem mapLookup_mapStore (m : List (Nat × StartableEpochComponents)) (key k : Nat)
    (v : StartableEpochComponents) :
    mapLookup (mapStore m key v) k = if k = key then some v else mapLookup m k := by
  unfold mapStore
  by_cases hk : k = key
  · simp [mapLookup, hk]
  · have hne : ¬ key = k := fun h => hk h.symm
    simp [mapLookup, hk, hne, mapLookup_mapDelete]

theorem errorsIs_self (err : GoError) : errorsIs err err = true := by
  cases err <;> simp [errorsIs]

/-- The factory calls of `onEpochTransition`: none, or one for the epoch of the first block,
whose counter resolved and has no bundle. -/
theorem onEpochTransition_creations (env : Env) (e : Engine) (first : Header) :
    creations (newEffects e (onEpochTransition env e first).1) = [] ∨
    (creations (newEffects e (onEpochTransition env e first).1) = [env.CurrentEpochAt first.ID] ∧
      ∃ c, env.Counter (env.CurrentEpochAt first.ID) = Except.ok c ∧
        getEpochComponents e c = none) := by
  cases hc : env.Counter (env.CurrentEpochAt first.ID) with
  | error err =>
      left
      rw [onEpochTransition_counterError env e first err hc]
      simp [newEffects, creations]
  | ok c =>
    cases hb : getEpochComponents e c with
    | some b =>
        left
        rw [onEpochTransition_exists env e first c b hc hb]
        simp [newEffects_emit, creations]
    | none =>
      right
      refine ⟨?_, c, rfl, hb⟩
      cases hcr : env.Create (env.CurrentEpochAt first.ID) with
      | error err =>
          cases hna : errorsIs err ErrNotAuthorizedForEpoch with
          | true =>
              rw [onEpochTransition_notAuthorized env e first c err hc hb hcr hna]
              simp [newEffects_emit, creations_append, creations, transitionPrefix]
          | false =>
              rw [onEpochTransition_createFailed env e first c err hc hb hcr hna]
              simp [newEffects_emit, creations_append, creations, transitionPrefix]
      | ok six =>
          obtain ⟨s1, s2, s3, s4, s5, s6⟩ := six
          cases hr : env.readyBeforeTimeout (NewEpochComponents s1 s2 s3 s4 s5 s6) with
          | false =>
              rw [onEpochTransition_startTimeout env e first c s1 s2 s3 s4 s5 s6 hc hb hcr hr]
              simp [newEffects, emit, creations_append, creations, transitionPrefix]
          | true =>
              rw [onEpochTransition_started env e first c s1 s2 s3 s4 s5 s6 hc hb hcr hr]
              simp [newEffects, emit, creations_append, creations, transitionPrefix]

/-- C11, as stated, fails: the engine keeps no record of the counters it has stopped.  The
transition to epoch 1, the stop of epoch 1 and the same transition notice once more take the
engine built by `New` through registries without, with, without and again with a bundle for
counter 1, and the factory is called twice for the epoch of counter 1. -/
theorem C11_counter_started_again_counterexample :
    List.map (fun s => (getEpochComponents s 1).isSome) (run New revisitNotices)
      = [false, true, false, true] ∧
    List.map (fun s => creations s.effects) (run New revisitNotices)
      = [[], [Epoch.mk 1], [Epoch.mk 1], [Epoch.mk 1, Epoch.mk 1]] := by
  decide

/-- C12: when the factory is reached and fails with an error `err` that is not
`ErrNotAuthorizedForEpoch`, `onEpochTransition` returns an error that wraps `err`
(`errors.Is` holds for `err`), the registry is unchanged, and the transition worker throws
exactly that error. -/
theorem C12_other_factory_error_is_fatal (env : Env) (e : Engine) (first : Header) (c : Nat)
    (err : GoError)
    (hc : env.Counter (env.CurrentEpochAt first.ID) = Except.ok c)
    (habs : getEpochComponents e c = none)
    (hcr : env.Create (env.CurrentEpochAt first.ID) = Except.error err)
    (hna : errorsIs err ErrNotAuthorizedForEpoch = false) :
    ∃ fatal, (onEpochTransition env e first).2 = some fatal ∧
      errorsIs fatal err = true ∧
      (onEpochTransition env e first).1.epochs = e.epochs ∧
      ∀ pending : List Header,
        thrown (newEffects e (handleEpochTransitionLoop env
          { e with epochTransitionEvents := first :: pending })) = [fatal] := by
  refine ⟨GoError.wrapf "could not create epoch components: %w" []
    (GoError.wrapf "could not setup requirements for epoch (%d): %w"
      [FmtArg.epoch (env.CurrentEpochAt first.ID).ref] err), ?_, ?_, ?_, ?_⟩
  · rw [onEpochTransition_createFailed env e first c err hc habs hcr hna]
  · simp [errorsIs, errorsIs_self]
  · rw [onEpochTransition_createFailed env e first c err hc habs hcr hna]; rfl
  · intro pending
    have habs2 : getEpochComponents { e with epochTransitionEvents := pending } c = none := habs
    simp only [handleEpochTransitionLoop,
      onEpochTransition_createFailed env _ first c err hc habs2 hcr hna]
    simp [newEffects, emit, thrown_append, thrown, transitionPrefix]

/-- C12 at a sample input: the transition to epoch 1 when the factory fails with an error of
its own. -/
theorem C12_other_factory_error_is_fatal_witness :
    brokenFactoryEnv.Counter (brokenFactoryEnv.CurrentEpochAt firstBlockOfEpoch1.ID)
      = Except.ok 1 ∧
    getEpochComponents New 1 = none ∧
    brokenFactoryEnv.Create (brokenFactoryEnv.CurrentEpochAt firstBlockOfEpoch1.ID)
      = Except.error (GoError.errorf "disk failure" []) ∧
    errorsIs (GoError.errorf "disk failure" []) ErrNotAuthorizedForEpoch = false ∧
    ∃ fatal, (onEpochTransition brokenFactoryEnv New firstBlockOfEpoch1).2 = some fatal ∧
      errorsIs fatal (GoError.errorf "disk failure" []) = true ∧
      (onEpochTransition brokenFactoryEnv New firstBlockOfEpoch1).1.epochs = New.epochs ∧
      ∀ pending : List Header,
        thrown (newEffects New (handleEpochTransitionLoop brokenFactoryEnv
          { New with epochTransitionEvents := firstBlockOfEpoch1 :: pending })) = [fatal] :=
  ⟨rfl, rfl, rfl, by decide,
   C12_other_factory_error_is_fatal brokenFactoryEnv New firstBlockOfEpoch1 1
     (GoError.errorf "disk failure" []) rfl rfl rfl (by decide)⟩

/-! ## Start-up -/

/-- The outcomes of `checkShouldVoteOnStartup`: an error and the engine untouched, or nil and
the engine untouched, or nil and the head appended to the setup-phase queue. -/
theorem checkShouldVoteOnStartup_cases (env : Env) (e : Engine) :
    (∃ err, checkShouldVoteOnStartup env e = (e, some err)) ∨
    checkShouldVoteOnStartup env e = (e, none) ∨
    ∃ header, checkShouldVoteOnStartup env e =
      ({ e with epochSetupPhaseStartedEvents := e.epochSetupPhaseStartedEvents ++ [header] },
       none) := by
  unfold checkShouldVoteOnStartup
  cases env.FinalPhase with
  | error err => left; exact ⟨_, rfl⟩
  | ok phase =>
      by_cases hp : phase = EpochPhase.setup
      · simp only [hp, if_true]
        cases env.FinalHead with
        | error err => left; exact ⟨_, rfl⟩
        | ok header => right; right; exact ⟨header, rfl⟩
      · simp only [hp, if_false]
        right; left; trivial

/-- C13: if `factory.Create` answers an error that is `ErrNotAuthorizedForEpoch` for the current
epoch, `Start` leaves the registry as it found it, so the engine built by `New` holds zero
bundles afterwards; and when the start-up vote check and `epoch.Counter()` succeed, so that
the factory is reached, `Start` throws nothing: it starts the workers, calls the factory
once and writes one line to the log. -/
theorem C13_start_not_authorized_holds_no_bundle (env : Env) (e : Engine) (err : GoError)
    (hcr : env.Create env.FinalCurrentEpoch = Except.error err)
    (hna : errorsIs err ErrNotAuthorizedForEpoch = true) :
    (Start env e).epochs = e.epochs ∧
    (Start env New).epochs = [] ∧
    (∀ counter, (checkShouldVoteOnStartup env e).2 = none →
      env.Counter env.FinalCurrentEpoch = Except.ok counter →
      thrown (newEffects e (Start env e)) = [] ∧
      creations (newEffects e (Start env e)) = [env.FinalCurrentEpoch] ∧
      newEffects e (Start env e) =
        [Effect.componentManagerStart, Effect.factoryCreate env.FinalCurrentEpoch,
         Effect.log LogLevel.info
          "node is not authorized for current epoch - skipping initializing cluster consensus"])
    := by
  have hna2 : errorsIs (GoError.wrapf "could not setup requirements for epoch (%d): %w"
      [FmtArg.epoch env.FinalCurrentEpoch.ref] err) ErrNotAuthorizedForEpoch = true := by
    simp [errorsIs, hna]
  have hepochs : ∀ e0 : Engine, (Start env e0).epochs = e0.epochs := by
    intro e0
    rcases checkShouldVoteOnStartup_cases env (emit e0 [Effect.componentManagerStart])
      with ⟨verr, hv⟩ | hv | ⟨header, hv⟩
    · simp only [Start, hv]; rfl
    · simp only [Start, hv]
      cases hcnt : env.Counter env.FinalCurrentEpoch with
      | error cerr => rfl
      | ok counter => simp [createEpochComponents, hcr, hna2, emit]
    · simp only [Start, hv]
      cases hcnt : env.Counter env.FinalCurrentEpoch with
      | error cerr => rfl
      | ok counter => simp [createEpochComponents, hcr, hna2, emit]
  refine ⟨hepochs e, hepochs New, ?_⟩
  intro counter hvote hcnt
  have hv2 : (checkShouldVoteOnStartup env (emit e [Effect.componentManagerStart])).2 = none := by
    unfold checkShouldVoteOnStartup at hvote ⊢
    cases hp : env.FinalPhase with
    | error perr => rw [hp] at hvote; simp at hvote
    | ok phase =>
        rw [hp] at hvote
        by_cases hs : phase = EpochPhase.setup
        · simp only [hs, if_true] at hvote ⊢
          cases hh : env.FinalHead with
          | error herr => rw [hh] at hvote; simp at hvote
          | ok header => rfl
        · simp only [hs, if_false]
  have hfx : newEffects e (Start env e) =
      [Effect.componentManagerStart, Effect.factoryCreate env.FinalCurrentEpoch,
       Effect.log LogLevel.info
        "node is not authorized for current epoch - skipping initializing cluster consensus"]
      := by
    rcases checkShouldVoteOnStartup_cases env (emit e [Effect.componentManagerStart])
      with ⟨verr, hv⟩ | hv | ⟨header, hv⟩
    · rw [hv] at hv2; simp at hv2
    · simp only [Start, hv]
      simp [hcnt, createEpochComponents, hcr, hna2, emit, newEffects]
    · simp only [Start, hv]
      simp [hcnt, createEpochComponents, hcr, hna2, emit, newEffects]
  rw [hfx]
  exact ⟨rfl, rfl, rfl⟩

/-- C13 at a sample input: `Start` on the engine built by `New`, on a node that is not
authorized. -/
theorem C13_start_not_authorized_holds_no_bundle_witness :
    unauthorizedEnv.Create unauthorizedEnv.FinalCurrentEpoch
      = Except.error ErrNotAuthorizedForEpoch ∧
    errorsIs ErrNotAuthorizedForEpoch ErrNotAuthorizedForEpoch = true ∧
    (Start unauthorizedEnv New).epochs = [] ∧
    thrown (newEffects New (Start unauthorizedEnv New)) = [] :=
  have h := C13_start_not_authorized_holds_no_bundle unauthorizedEnv New
    ErrNotAuthorizedForEpoch rfl (by decide)
  ⟨rfl, by decide, h.2.1, (h.2.2 0 rfl rfl).1⟩

/-- C14: `checkShouldVoteOnStartup` appends the finalized head to the setup-phase queue when
the phase of the finalized snapshot is `EpochPhaseSetup` and `Head()` succeeds, and leaves
the engine untouched in every other case; it returns an error exactly when `Phase()` fails,
or the phase is `EpochPhaseSetup` and `Head()` fails, and in those cases it leaves the
engine untouched. -/
theorem C14_startup_vote_check (env : Env) (e : Engine) :
    (∀ header, env.FinalPhase = Except.ok EpochPhase.setup → env.FinalHead = Except.ok header →
      checkShouldVoteOnStartup env e =
        ({ e with epochSetupPhaseStartedEvents := e.epochSetupPhaseStartedEvents ++ [header] },
         none)) ∧
    (∀ phase, env.FinalPhase = Except.ok phase → phase ≠ EpochPhase.setup →
      checkShouldVoteOnStartup env e = (e, none)) ∧
    ((checkShouldVoteOnStartup env e).2 ≠ none ↔
      ((∃ err, env.FinalPhase = Except.error err) ∨
       (env.FinalPhase = Except.ok EpochPhase.setup ∧
         ∃ err, env.FinalHead = Except.error err))) ∧
    ((checkShouldVoteOnStartup env e).2 ≠ none → (checkShouldVoteOnStartup env e).1 = e) ∧
    ((checkShouldVoteOnStartup env e).1.epochSetupPhaseStartedEvents
        ≠ e.epochSetupPhaseStartedEvents ↔
      (env.FinalPhase = Except.ok EpochPhase.setup ∧
        ∃ header, env.FinalHead = Except.ok header)) := by
  unfold checkShouldVoteOnStartup
  cases hp : env.FinalPhase with
  | error perr => simp
  | ok phase =>
      by_cases hs : phase = EpochPhase.setup
      · subst hs
        cases hh : env.FinalHead with
        | error herr => simp
        | ok header => simp
      · simp [hs]

/-- C15: whatever `voter.Vote` returns, `onEpochSetupPhaseStarted` calls the voter once, writes
at most an error line to the log, throws nothing and leaves the registry unchanged; the same
holds for the iteration of the setup-phase worker that calls it. -/
theorem C15_vote_is_best_effort (env : Env) (e : Engine) (nextEpoch : Epoch) :
    thrown (newEffects e (onEpochSetupPhaseStarted env e nextEpoch)) = [] ∧
    (onEpochSetupPhaseStarted env e nextEpoch).epochs = e.epochs ∧
    (newEffects e (onEpochSetupPhaseStarted env e nextEpoch) = [Effect.vote nextEpoch] ∨
     newEffects e (onEpochSetupPhaseStarted env e nextEpoch) =
      [Effect.vote nextEpoch,
       Effect.log LogLevel.error "failed to submit QC vote for next epoch"]) ∧
    thrown (newEffects e (handleEpochSetupPhaseStartedLoop env e)) = [] ∧
    (handleEpochSetupPhaseStartedLoop env e).epochs = e.epochs := by
  have hone : ∀ (e0 : Engine) (ep : Epoch),
      (onEpochSetupPhaseStarted env e0 ep = emit e0 [Effect.vote ep]) ∨
      (onEpochSetupPhaseStarted env e0 ep = emit e0 [Effect.vote ep,
        Effect.log LogLevel.error "failed to submit QC vote for next epoch"]) := by
    intro e0 ep
    unfold onEpochSetupPhaseStarted
    cases env.Vote ep with
    | none => left; rfl
    | some verr => right; simp [emit]
  refine ⟨?_, ?_, ?_, ?_, ?_⟩
  · rcases hone e nextEpoch with h | h <;> rw [h] <;> simp [newEffects_emit, thrown]
  · rcases hone e nextEpoch with h | h <;> rw [h] <;> rfl
  · rcases hone e nextEpoch with h | h
    · left; rw [h, newEffects_emit]
    · right; rw [h, newEffects_emit]
  · unfold handleEpochSetupPhaseStartedLoop
    cases hq : e.epochSetupPhaseStartedEvents with
    | nil => simp [newEffects, thrown]
    | cons firstBlock pending =>
        simp only []
        rcases hone { e with epochSetupPhaseStartedEvents := pending }
          (env.NextEpochAt firstBlock.ID) with h | h <;> rw [h] <;>
          simp [newEffects, emit, thrown]
  · unfold handleEpochSetupPhaseStartedLoop
    cases hq : e.epochSetupPhaseStartedEvents with
    | nil => rfl
    | cons firstBlock pending =>
        simp only []
        rcases hone { e with epochSetupPhaseStartedEvents := pending }
          (env.NextEpochAt firstBlock.ID) with h | h <;> rw [h] <;> rfl

/-- C16: the components `Ready` (and `Done`) waits on are the component manager of the engine,
once, followed by one element for each entry of the registry at the time of the call, so
their number is the size of the registry plus one and every bundle of the registry is among
them; the list is a function of the registry at the time of the call alone. -/
theorem C16_ready_done_wait_on_registry_snapshot (e : Engine) :
    Ready e = ReadyDoneAware.componentManager ::
      e.epochs.map (fun entry => ReadyDoneAware.epochComponents entry.2) ∧
    Done e = Ready e ∧
    (Ready e).length = e.epochs.length + 1 ∧
    (Done e).length = e.epochs.length + 1 ∧
    (Ready e).count ReadyDoneAware.componentManager = 1 ∧
    (∀ counter b, getEpochComponents e counter = some b →
      ReadyDoneAware.epochComponents b ∈ Ready e) ∧
    (∀ later : Engine, later.epochs = e.epochs → Ready later = Ready e ∧ Done later = Done e) ∧
    (∀ counter b, getEpochComponents e counter = none →
      (Ready (storeEpochComponents e counter b)).length = (Ready e).length + 1) := by
  refine ⟨rfl, rfl, by simp [Ready], by simp [Done], ?_, ?_, ?_, ?_⟩
  · simp [Ready, List.count_cons, List.count_eq_zero]
  · intro counter b hb
    have hmem : ∀ m : List (Nat × StartableEpochComponents),
        mapLookup m counter = some b → (counter, b) ∈ m := by
      intro m
      induction m with
      | nil => intro h; simp [mapLookup] at h
      | cons p rest ih =>
          obtain ⟨k, v⟩ := p
          intro h
          unfold mapLookup at h
          by_cases hk : k = counter
          · rw [if_pos hk] at h
            simp only [Option.some.injEq] at h
            simp [hk, h]
          · rw [if_neg hk] at h
            exact List.mem_cons_of_mem _ (ih h)
    have := hmem e.epochs hb
    simp only [Ready, List.singleton_append, List.mem_cons, List.mem_map]
    right
    exact ⟨(counter, b), this, rfl⟩
  · intro later h
    simp [Ready, Done, h]
  · intro counter b habs
    have hdel : ∀ m : List (Nat × StartableEpochComponents),
        mapLookup m counter = none → mapDelete m counter = m := by
      intro m
      induction m with
      | nil => intro _; rfl
      | cons p rest ih =>
          obtain ⟨k, v⟩ := p
          intro h
          unfold mapLookup at h
          by_cases hk : k = counter
          · rw [if_pos hk] at h; exact Option.noConfusion h
          · rw [if_neg hk] at h
            unfold mapDelete
            rw [if_neg hk, ih h]
    simp [Ready, storeEpochComponents, mapStore, hdel e.epochs habs]

/-! ## Timeout errors, and who writes the registry -/

/-- C17, on the code: the error `startEpochComponents` builds on a start-up timeout names the
counter, but its text is the one of the shut-down path, "could not stop epoch ...": it is the
very error `stopEpochComponents` builds on a shut-down timeout for the same counter and the
same timeout, so the two cannot be told apart and the start phase is not named. -/
theorem C17_start_timeout_error_reads_as_stop (env : Env) (e : Engine) (counter : Nat)
    (components : EpochComponents) (b : StartableEpochComponents)
    (hr : env.readyBeforeTimeout components = false)
    (hb : getEpochComponents e counter = some b)
    (hd : env.doneBeforeTimeout b = false) :
    (startEpochComponents env e counter components).2 =
      some (GoError.wrapf "could not stop epoch %d components after %s: %w"
        [FmtArg.uint counter, FmtArg.duration e.startupTimeout] ErrTimeout) ∧
    (startEpochComponents env e counter components).2 = (stopEpochComponents env e counter).2 := by
  rw [stopEpochComponents_timeout env e counter b hb hd]
  simp [startEpochComponents, hr]

/-- C17 at a failing input: counter 0, a bundle that never signals Ready, and the bundle A of
epoch 0 that never signals Done. -/
theorem C17_start_timeout_error_reads_as_stop_witness :
    stuckEnv.readyBeforeTimeout bundleOfEpoch1 = false ∧
    getEpochComponents engineInEpoch0 0 = some bundleA ∧
    stuckEnv.doneBeforeTimeout bundleA = false ∧
    (startEpochComponents stuckEnv engineInEpoch0 0 bundleOfEpoch1).2 =
      some (GoError.wrapf "could not stop epoch %d components after %s: %w"
        [FmtArg.uint 0, FmtArg.duration 60000000000] ErrTimeout) ∧
    (startEpochComponents stuckEnv engineInEpoch0 0 bundleOfEpoch1).2
      = (stopEpochComponents stuckEnv engineInEpoch0 0).2 :=
  have h := C17_start_timeout_error_reads_as_stop stuckEnv engineInEpoch0 0 bundleOfEpoch1
    bundleA rfl rfl rfl
  ⟨rfl, rfl, rfl, h.1, h.2⟩

/-- The registry after `onEpochTransition` maps every counter that had a bundle to the same
bundle. -/
theorem onEpochTransition_keeps_entries (env : Env) (e : Engine) (first : Header) (k : Nat)
    (b : StartableEpochComponents) (hb : getEpochComponents e k = some b) :
    getEpochComponents (onEpochTransition env e first).1 k = some b := by
  rcases onEpochTransition_epochs env e first with h | ⟨c, v, _, habs, h⟩
  · unfold getEpochComponents at hb ⊢
    rw [h]; exact hb
  · have hne : k ≠ c := by
      intro heq
      rw [heq, habs] at hb
      exact Option.noConfusion hb
    unfold getEpochComponents at hb ⊢
    rw [h, mapLookup_mapStore, if_neg hne]
    exact hb

/-- C18, as stated, fails for `startEpochComponents`: it stores with a plain map assignment.
Called with counter 0 on an engine that runs the bundle A for epoch 0, it leaves counter 0
mapped to the bundle it has just started, not to A. -/
theorem C18_start_overwrites_entry_counterexample :
    getEpochComponents engineInEpoch0 0 = some bundleA ∧
    getEpochComponents (startEpochComponents authorizedEnv engineInEpoch0 0 bundleOfEpoch1).1 0
      = some (NewStartableEpochComponents bundleOfEpoch1 1) ∧
    NewStartableEpochComponents bundleOfEpoch1 1 ≠ bundleA := by
  decide

/-- C18, amended: `onEpochTransition` leaves every counter that had a bundle mapped to the
same bundle and adds at most one entry, under the counter resolved from the first block, which
had none; `startEpochComponents` leaves every counter other than its own mapped as before,
and its own too when the timeout wins, while a bundle already stored under its own counter
is replaced when the new bundle becomes ready; `stopEpochComponents` adds no entry. -/
theorem C18_registry_written_by_start_and_stop_paths (env : Env) (e : Engine) :
    (∀ (first : Header) (k : Nat) (b : StartableEpochComponents),
      getEpochComponents e k = some b →
      getEpochComponents (onEpochTransition env e first).1 k = some b) ∧
    (∀ first : Header,
      (onEpochTransition env e first).1.epochs = e.epochs ∨
      ∃ c b, env.Counter (env.CurrentEpochAt first.ID) = Except.ok c ∧
        getEpochComponents e c = none ∧
        (onEpochTransition env e first).1.epochs = mapStore e.epochs c b) ∧
    (∀ first : Header,
      (onEpochTransition env e first).1.epochs.length ≤ e.epochs.length + 1) ∧
    (∀ (counter : Nat) (components : EpochComponents) (k : Nat), k ≠ counter →
      getEpochComponents (startEpochComponents env e counter components).1 k
        = getEpochComponents e k) ∧
    (∀ (counter : Nat) (components : EpochComponents),
      getEpochComponents (startEpochComponents env e counter components).1 counter
        = (if env.readyBeforeTimeout components
            then some (NewStartableEpochComponents components e.contexts)
            else getEpochComponents e counter)) ∧
    (∀ counter k : Nat, getEpochComponents e k = none →
      getEpochComponents (stopEpochComponents env e counter).1 k = none) ∧
    (∀ counter : Nat,
      (stopEpochComponents env e counter).1.epochs.length ≤ e.epochs.length) := by
  refine ⟨fun first k b hb => onEpochTransition_keeps_entries env e first k b hb,
    fun first => onEpochTransition_epochs env e first,
    fun first => onEpochTransition_length_le env e first, ?_, ?_, ?_,
    fun counter => stopEpochComponents_length_le env e counter⟩
  · intro counter components k hk
    rcases startEpochComponents_epochs env e counter components with h | h
    · unfold getEpochComponents; rw [h]
    · unfold getEpochComponents; rw [h, mapLookup_mapStore, if_neg hk]
  · intro counter components
    unfold startEpochComponents
    cases hr : env.readyBeforeTimeout components with
    | false => simp [getEpochComponents, emit]
    | true => simp [getEpochComponents, emit, storeEpochComponents, mapLookup_mapStore]
  · intro counter k hk
    rcases stopEpochComponents_epochs env e counter with h | h
    · unfold getEpochComponents at hk ⊢
      rw [h]; exact hk
    · unfold getEpochComponents at hk ⊢
      rw [h, mapLookup_mapDelete]
      split
      · rfl
      · exact hk

end EpochMgr

/-! ## Queries for the next epoch -/

namespace Badger

open EpochMgr

/-- C19: when the protocol state of the reference block is found, `NextUnsafe` answers by its
phase: `ErrNextEpochNotSetup` in the staking and in the fallback phase, the tentative epoch
built from `NextEpochSetup` of the entry and a nil error in the setup phase,
`ErrNextEpochAlreadyCommitted` in the committed phase, and for every other value of the phase
an error that is none of the two sentinels; the error is nil exactly in the setup phase. -/
theorem C19_next_unsafe_by_phase (q : EpochQuery) (epochState : EpochProtocolState)
    (hstate : q.snap.state.EpochStateAtBlockID q.snap.blockID = Except.ok epochState) :
    (epochState.EpochPhase = EpochPhase.staking ∨ epochState.EpochPhase = EpochPhase.fallback →
      NextUnsafe q = (none, some ErrNextEpochNotSetup)) ∧
    (epochState.EpochPhase = EpochPhase.setup →
      NextUnsafe q = (some (NewSetupEpoch epochState.Entry.NextEpochSetup), none)) ∧
    (epochState.EpochPhase = EpochPhase.committed →
      NextUnsafe q = (none, some ErrNextEpochAlreadyCommitted)) ∧
    (epochState.EpochPhase = EpochPhase.undefined ∨
        (∃ value, epochState.EpochPhase = EpochPhase.unknown value) →
      ∃ err, NextUnsafe q = (none, some err) ∧
        errorsIs err ErrNextEpochNotSetup = false ∧
        errorsIs err ErrNextEpochAlreadyCommitted = false ∧
        isException err = false) ∧
    ((NextUnsafe q).2 = none ↔ epochState.EpochPhase = EpochPhase.setup) := by
  unfold NextUnsafe
  rw [hstate]
  obtain ⟨phase, entry, previousExists⟩ := epochState
  cases phase <;>
    simp [errorsIs, ErrNextEpochNotSetup, ErrNextEpochAlreadyCommitted, isException]

/-- C19 at a sample input: the query in the setup phase returns the tentative epoch of
counter 6. -/
theorem C19_next_unsafe_by_phase_witness :
    (queryInPhase EpochPhase.setup).snap.state.EpochStateAtBlockID
        (queryInPhase EpochPhase.setup).snap.blockID
      = Except.ok (EpochProtocolState.mk EpochPhase.setup sampleEntry true) ∧
    NextUnsafe (queryInPhase EpochPhase.setup)
      = (some (NewSetupEpoch (EpochSetup.mk 6 0)), none) :=
  ⟨rfl, (C19_next_unsafe_by_phase (queryInPhase EpochPhase.setup)
    (EpochProtocolState.mk EpochPhase.setup sampleEntry true) rfl).2.1 rfl⟩

/-- C20: `NextCommitted` returns the error `ErrNextEpochNotCommitted` exactly when the protocol
state of the reference block is found and its phase is staking, fallback or setup; in the
committed phase it returns the next epoch, built from the next setup and commit events, and
a nil error when the next epoch has no extensions, and no epoch and an exception when it has
some; and it never returns an epoch together with an error. -/
theorem C20_next_committed_by_phase (q : EpochQuery) :
    ((NextCommitted q).2 = some ErrNextEpochNotCommitted ↔
      ∃ epochState, q.snap.state.EpochStateAtBlockID q.snap.blockID = Except.ok epochState ∧
        (epochState.EpochPhase = EpochPhase.staking ∨
         epochState.EpochPhase = EpochPhase.fallback ∨
         epochState.EpochPhase = EpochPhase.setup)) ∧
    (∀ epochState, q.snap.state.EpochStateAtBlockID q.snap.blockID = Except.ok epochState →
      epochState.EpochPhase = EpochPhase.committed →
      epochState.Entry.NextEpochExtensions = [] →
      NextCommitted q = (some (NewCommittedEpoch epochState.Entry.NextEpochSetup
        epochState.Entry.NextEpochCommit epochState.Entry.NextEpochExtensions), none)) ∧
    (∀ epochState, q.snap.state.EpochStateAtBlockID q.snap.blockID = Except.ok epochState →
      epochState.EpochPhase = EpochPhase.committed →
      epochState.Entry.NextEpochExtensions ≠ [] →
      ∃ err, NextCommitted q = (none, some err) ∧ isException err = true) ∧
    ((NextCommitted q).1 = none ∨ (NextCommitted q).2 = none) := by
  unfold NextCommitted
  cases hstate : q.snap.state.EpochStateAtBlockID q.snap.blockID with
  | error err => simp [ErrNextEpochNotCommitted]
  | ok epochState =>
      obtain ⟨phase, entry, previousExists⟩ := epochState
      cases phase <;> simp [ErrNextEpochNotCommitted, isException]
      · by_cases hx : entry.NextEpochExtensions = []
        · simp [hx]
        · have hpos : 0 < entry.NextEpochExtensions.length := List.length_pos.mpr hx
          simp [hx, hpos, isException]

/-! ## Height bounds of an epoch, and the previous epoch -/

/-- C21: `retrieveEpochHeightBounds(epoch)`, by what the two lookups answer (stored: the lookup
returns a height; not stored: it returns an error that is `storage.ErrNotFound`).  With no
other error the fifth result is nil, `isFirstHeightKnown` tells whether a first height is
stored for `epoch`, `isLastHeightKnown` whether a first height `F` is stored for `epoch + 1`,
a known `firstHeight` is the stored value, a known `finalHeight` is `F - 1`, and an unknown
height is 0.  If a lookup that is made fails with any other error `err`, the result is
`(0, 0, false, false, err)`.  `epoch + 1` and `F - 1` are computed on `uint64`. -/
theorem C21_epoch_height_bounds (q : EpochQuery) (epoch : Nat) :
    (∀ h F, q.snap.state.RetrieveEpochFirstHeight epoch = Except.ok h →
      q.snap.state.RetrieveEpochFirstHeight (uint64Add epoch 1) = Except.ok F →
      retrieveEpochHeightBounds q epoch = (h, uint64Sub F 1, true, true, none)) ∧
    (∀ h err, q.snap.state.RetrieveEpochFirstHeight epoch = Except.ok h →
      q.snap.state.RetrieveEpochFirstHeight (uint64Add epoch 1) = Except.error err →
      errorsIs err ErrNotFound = true →
      retrieveEpochHeightBounds q epoch = (h, 0, true, false, none)) ∧
    (∀ err F, q.snap.state.RetrieveEpochFirstHeight epoch = Except.error err →
      errorsIs err ErrNotFound = true →
      q.snap.state.RetrieveEpochFirstHeight (uint64Add epoch 1) = Except.ok F →
      retrieveEpochHeightBounds q epoch = (0, uint64Sub F 1, false, true, none)) ∧
    (∀ err1 err2, q.snap.state.RetrieveEpochFirstHeight epoch = Except.error err1 →
      errorsIs err1 ErrNotFound = true →
      q.snap.state.RetrieveEpochFirstHeight (uint64Add epoch 1) = Except.error err2 →
      errorsIs err2 ErrNotFound = true →
      retrieveEpochHeightBounds q epoch = (0, 0, false, false, none)) ∧
    (∀ err, q.snap.state.RetrieveEpochFirstHeight epoch = Except.error err →
      errorsIs err ErrNotFound = false →
      retrieveEpochHeightBounds q epoch = (0, 0, false, false, some err)) ∧
    (∀ err, (∀ err1, q.snap.state.RetrieveEpochFirstHeight epoch = Except.error err1 →
        errorsIs err1 ErrNotFound = true) →
      q.snap.state.RetrieveEpochFirstHeight (uint64Add epoch 1) = Except.error err →
      errorsIs err ErrNotFound = false →
      retrieveEpochHeightBounds q epoch = (0, 0, false, false, some err)) ∧
    ((retrieveEpochHeightBounds q epoch).2.2.2.2 = none →
      ((retrieveEpochHeightBounds q epoch).2.2.1 = true ↔
        ∃ h, q.snap.state.RetrieveEpochFirstHeight epoch = Except.ok h) ∧
      ((retrieveEpochHeightBounds q epoch).2.2.2.1 = true ↔
        ∃ F, q.snap.state.RetrieveEpochFirstHeight (uint64Add epoch 1) = Except.ok F)) ∧
    (epoch + 1 < uint64Size → uint64Add epoch 1 = epoch + 1) ∧
    (∀ F, 0 < F → F < uint64Size → uint64Sub F 1 = F - 1) := by
  refine ⟨?_, ?_, ?_, ?_, ?_, ?_, ?_, ?_, ?_⟩
  · intro h F h1 h2
    simp [retrieveEpochHeightBounds, h1, h2]
  · intro h err h1 h2 hn
    simp [retrieveEpochHeightBounds, h1, h2, hn]
  · intro err F h1 hn h2
    simp [retrieveEpochHeightBounds, h1, h2, hn]
  · intro err1 err2 h1 hn1 h2 hn2
    simp [retrieveEpochHeightBounds, h1, h2, hn1, hn2]
  · intro err h1 hn
    simp [retrieveEpochHeightBounds, h1, hn]
  · intro err hfirst h2 hn
    cases h1 : q.snap.state.RetrieveEpochFirstHeight epoch with
    | error err1 => simp [retrieveEpochHeightBounds, h1, h2, hn, hfirst err1 h1]
    | ok h => simp [retrieveEpochHeightBounds, h1, h2, hn]
  · cases h1 : q.snap.state.RetrieveEpochFirstHeight epoch with
    | error err1 =>
        cases hn1 : errorsIs err1 ErrNotFound with
        | false => simp [retrieveEpochHeightBounds, h1, hn1]
        | true =>
            cases h2 : q.snap.state.RetrieveEpochFirstHeight (uint64Add epoch 1) with
            | error err2 =>
                cases hn2 : errorsIs err2 ErrNotFound <;>
                  simp [retrieveEpochHeightBounds, h1, hn1, h2, hn2]
            | ok F => simp [retrieveEpochHeightBounds, h1, hn1, h2]
    | ok h =>
        cases h2 : q.snap.state.RetrieveEpochFirstHeight (uint64Add epoch 1) with
        | error err2 =>
            cases hn2 : errorsIs err2 ErrNotFound <;>
              simp [retrieveEpochHeightBounds, h1, h2, hn2]
        | ok F => simp [retrieveEpochHeightBounds, h1, h2]
  · intro hlt
    unfold uint64Add
    exact Nat.mod_eq_of_lt hlt
  · intro F hpos hlt
    unfold uint64Sub uint64Size at *
    omega

/-- C21 at sample inputs: first heights 1000 and 2000 are stored for epochs 4 and 5 only, so
epoch 4 has both boundaries, epoch 5 its first height, epoch 3 its final height and epoch 8
none. -/
theorem C21_epoch_height_bounds_witness :
    retrieveEpochHeightBounds (queryInPhase EpochPhase.staking) 4
      = (1000, 1999, true, true, none) ∧
    retrieveEpochHeightBounds (queryInPhase EpochPhase.staking) 5
      = (2000, 0, true, false, none) ∧
    retrieveEpochHeightBounds (queryInPhase EpochPhase.staking) 3
      = (0, 999, false, true, none) ∧
    retrieveEpochHeightBounds (queryInPhase EpochPhase.staking) 8
      = (0, 0, false, false, none) :=
  ⟨((C21_epoch_height_bounds (queryInPhase EpochPhase.staking) 4).1 1000 2000 rfl rfl).trans
     rfl,
   (C21_epoch_height_bounds (queryInPhase EpochPhase.staking) 5).2.1 2000 ErrNotFound rfl rfl
     (by decide),
   ((C21_epoch_height_bounds (queryInPhase EpochPhase.staking) 3).2.2.1 ErrNotFound 1000 rfl
     (by decide) rfl).trans rfl,
   (C21_epoch_height_bounds (queryInPhase EpochPhase.staking) 8).2.2.2.1 ErrNotFound
     ErrNotFound rfl (by decide) rfl (by decide)⟩

/-- The results of `retrieveEpochHeightBounds` carry an error, or are one of the four
combinations of known and unknown boundaries. -/
theorem retrieveEpochHeightBounds_cases (q : EpochQuery) (epoch : Nat) :
    (∃ err, retrieveEpochHeightBounds q epoch = (0, 0, false, false, some err)) ∨
    (∃ firstHeight finalHeight firstKnown finalKnown,
      retrieveEpochHeightBounds q epoch =
        (firstHeight, finalHeight, firstKnown, finalKnown, none)) := by
  cases h1 : q.snap.state.RetrieveEpochFirstHeight epoch with
  | error err1 =>
      cases hn1 : errorsIs err1 ErrNotFound with
      | false => left; exact ⟨err1, by simp [retrieveEpochHeightBounds, h1, hn1]⟩
      | true =>
          cases h2 : q.snap.state.RetrieveEpochFirstHeight (uint64Add epoch 1) with
          | error err2 =>
              cases hn2 : errorsIs err2 ErrNotFound with
              | false =>
                  left; exact ⟨err2, by simp [retrieveEpochHeightBounds, h1, hn1, h2, hn2]⟩
              | true =>
                  right
                  exact ⟨0, 0, false, false,
                    by simp [retrieveEpochHeightBounds, h1, hn1, h2, hn2]⟩
          | ok F =>
              right
              exact ⟨0, uint64Sub F 1, false, true,
                by simp [retrieveEpochHeightBounds, h1, hn1, h2]⟩
  | ok h =>
      cases h2 : q.snap.state.RetrieveEpochFirstHeight (uint64Add epoch 1) with
      | error err2 =>
          cases hn2 : errorsIs err2 ErrNotFound with
          | false => left; exact ⟨err2, by simp [retrieveEpochHeightBounds, h1, h2, hn2]⟩
          | true =>
              right; exact ⟨h, 0, true, false, by simp [retrieveEpochHeightBounds, h1, h2, hn2]⟩
      | ok F =>
          right; exact ⟨h, uint64Sub F 1, true, true, by simp [retrieveEpochHeightBounds, h1, h2]⟩

/-- C30: when the protocol state is found, a previous epoch exists and
`retrieveEpochHeightBounds` returns no error, `Previous` returns an epoch and a nil error,
built by the constructor that fits the known boundaries; the error of the last branch,
"sanity check failed", is never returned; and the returned error is `ErrNoPreviousEpoch`
exactly when the protocol state is found and `PreviousEpochExists()` is false. -/
theorem C30_previous_covers_all_boundary_cases (q : EpochQuery) :
    (∀ epochState firstHeight finalHeight firstKnown finalKnown,
      q.snap.state.EpochStateAtBlockID q.snap.blockID = Except.ok epochState →
      epochState.PreviousEpochExists = true →
      retrieveEpochHeightBounds q epochState.Entry.PreviousEpochSetup.Counter =
        (firstHeight, finalHeight, firstKnown, finalKnown, none) →
      Previous q = (some (CommittedEpoch.mk epochState.Entry.PreviousEpochSetup
        epochState.Entry.PreviousEpochCommit epochState.Entry.PreviousEpochExtensions
        (if firstKnown then some firstHeight else none)
        (if finalKnown then some finalHeight else none)), none)) ∧
    (Previous q).2 ≠ some (GoError.errorf
      "sanity check failed: impossible combination of boundaries for previous epoch" []) ∧
    ((Previous q).2 = some ErrNoPreviousEpoch ↔
      ∃ epochState, q.snap.state.EpochStateAtBlockID q.snap.blockID = Except.ok epochState ∧
        epochState.PreviousEpochExists = false) ∧
    ((Previous q).1 = none ∨ (Previous q).2 = none) := by
  have hshape : ∀ epochState,
      q.snap.state.EpochStateAtBlockID q.snap.blockID = Except.ok epochState →
      epochState.PreviousEpochExists = true →
      (∃ err, Previous q = (none, some (GoError.wrapf "could not get epoch height bounds: %w"
        [] err))) ∨
      (∃ epoch, Previous q = (some epoch, none)) := by
    intro epochState hstate hprev
    rcases retrieveEpochHeightBounds_cases q epochState.Entry.PreviousEpochSetup.Counter
      with ⟨err, hb⟩ | ⟨fh, lh, fk, lk, hb⟩
    · left
      exact ⟨err, by simp [Previous, hstate, hprev, hb]⟩
    · right
      cases fk <;> cases lk <;> simp [Previous, hstate, hprev, hb]
  refine ⟨?_, ?_, ?_, ?_⟩
  · intro epochState firstHeight finalHeight firstKnown finalKnown hstate hprev hb
    cases firstKnown <;> cases finalKnown <;>
      simp [Previous, hstate, hprev, hb, NewEpochWithStartAndEndBoundaries,
        NewEpochWithStartBoundary, NewEpochWithEndBoundary, NewCommittedEpoch]
  · cases hstate : q.snap.state.EpochStateAtBlockID q.snap.blockID with
    | error err => simp [Previous, hstate]
    | ok epochState =>
        cases hprev : epochState.PreviousEpochExists with
        | false => simp [Previous, hstate, hprev, ErrNoPreviousEpoch]
        | true =>
            rcases hshape epochState hstate hprev with ⟨err, h⟩ | ⟨epoch, h⟩ <;> rw [h] <;> simp
  · cases hstate : q.snap.state.EpochStateAtBlockID q.snap.blockID with
    | error err => simp [Previous, hstate, ErrNoPreviousEpoch]
    | ok epochState =>
        cases hprev : epochState.PreviousEpochExists with
        | false => simp [Previous, hstate, hprev]
        | true =>
            rcases hshape epochState hstate hprev with ⟨err, h⟩ | ⟨epoch, h⟩ <;> rw [h] <;>
              simp [ErrNoPreviousEpoch, hprev]
  · cases hstate : q.snap.state.EpochStateAtBlockID q.snap.blockID with
    | error err => simp [Previous, hstate]
    | ok epochState =>
        cases hprev : epochState.PreviousEpochExists with
        | false => simp [Previous, hstate, hprev]
        | true =>
            rcases hshape epochState hstate hprev with ⟨err, h⟩ | ⟨epoch, h⟩ <;> rw [h] <;> simp

/-- C30 at a sample input: the previous epoch has the counter 4, for which both boundaries are
stored. -/
theorem C30_previous_covers_all_boundary_cases_witness :
    Previous (queryInPhase EpochPhase.staking)
      = (some (CommittedEpoch.mk (EpochSetup.mk 4 0) (EpochCommit.mk 4 0) [] (some 1000)
          (some 1999)), none) :=
  (C30_previous_covers_all_boundary_cases (queryInPhase EpochPhase.staking)).1
    (EpochProtocolState.mk EpochPhase.staking sampleEntry true) 1000 1999 true true rfl rfl rfl

/-! ## History cut-off of the sealing segment -/

/-- The header that the loop of step (ii) keeps is not higher than the header it starts from,
nor than any header it looks up. -/
theorem lowestSealedByHead_le (ByBlockID : Nat → Except GoError Header) (sealBlockID : Nat)
    (seals : List Nat) (start lowest : Header)
    (h : lowestSealedByHead ByBlockID sealBlockID start seals = Except.ok lowest) :
    lowest.Height ≤ start.Height ∧
    ∀ id ∈ seals, ∀ hdr, ByBlockID id = Except.ok hdr → lowest.Height ≤ hdr.Height := by
  induction seals generalizing start with
  | nil =>
      simp only [lowestSealedByHead, Except.ok.injEq] at h
      subst h
      exact ⟨Nat.le_refl _, fun id hid => absurd hid (List.not_mem_nil id)⟩
  | cons sealInHead rest ih =>
      unfold lowestSealedByHead at h
      cases hl : ByBlockID sealInHead with
      | error e => rw [hl] at h; simp at h
      | ok hd =>
          rw [hl] at h
          simp only [] at h
          by_cases hlt : hd.Height < start.Height
          · rw [if_pos hlt] at h
            have := ih hd h
            refine ⟨by omega, ?_⟩
            intro id hid hdr hlook
            rcases List.mem_cons.mp hid with heq | hmem
            · rw [heq, hl] at hlook
              simp only [Except.ok.injEq] at hlook
              rw [← hlook]; exact this.1
            · exact this.2 id hmem hdr hlook
          · rw [if_neg hlt] at h
            have := ih start h
            refine ⟨this.1, ?_⟩
            intro id hid hdr hlook
            rcases List.mem_cons.mp hid with heq | hmem
            · rw [heq, hl] at hlook
              simp only [Except.ok.injEq] at hlook
              rw [← hlook]; omega
            · exact this.2 id hmem hdr hlook

/-- When every header sealed by head is found, the loop of step (ii) returns a header: the
one it started from or one it looked up. -/
theorem lowestSealedByHead_found (ByBlockID : Nat → Except GoError Header) (sealBlockID : Nat)
    (seals : List Nat) (start : Header)
    (hfound : ∀ id ∈ seals, ∃ hdr, ByBlockID id = Except.ok hdr) :
    ∃ lowest, lowestSealedByHead ByBlockID sealBlockID start seals = Except.ok lowest ∧
      (lowest = start ∨ ∃ id ∈ seals, ByBlockID id = Except.ok lowest) := by
  induction seals generalizing start with
  | nil => exact ⟨start, rfl, Or.inl rfl⟩
  | cons sealInHead rest ih =>
      obtain ⟨hd, hl⟩ := hfound sealInHead (List.mem_cons_self sealInHead rest)
      have hrest : ∀ id ∈ rest, ∃ hdr, ByBlockID id = Except.ok hdr :=
        fun id hid => hfound id (List.mem_cons_of_mem sealInHead hid)
      unfold lowestSealedByHead
      rw [hl]
      simp only []
      by_cases hlt : hd.Height < start.Height
      · rw [if_pos hlt]
        obtain ⟨lowest, hloop, hmem⟩ := ih hd hrest
        refine ⟨lowest, hloop, Or.inr ?_⟩
        rcases hmem with heq | ⟨id, hid, hlook⟩
        · exact ⟨sealInHead, List.mem_cons_self sealInHead rest, by rw [heq]; exact hl⟩
        · exact ⟨id, List.mem_cons_of_mem sealInHead hid, hlook⟩
      · rw [if_neg hlt]
        obtain ⟨lowest, hloop, hmem⟩ := ih start hrest
        refine ⟨lowest, hloop, ?_⟩
        rcases hmem with heq | ⟨id, hid, hlook⟩
        · exact Or.inl heq
        · exact Or.inr ⟨id, List.mem_cons_of_mem sealInHead hid, hlook⟩

/-- When a header sealed by head is not found, the loop of step (ii) returns the error of the
lookup, wrapped. -/
theorem lowestSealedByHead_failed (ByBlockID : Nat → Except GoError Header) (sealBlockID : Nat)
    (seals : List Nat) (start : Header)
    (hfail : ∃ id ∈ seals, ∃ e, ByBlockID id = Except.error e) :
    ∃ e, lowestSealedByHead ByBlockID sealBlockID start seals =
      Except.error (GoError.wrapf "could not get block (id=%x) for seal: %w"
        [FmtArg.identifier sealBlockID] e) := by
  induction seals generalizing start with
  | nil =>
      obtain ⟨id, hid, _⟩ := hfail
      exact absurd hid (List.not_mem_nil id)
  | cons sealInHead rest ih =>
      unfold lowestSealedByHead
      cases hl : ByBlockID sealInHead with
      | error e => exact ⟨e, rfl⟩
      | ok hd =>
          have hrest : ∃ id ∈ rest, ∃ e, ByBlockID id = Except.error e := by
            obtain ⟨id, hid, e, he⟩ := hfail
            rcases List.mem_cons.mp hid with heq | hmem
            · rw [heq, hl] at he
              exact Except.noConfusion he
            · exact ⟨id, hmem, e, he⟩
          simp only []
          by_cases hlt : hd.Height < start.Height
          · rw [if_pos hlt]; exact ih hd hrest
          · rw [if_neg hlt]; exact ih start hrest

/-- C22: for a sealed height in the `uint64` range and a spork root height whose sum with the
expiry does not overflow, the cut-off of step (iii) is
`max(blockSealedAtHead.Height - DefaultTransactionExpiry, sporkRootBlockHeight)` with the
subtraction truncated at 0, and the subtraction is carried out only when the sealed height is
at least the expiry.  When every header sealed by head is found, the loop of step (ii) returns
the lowest of the block sealed at head and the blocks sealed by head (one of them, and not
higher than any of them), and `limitHeight` becomes the minimum of the cut-off and of the
height of that header, which the code goes on with unless it lies below the spork root height,
in which case the call ends with an error; when a header is not found the call ends with the
error of the lookup. -/
theorem C22_sealing_segment_history_cutoff (state : State) (expiry sealedHeight : Nat)
    (hH : sealedHeight < uint64Size)
    (hsum : state.sporkRootBlockHeight + expiry < uint64Size) :
    historyCutoff state expiry sealedHeight
      = max (sealedHeight - expiry) state.sporkRootBlockHeight ∧
    (sealedHeight > uint64Add state.sporkRootBlockHeight expiry →
      expiry ≤ sealedHeight ∧ uint64Sub sealedHeight expiry = sealedHeight - expiry) ∧
    (∀ lowestHeight, state.sporkRootBlockHeight ≤ lowestHeight →
      sealingSegmentLimitHeight state expiry sealedHeight lowestHeight
        = Except.ok (min (historyCutoff state expiry sealedHeight) lowestHeight)) ∧
    (∀ lowestHeight, lowestHeight < state.sporkRootBlockHeight →
      min (historyCutoff state expiry sealedHeight) lowestHeight = lowestHeight ∧
      sealingSegmentLimitHeight state expiry sealedHeight lowestHeight
        = Except.error (GoError.errorf
          "unexpected internal error: calculated history-cutoff at height %d, which is lower than the spork's root height %d"
          [FmtArg.uint lowestHeight, FmtArg.uint state.sporkRootBlockHeight])) ∧
    (∀ (ByBlockID : Nat → Except GoError Header) (sealBlockID : Nat) (seals : List Nat)
        (blockSealedAtHead : Header),
      blockSealedAtHead.Height = sealedHeight →
      (∀ id ∈ seals, ∃ hdr, ByBlockID id = Except.ok hdr) →
      ∃ lowest,
        lowestSealedByHead ByBlockID sealBlockID blockSealedAtHead seals = Except.ok lowest ∧
        (lowest = blockSealedAtHead ∨ ∃ id ∈ seals, ByBlockID id = Except.ok lowest) ∧
        lowest.Height ≤ blockSealedAtHead.Height ∧
        (∀ id ∈ seals, ∀ hdr, ByBlockID id = Except.ok hdr → lowest.Height ≤ hdr.Height) ∧
        (state.sporkRootBlockHeight ≤ lowest.Height →
          sealingSegmentHistoryLimit state expiry ByBlockID sealBlockID blockSealedAtHead seals
            = Except.ok (min (max (sealedHeight - expiry) state.sporkRootBlockHeight)
                lowest.Height)) ∧
        (lowest.Height < state.sporkRootBlockHeight →
          sealingSegmentHistoryLimit state expiry ByBlockID sealBlockID blockSealedAtHead seals
            = Except.error (GoError.errorf
              "unexpected internal error: calculated history-cutoff at height %d, which is lower than the spork's root height %d"
              [FmtArg.uint lowest.Height, FmtArg.uint state.sporkRootBlockHeight]))) ∧
    (∀ (ByBlockID : Nat → Except GoError Header) (sealBlockID : Nat) (seals : List Nat)
        (blockSealedAtHead : Header),
      (∃ id ∈ seals, ∃ e, ByBlockID id = Except.error e) →
      ∃ e, sealingSegmentHistoryLimit state expiry ByBlockID sealBlockID blockSealedAtHead seals
        = Except.error (GoError.wrapf "could not get block (id=%x) for seal: %w"
            [FmtArg.identifier sealBlockID] e)) := by
  have hadd : uint64Add state.sporkRootBlockHeight expiry
      = state.sporkRootBlockHeight + expiry := by
    unfold uint64Add; exact Nat.mod_eq_of_lt hsum
  have hsub : state.sporkRootBlockHeight + expiry < sealedHeight →
      uint64Sub sealedHeight expiry = sealedHeight - expiry := by
    intro hgt
    unfold uint64Sub uint64Size at *
    omega
  have hcut : historyCutoff state expiry sealedHeight
      = max (sealedHeight - expiry) state.sporkRootBlockHeight := by
    unfold historyCutoff
    rw [hadd]
    by_cases hgt : sealedHeight > state.sporkRootBlockHeight + expiry
    · rw [if_pos hgt, hsub hgt]
      omega
    · rw [if_neg hgt]
      omega
  have hge : state.sporkRootBlockHeight ≤ historyCutoff state expiry sealedHeight := by
    rw [hcut]; omega
  have hok : ∀ lowestHeight, state.sporkRootBlockHeight ≤ lowestHeight →
      sealingSegmentLimitHeight state expiry sealedHeight lowestHeight
        = Except.ok (min (historyCutoff state expiry sealedHeight) lowestHeight) := by
    intro lowestHeight hlow
    unfold sealingSegmentLimitHeight
    by_cases hlt : lowestHeight < historyCutoff state expiry sealedHeight
    · have hnot : ¬ lowestHeight < state.sporkRootBlockHeight := by omega
      simp only [hlt, hnot, if_true, if_false]
      rw [Nat.min_eq_right (Nat.le_of_lt hlt)]
    · simp only [hlt, if_false]
      rw [Nat.min_eq_left (by omega)]
  have herr : ∀ lowestHeight, lowestHeight < state.sporkRootBlockHeight →
      min (historyCutoff state expiry sealedHeight) lowestHeight = lowestHeight ∧
      sealingSegmentLimitHeight state expiry sealedHeight lowestHeight
        = Except.error (GoError.errorf
          "unexpected internal error: calculated history-cutoff at height %d, which is lower than the spork's root height %d"
          [FmtArg.uint lowestHeight, FmtArg.uint state.sporkRootBlockHeight]) := by
    intro lowestHeight hlow
    have hlt : lowestHeight < historyCutoff state expiry sealedHeight := by omega
    refine ⟨Nat.min_eq_right (Nat.le_of_lt hlt), ?_⟩
    unfold sealingSegmentLimitHeight
    simp only [hlt, hlow, if_true]
  refine ⟨hcut, ?_, hok, herr, ?_, ?_⟩
  · intro hgt
    rw [hadd] at hgt
    exact ⟨by omega, hsub hgt⟩
  · intro ByBlockID sealBlockID seals blockSealedAtHead hsealed hfound
    obtain ⟨lowest, hloop, hmem⟩ :=
      lowestSealedByHead_found ByBlockID sealBlockID seals blockSealedAtHead hfound
    have hle := lowestSealedByHead_le ByBlockID sealBlockID seals blockSealedAtHead lowest hloop
    refine ⟨lowest, hloop, hmem, hle.1, hle.2, ?_, ?_⟩
    · intro hroot
      simp only [sealingSegmentHistoryLimit, hloop, hsealed]
      rw [hok lowest.Height hroot, hcut]
    · intro hbelow
      simp only [sealingSegmentHistoryLimit, hloop, hsealed]
      exact (herr lowest.Height hbelow).2
  · intro ByBlockID sealBlockID seals blockSealedAtHead hfail
    obtain ⟨e, he⟩ :=
      lowestSealedByHead_failed ByBlockID sealBlockID seals blockSealedAtHead hfail
    exact ⟨e, by simp only [sealingSegmentHistoryLimit, he]⟩

/-- C22 at a sample input: spork root at height 100, an expiry of 600, the block sealed at
head at height 1000, and head sealing the blocks of heights 500, 350 and 700; the cut-off is
400, the loop keeps the block of height 350, and the limit is 350. -/
theorem C22_sealing_segment_history_cutoff_witness :
    (1000 : Nat) < uint64Size ∧
    (queryInPhase EpochPhase.staking).snap.state.sporkRootBlockHeight + 600 < uint64Size ∧
    historyCutoff (queryInPhase EpochPhase.staking).snap.state 600 1000 = 400 ∧
    lowestSealedByHead sampleHeaders 50 (Header.mk 100 1000) [50, 35, 70]
      = Except.ok (Header.mk 35 350) ∧
    (∃ limit, sealingSegmentHistoryLimit (queryInPhase EpochPhase.staking).snap.state 600
        sampleHeaders 50 (Header.mk 100 1000) [50, 35, 70] = Except.ok limit ∧ limit = 350) := by
  have h := C22_sealing_segment_history_cutoff (queryInPhase EpochPhase.staking).snap.state
    600 1000 (by decide) (by decide)
  refine ⟨by decide, by decide, h.1.trans (by decide), rfl, ?_⟩
  obtain ⟨lowest, hloop, _, _, _, hlimit, _⟩ :=
    h.2.2.2.2.1 sampleHeaders 50 [50, 35, 70] (Header.mk 100 1000) rfl
      (fun id _ => ⟨Header.mk id (10 * id), rfl⟩)
  have hlow : lowest = Header.mk 35 350 := by
    have hval : lowestSealedByHead sampleHeaders 50 (Header.mk 100 1000) [50, 35, 70]
        = Except.ok (Header.mk 35 350) := rfl
    rw [hval] at hloop
    exact (Except.ok.inj hloop).symm
  subst hlow
  exact ⟨_, hlimit (by decide), by decide⟩

end Badger

/-! ## Block hashes seen by a re-executed block -/

namespace Blocks

set_option maxRecDepth 8000 in
/-- The arrays of hard-coded hashes have 256 entries each. -/
theorem fixedHashes_length (chainID : ChainID) : (fixedHashes chainID).length = 256 := by
  cases chainID with
  | Mainnet => rfl
  | Testnet => rfl
  | other name => simp [fixedHashes]

/-- C23: the `GetHashFunc` of the context built by `NewBlockContext` for `height` returns the
empty hash for every `hashHeight >= height` and for every `hashHeight` more than 256 below
`height`; for the others it returns entry `hashHeight % 256` of the hard-coded hashes of the
chain when the chain is Mainnet or Testnet and `height` is below the fix height of that
chain, and `getHashByHeight(hashHeight)` otherwise.  Both arrays of hard-coded hashes have 256
entries, and the error returned with the context is nil. -/
theorem C23_get_hash_func (types : Types) (chainID : ChainID) (height timestamp : Nat)
    (getHashByHeight : Nat → Hash) (prevRandao : Hash) (tracer hashHeight : Nat) :
    (hashHeight ≥ height →
      (NewBlockContext types chainID height timestamp getHashByHeight prevRandao
        tracer).1.GetHashFunc hashHeight = emptyHash) ∧
    (hashHeight < height → height - hashHeight > 256 →
      (NewBlockContext types chainID height timestamp getHashByHeight prevRandao
        tracer).1.GetHashFunc hashHeight = emptyHash) ∧
    (hashHeight < height → height - hashHeight ≤ 256 →
      chainID = ChainID.Mainnet → height < blockHashListFixHCUEVMHeightMainnet →
      (NewBlockContext types chainID height timestamp getHashByHeight prevRandao
        tracer).1.GetHashFunc hashHeight
        = (fixedHashes ChainID.Mainnet).getD (hashHeight % 256) emptyHash) ∧
    (hashHeight < height → height - hashHeight ≤ 256 →
      chainID = ChainID.Testnet → height < blockHashListFixHCUEVMHeightTestnet →
      (NewBlockContext types chainID height timestamp getHashByHeight prevRandao
        tracer).1.GetHashFunc hashHeight
        = (fixedHashes ChainID.Testnet).getD (hashHeight % 256) emptyHash) ∧
    (hashHeight < height → height - hashHeight ≤ 256 →
      ¬ (chainID = ChainID.Mainnet ∧ height < blockHashListFixHCUEVMHeightMainnet) →
      ¬ (chainID = ChainID.Testnet ∧ height < blockHashListFixHCUEVMHeightTestnet) →
      (NewBlockContext types chainID height timestamp getHashByHeight prevRandao
        tracer).1.GetHashFunc hashHeight = getHashByHeight hashHeight) ∧
    (fixedHashes ChainID.Mainnet).length = 256 ∧
    (fixedHashes ChainID.Testnet).length = 256 ∧
    (NewBlockContext types chainID height timestamp getHashByHeight prevRandao tracer).2
      = none := by
  refine ⟨?_, ?_, ?_, ?_, ?_, ?_, ?_, rfl⟩
  · intro hge
    simp [NewBlockContext, hge]
  · intro hlt hfar
    have hnot : ¬ height ≤ hashHeight := by omega
    simp [NewBlockContext, hnot, hfar]
  · intro hlt hnear hchain hfix
    have hnot : ¬ height ≤ hashHeight := by omega
    have hnear2 : ¬ 256 < height - hashHeight := by omega
    simp [NewBlockContext, hnot, hnear2, UseBlockHashCorrection, hchain, hfix]
  · intro hlt hnear hchain hfix
    have hnot : ¬ height ≤ hashHeight := by omega
    have hnear2 : ¬ 256 < height - hashHeight := by omega
    simp [NewBlockContext, hnot, hnear2, UseBlockHashCorrection, hchain, hfix]
  · intro hlt hnear hmain htest
    have hnot : ¬ height ≤ hashHeight := by omega
    have hnear2 : ¬ 256 < height - hashHeight := by omega
    simp only [NewBlockContext, UseBlockHashCorrection, ge_iff_le, gt_iff_lt, hnot, hnear2,
      if_false, hmain, htest]
  · exact fixedHashes_length ChainID.Mainnet
  · exact fixedHashes_length ChainID.Testnet

set_option maxRecDepth 8000 in
/-- C23 at sample inputs: on Mainnet, one block below the fix height, the hash of height
8357000 is entry 136 of the hard-coded hashes; at the fix height it is the hash the caller
supplies; the hash of the current height and the hash of a height 257 blocks back are
empty. -/
theorem C23_get_hash_func_witness :
    (NewBlockContext sampleTypes ChainID.Mainnet 8357078 0 sampleHashByHeight emptyHash
      0).1.GetHashFunc 8357000
      = "37a325b033d3f6f1d56f27dd4c5169301f7eba32e8f4c8a8349cc7ece87ddd9d" ∧
    (NewBlockContext sampleTypes ChainID.Mainnet 8357079 0 sampleHashByHeight emptyHash
      0).1.GetHashFunc 8357000 = sampleHashByHeight 8357000 ∧
    (NewBlockContext sampleTypes ChainID.Mainnet 8357078 0 sampleHashByHeight emptyHash
      0).1.GetHashFunc 8357078 = emptyHash ∧
    (NewBlockContext sampleTypes ChainID.Mainnet 8357078 0 sampleHashByHeight emptyHash
      0).1.GetHashFunc 8356821 = emptyHash :=
  have h1 := C23_get_hash_func sampleTypes ChainID.Mainnet 8357078 0 sampleHashByHeight
    emptyHash 0 8357000
  have h2 := C23_get_hash_func sampleTypes ChainID.Mainnet 8357079 0 sampleHashByHeight
    emptyHash 0 8357000
  have h3 := C23_get_hash_func sampleTypes ChainID.Mainnet 8357078 0 sampleHashByHeight
    emptyHash 0 8357078
  have h4 := C23_get_hash_func sampleTypes ChainID.Mainnet 8357078 0 sampleHashByHeight
    emptyHash 0 8356821
  ⟨(h1.2.2.1 (by decide) (by decide) rfl (by decide)).trans rfl,
   h2.2.2.2.2.1 (by decide) (by decide) (by decide) (by decide),
   h3.1 (by decide),
   h4.2.1 (by decide) (by decide)⟩

end Blocks

/-! ## Reads of the chained transaction results -/

namespace Chained

open EpochMgr

/-- C24: `ByBlockIDTransactionID` and `ByBlockIDTransactionIndex` of the chained store consult
the first store; when it answers without error they return its result and a nil error; when
it fails with an error that is `storage.ErrNotFound` they consult the second store and
return exactly its result and error; when it fails with any other error they return nil and
that error, and the second store is not consulted. -/
theorem C24_chained_reads (first second : TransactionResultsReader) (blockID key : Nat) :
    (∀ result, first.ByBlockIDTransactionID blockID key = (result, none) →
      ByBlockIDTransactionID (NewTransactionResults first second) blockID key
        = (result, none, [Consulted.first])) ∧
    (∀ result err, first.ByBlockIDTransactionID blockID key = (result, some err) →
      errorsIs err ErrNotFound = true →
      ByBlockIDTransactionID (NewTransactionResults first second) blockID key
        = ((second.ByBlockIDTransactionID blockID key).1,
           (second.ByBlockIDTransactionID blockID key).2,
           [Consulted.first, Consulted.second])) ∧
    (∀ result err, first.ByBlockIDTransactionID blockID key = (result, some err) →
      errorsIs err ErrNotFound = false →
      ByBlockIDTransactionID (NewTransactionResults first second) blockID key
        = (none, some err, [Consulted.first])) ∧
    (∀ result, first.ByBlockIDTransactionIndex blockID key = (result, none) →
      ByBlockIDTransactionIndex (NewTransactionResults first second) blockID key
        = (result, none, [Consulted.first])) ∧
    (∀ result err, first.ByBlockIDTransactionIndex blockID key = (result, some err) →
      errorsIs err ErrNotFound = true →
      ByBlockIDTransactionIndex (NewTransactionResults first second) blockID key
        = ((second.ByBlockIDTransactionIndex blockID key).1,
           (second.ByBlockIDTransactionIndex blockID key).2,
           [Consulted.first, Consulted.second])) ∧
    (∀ result err, first.ByBlockIDTransactionIndex blockID key = (result, some err) →
      errorsIs err ErrNotFound = false →
      ByBlockIDTransactionIndex (NewTransactionResults first second) blockID key
        = (none, some err, [Consulted.first])) := by
  refine ⟨?_, ?_, ?_, ?_, ?_, ?_⟩
  · intro result h
    simp [ByBlockIDTransactionID, NewTransactionResults, h]
  · intro result err h hn
    simp [ByBlockIDTransactionID, NewTransactionResults, h, hn]
  · intro result err h hn
    simp [ByBlockIDTransactionID, NewTransactionResults, h, hn]
  · intro result h
    simp [ByBlockIDTransactionIndex, NewTransactionResults, h]
  · intro result err h hn
    simp [ByBlockIDTransactionIndex, NewTransactionResults, h, hn]
  · intro result err h hn
    simp [ByBlockIDTransactionIndex, NewTransactionResults, h, hn]

/-- C24 at sample inputs: a result the first store knows comes from the first store alone; a
result only the second store knows comes from the second store; and when the first store
fails with an error of its own, that error is returned and the second store is not
consulted. -/
theorem C24_chained_reads_witness :
    ByBlockIDTransactionID (NewTransactionResults storeWithOne storeWithTwo) 1 1
      = (some (TransactionResult.mk 1 10), none, [Consulted.first]) ∧
    ByBlockIDTransactionID (NewTransactionResults storeWithOne storeWithTwo) 2 2
      = (some (TransactionResult.mk 2 20), none, [Consulted.first, Consulted.second]) ∧
    ByBlockIDTransactionID (NewTransactionResults storeWithOne storeWithTwo) 3 3
      = (none, some ErrNotFound, [Consulted.first, Consulted.second]) ∧
    ByBlockIDTransactionIndex (NewTransactionResults brokenStore storeWithTwo) 2 0
      = (none, some (GoError.errorf "database closed" []), [Consulted.first]) :=
  have h1 := C24_chained_reads storeWithOne storeWithTwo 1 1
  have h2 := C24_chained_reads storeWithOne storeWithTwo 2 2
  have h3 := C24_chained_reads storeWithOne storeWithTwo 3 3
  have h4 := C24_chained_reads brokenStore storeWithTwo 2 0
  ⟨h1.1 _ rfl,
   (h2.2.1 none ErrNotFound rfl (by decide)).trans rfl,
   (h3.2.1 none ErrNotFound rfl (by decide)).trans rfl,
   h4.2.2.2.2.2 none (GoError.errorf "database closed" []) rfl (by decide)⟩

end Chained

/-! ## Order and number of the registrations, faults, queues -/

namespace EpochMgr

/-- The stop height is the sum of the first height and the expiry, modulo `2^64`. -/
theorem stopHeight_mod (env : Env) (h : Nat) :
    stopHeight env h = (h + env.DefaultTransactionExpiry) % uint64Size := by
  unfold stopHeight uint64Add uint64Sub uint64Size
  omega

/-- The error `onEpochTransition` returns does not depend on the height of the first block. -/
theorem onEpochTransition_error_height (env : Env) (e : Engine) (first : Header) (h : Nat) :
    (onEpochTransition env e (Header.mk first.ID h)).2 = (onEpochTransition env e first).2 := by
  cases hc : env.Counter (env.CurrentEpochAt first.ID) with
  | error err =>
      rw [onEpochTransition_counterError env e first err hc,
        onEpochTransition_counterError env e (Header.mk first.ID h) err hc]
  | ok c =>
    cases hb : getEpochComponents e c with
    | some b =>
        rw [onEpochTransition_exists env e first c b hc hb,
          onEpochTransition_exists env e (Header.mk first.ID h) c b hc hb]
    | none =>
      cases hcr : env.Create (env.CurrentEpochAt first.ID) with
      | error err =>
          cases hna : errorsIs err ErrNotAuthorizedForEpoch with
          | true =>
              rw [onEpochTransition_notAuthorized env e first c err hc hb hcr hna,
                onEpochTransition_notAuthorized env e (Header.mk first.ID h) c err hc hb hcr hna]
          | false =>
              rw [onEpochTransition_createFailed env e first c err hc hb hcr hna,
                onEpochTransition_createFailed env e (Header.mk first.ID h) c err hc hb hcr hna]
      | ok six =>
          obtain ⟨s1, s2, s3, s4, s5, s6⟩ := six
          cases hr : env.readyBeforeTimeout (NewEpochComponents s1 s2 s3 s4 s5 s6) with
          | false =>
              rw [onEpochTransition_startTimeout env e first c s1 s2 s3 s4 s5 s6 hc hb hcr hr,
                onEpochTransition_startTimeout env e (Header.mk first.ID h) c s1 s2 s3 s4 s5 s6
                  hc hb hcr hr]
          | true =>
              rw [onEpochTransition_started env e first c s1 s2 s3 s4 s5 s6 hc hb hcr hr,
                onEpochTransition_started env e (Header.mk first.ID h) c s1 s2 s3 s4 s5 s6
                  hc hb hcr hr]

/-- C25: in every run of `onEpochTransition` for a counter that has no bundle, the effects start
with the registration of the stop callback for counter `N - 1`, followed by the call of the
factory, and the factory is not called again; so when the factory fails, with
non-authorization or any other error, or when the start-up times out, exactly one stop
callback has been registered, for `N - 1` at the stop height. -/
theorem C25_stop_scheduled_before_create (env : Env) (e : Engine) (first : Header) (N : Nat)
    (hc : env.Counter (env.CurrentEpochAt first.ID) = Except.ok N)
    (habs : getEpochComponents e N = none) :
    (∃ tail, newEffects e (onEpochTransition env e first).1 =
      [Effect.log LogLevel.info "preparing to stop epoch components at height %d",
       Effect.onHeight (stopHeight env first.Height) (Callback.sendEpochStop (uint64Sub N 1)),
       Effect.log LogLevel.info "epoch transition: creating components for new epoch...",
       Effect.factoryCreate (env.CurrentEpochAt first.ID)] ++ tail ∧
      creations tail = []) ∧
    (∀ err, env.Create (env.CurrentEpochAt first.ID) = Except.error err →
      registrations (newEffects e (onEpochTransition env e first).1) =
        [(stopHeight env first.Height, Callback.sendEpochStop (uint64Sub N 1))]) ∧
    (∀ s1 s2 s3 s4 s5 s6,
      env.Create (env.CurrentEpochAt first.ID) = Except.ok (s1, s2, s3, s4, s5, s6) →
      env.readyBeforeTimeout (NewEpochComponents s1 s2 s3 s4 s5 s6) = false →
      registrations (newEffects e (onEpochTransition env e first).1) =
        [(stopHeight env first.Height, Callback.sendEpochStop (uint64Sub N 1))]) := by
  refine ⟨?_, ?_, ?_⟩
  · cases hcr : env.Create (env.CurrentEpochAt first.ID) with
    | error err =>
        cases hna : errorsIs err ErrNotAuthorizedForEpoch with
        | true =>
            rw [onEpochTransition_notAuthorized env e first N err hc habs hcr hna]
            exact ⟨[Effect.log LogLevel.info
              "epoch transition: we are not authorized for new epoch, exiting..."],
              by rw [newEffects_emit]; rfl, rfl⟩
        | false =>
            rw [onEpochTransition_createFailed env e first N err hc habs hcr hna]
            exact ⟨[], by rw [newEffects_emit]; simp [transitionPrefix], rfl⟩
    | ok six =>
        obtain ⟨s1, s2, s3, s4, s5, s6⟩ := six
        cases hr : env.readyBeforeTimeout (NewEpochComponents s1 s2 s3 s4 s5 s6) with
        | false =>
            rw [onEpochTransition_startTimeout env e first N s1 s2 s3 s4 s5 s6 hc habs hcr hr]
            exact ⟨[Effect.withSignallerAndCancel e.contexts,
              Effect.componentsStart (NewEpochComponents s1 s2 s3 s4 s5 s6) e.contexts,
              Effect.goHandleEpochErrors e.contexts,
              Effect.timeoutElapsed e.startupTimeout,
              Effect.cancel e.contexts],
              by simp [newEffects, emit, transitionPrefix], rfl⟩
        | true =>
            rw [onEpochTransition_started env e first N s1 s2 s3 s4 s5 s6 hc habs hcr hr]
            exact ⟨[Effect.withSignallerAndCancel e.contexts,
              Effect.componentsStart (NewEpochComponents s1 s2 s3 s4 s5 s6) e.contexts,
              Effect.goHandleEpochErrors e.contexts,
              Effect.readyObserved (NewEpochComponents s1 s2 s3 s4 s5 s6),
              Effect.log LogLevel.info
                "epoch transition: new epoch components started successfully",
              Effect.log LogLevel.info "preparing to stop epoch components at height %d",
              Effect.onHeight (stopHeight env first.Height)
                (Callback.sendEpochStop (uint64Sub N 1))],
              by simp [newEffects, emit, transitionPrefix], rfl⟩
  · intro err hcr
    cases hna : errorsIs err ErrNotAuthorizedForEpoch with
    | true =>
        rw [onEpochTransition_notAuthorized env e first N err hc habs hcr hna]
        simp [newEffects_emit, registrations, transitionPrefix]
    | false =>
        rw [onEpochTransition_createFailed env e first N err hc habs hcr hna]
        simp [newEffects_emit, registrations, transitionPrefix]
  · intro s1 s2 s3 s4 s5 s6 hcr hr
    rw [onEpochTransition_startTimeout env e first N s1 s2 s3 s4 s5 s6 hc habs hcr hr]
    simp [newEffects, emit, registrations, transitionPrefix]

/-- C25 at a sample input: the transition to epoch 1 when the factory fails; one stop callback
is registered, for epoch 0 at height 1600. -/
theorem C25_stop_scheduled_before_create_witness :
    brokenFactoryEnv.Counter (brokenFactoryEnv.CurrentEpochAt firstBlockOfEpoch1.ID)
      = Except.ok 1 ∧
    getEpochComponents New 1 = none ∧
    registrations (newEffects New (onEpochTransition brokenFactoryEnv New firstBlockOfEpoch1).1)
      = [(1600, Callback.sendEpochStop 0)] :=
  ⟨rfl, rfl,
   ((C25_stop_scheduled_before_create brokenFactoryEnv New firstBlockOfEpoch1 1 rfl rfl).2.1
     (GoError.errorf "disk failure" []) rfl).trans (by decide)⟩

/-- C26: on a successful transition (the factory authorizes and the bundle becomes ready in
time) `onEpochTransition` registers the stop callback exactly twice, both times at the
height `(h - 1) + DefaultTransactionExpiry + 1` (computed on `uint64`) for the counter
`N - 1`: once before the factory is called, and once after the bundle was observed ready
and stored. -/
theorem C26_stop_registered_twice_on_success (env : Env) (e : Engine) (first : Header) (N : Nat)
    (s1 s2 s3 s4 s5 s6 : Nat)
    (hc : env.Counter (env.CurrentEpochAt first.ID) = Except.ok N)
    (habs : getEpochComponents e N = none)
    (hcr : env.Create (env.CurrentEpochAt first.ID) = Except.ok (s1, s2, s3, s4, s5, s6))
    (hr : env.readyBeforeTimeout (NewEpochComponents s1 s2 s3 s4 s5 s6) = true) :
    (onEpochTransition env e first).2 = none ∧
    registrations (newEffects e (onEpochTransition env e first).1) =
      [(uint64Add (uint64Add (uint64Sub first.Height 1) env.DefaultTransactionExpiry) 1,
        Callback.sendEpochStop (uint64Sub N 1)),
       (uint64Add (uint64Add (uint64Sub first.Height 1) env.DefaultTransactionExpiry) 1,
        Callback.sendEpochStop (uint64Sub N 1))] ∧
    newEffects e (onEpochTransition env e first).1 =
      [Effect.log LogLevel.info "preparing to stop epoch components at height %d",
       Effect.onHeight (stopHeight env first.Height) (Callback.sendEpochStop (uint64Sub N 1)),
       Effect.log LogLevel.info "epoch transition: creating components for new epoch...",
       Effect.factoryCreate (env.CurrentEpochAt first.ID),
       Effect.withSignallerAndCancel e.contexts,
       Effect.componentsStart (NewEpochComponents s1 s2 s3 s4 s5 s6) e.contexts,
       Effect.goHandleEpochErrors e.contexts,
       Effect.readyObserved (NewEpochComponents s1 s2 s3 s4 s5 s6),
       Effect.log LogLevel.info "epoch transition: new epoch components started successfully",
       Effect.log LogLevel.info "preparing to stop epoch components at height %d",
       Effect.onHeight (stopHeight env first.Height) (Callback.sendEpochStop (uint64Sub N 1))] ∧
    getEpochComponents (onEpochTransition env e first).1 N =
      some (NewStartableEpochComponents (NewEpochComponents s1 s2 s3 s4 s5 s6) e.contexts) ∧
    (first.Height < uint64Size → first.Height + env.DefaultTransactionExpiry < uint64Size →
      (stopHeight env first.Height : Int)
        = ((first.Height : Int) - 1) + env.DefaultTransactionExpiry + 1) := by
  rw [onEpochTransition_started env e first N s1 s2 s3 s4 s5 s6 hc habs hcr hr]
  refine ⟨rfl, ?_, ?_, ?_, fun hh hsum => stopHeight_int env first.Height hh hsum⟩
  · simp [newEffects, emit, registrations, transitionPrefix, stopHeight]
  · simp [newEffects, emit, transitionPrefix]
  · simp [getEpochComponents, emit, mapLookup_mapStore]

/-- C26 at a sample input: the transition to epoch 1 at height 1000 on the engine built by
`New`; the stop of epoch 0 is registered twice at height 1600. -/
theorem C26_stop_registered_twice_on_success_witness :
    authorizedEnv.Counter (authorizedEnv.CurrentEpochAt firstBlockOfEpoch1.ID) = Except.ok 1 ∧
    getEpochComponents New 1 = none ∧
    authorizedEnv.Create (authorizedEnv.CurrentEpochAt firstBlockOfEpoch1.ID)
      = Except.ok (1, 1, 1, 1, 1, 1) ∧
    authorizedEnv.readyBeforeTimeout (NewEpochComponents 1 1 1 1 1 1) = true ∧
    registrations (newEffects New (onEpochTransition authorizedEnv New firstBlockOfEpoch1).1)
      = [(1600, Callback.sendEpochStop 0), (1600, Callback.sendEpochStop 0)] :=
  ⟨rfl, rfl, rfl, rfl,
   (C26_stop_registered_twice_on_success authorizedEnv New firstBlockOfEpoch1 1 1 1 1 1 1 1
     rfl rfl rfl rfl).2.1.trans (by decide)⟩

/-- C27: `handleEpochErrors` throws to the context of the engine exactly the error it receives
from the error channel of the bundle when that error is not nil and is received before the
context is done; it does nothing when the received error is nil or when the context is done
first; it never touches the registry.  `startEpochComponents` starts it for every bundle,
right after the bundle, on either outcome of the start-up race. -/
theorem C27_bundle_faults_are_forwarded (e : Engine) :
    (∀ err, handleEpochErrors e (EpochErrorsSelect.received (some err))
        = emit e [Effect.throw err] ∧
      thrown (newEffects e (handleEpochErrors e (EpochErrorsSelect.received (some err))))
        = [err]) ∧
    handleEpochErrors e (EpochErrorsSelect.received none) = e ∧
    handleEpochErrors e EpochErrorsSelect.ctxDone = e ∧
    (∀ outcome, (handleEpochErrors e outcome).epochs = e.epochs) ∧
    (∀ (env : Env) (counter : Nat) (components : EpochComponents),
      ∃ tail, newEffects e (startEpochComponents env e counter components).1 =
        [Effect.withSignallerAndCancel e.contexts,
         Effect.componentsStart components e.contexts,
         Effect.goHandleEpochErrors e.contexts] ++ tail) := by
  refine ⟨fun err => ⟨rfl, ?_⟩, rfl, rfl, ?_, ?_⟩
  · simp [handleEpochErrors, newEffects_emit, thrown]
  · intro outcome
    cases outcome with
    | ctxDone => rfl
    | received err => cases err <;> rfl
  · intro env counter components
    unfold startEpochComponents
    cases hr : env.readyBeforeTimeout components with
    | false =>
        exact ⟨[Effect.timeoutElapsed e.startupTimeout, Effect.cancel e.contexts],
          by simp [newEffects, emit]⟩
    | true =>
        exact ⟨[Effect.readyObserved components],
          by simp [newEffects, emit, storeEpochComponents]⟩

/-- C28, as stated, fails: `New` makes three channels only and adds three workers only.  The
field `epochStartedEvents` is not set, so it is the nil channel, and
`handleEpochStartedLoop` is not among the workers. -/
theorem C28_fourth_queue_not_made_counterexample :
    NewQueueCapacity Queue.epochStartedEvents = none ∧
    Worker.handleEpochStartedLoop ∉ NewWorkers ∧
    NewWorkers.length = 3 := by
  decide

/-- C28, amended: the engine built by `New` has its three queues for transition notices,
setup-phase-started notices and stop notices made with capacity 1, and runs one worker loop
for each of them and no other; the queue `epochStartedEvents` is left nil and its loop is
not run; the faults of a bundle are forwarded by the goroutine running `handleEpochErrors`
that `startEpochComponents` starts for each bundle. -/
theorem C28_three_queues_three_workers :
    NewQueueCapacity Queue.epochTransitionEvents = some 1 ∧
    NewQueueCapacity Queue.epochSetupPhaseStartedEvents = some 1 ∧
    NewQueueCapacity Queue.epochStopEvents = some 1 ∧
    NewQueueCapacity Queue.epochStartedEvents = none ∧
    NewWorkers = [Worker.handleEpochSetupPhaseStartedLoop, Worker.handleEpochTransitionLoop,
      Worker.handleStopEpochLoop] ∧
    New.epochTransitionEvents = [] ∧ New.epochSetupPhaseStartedEvents = [] ∧
    New.epochStopEvents = [] ∧ New.epochs = [] ∧
    New.startupTimeout = DefaultStartupTimeout ∧
    (∀ (env : Env) (e : Engine) (counter : Nat) (components : EpochComponents),
      Effect.goHandleEpochErrors e.contexts
        ∈ newEffects e (startEpochComponents env e counter components).1) := by
  refine ⟨rfl, rfl, rfl, rfl, rfl, rfl, rfl, rfl, rfl, rfl, ?_⟩
  intro env e counter components
  unfold startEpochComponents
  cases hr : env.readyBeforeTimeout components <;>
    simp [newEffects, emit, storeEpochComponents]

/-- C29: for every first-block height `h`, every height `onEpochTransition` registers equals
`(h + DefaultTransactionExpiry) mod 2^64`; for `h = 0` the intermediate
`lastEpochMaxHeight` is `2^64 - 1` and the registered height is the expiry itself (a `uint64`
constant); and the error returned does not depend on the height, so none is raised by the
wrap. -/
theorem C29_stop_height_wraps (env : Env) (e : Engine) (first : Header) (N : Nat)
    (hc : env.Counter (env.CurrentEpochAt first.ID) = Except.ok N)
    (habs : getEpochComponents e N = none) :
    registrations (newEffects e (onEpochTransition env e first).1) ≠ [] ∧
    (∀ r ∈ registrations (newEffects e (onEpochTransition env e first).1),
      r.1 = (first.Height + env.DefaultTransactionExpiry) % uint64Size) ∧
    uint64Sub 0 1 = uint64Size - 1 ∧
    (first.Height = 0 → env.DefaultTransactionExpiry < uint64Size →
      ∀ r ∈ registrations (newEffects e (onEpochTransition env e first).1),
        r.1 = env.DefaultTransactionExpiry) ∧
    (∀ h, (onEpochTransition env e (Header.mk first.ID h)).2
      = (onEpochTransition env e first).2) := by
  have key := onEpochTransition_registrations_absent env e first N hc habs
  refine ⟨key.1, ?_, by decide, ?_, fun h => onEpochTransition_error_height env e first h⟩
  · intro r hr
    rw [key.2 r hr]
    exact stopHeight_mod env first.Height
  · intro h0 hE r hr
    rw [key.2 r hr]
    show stopHeight env first.Height = env.DefaultTransactionExpiry
    rw [stopHeight_mod, h0, Nat.zero_add]
    exact Nat.mod_eq_of_lt hE

/-- C29 at a sample input: a first block of height 0 for epoch 1, on the engine built by `New`,
with an expiry of 600; the stop is registered at height 600 and the call returns nil. -/
theorem C29_stop_height_wraps_witness :
    authorizedEnv.Counter (authorizedEnv.CurrentEpochAt (Header.mk 1 0).ID) = Except.ok 1 ∧
    getEpochComponents New 1 = none ∧
    (∀ r ∈ registrations (newEffects New (onEpochTransition authorizedEnv New
        (Header.mk 1 0)).1), r.1 = 600) ∧
    (onEpochTransition authorizedEnv New (Header.mk 1 0)).2 = none :=
  ⟨rfl, rfl,
   (C29_stop_height_wraps authorizedEnv New (Header.mk 1 0) 1 rfl rfl).2.2.2.1 rfl (by decide),
   rfl⟩

/-! ## Which steps create a bundle -/

/-- The registry after `Start`: unchanged, or with one bundle stored under the counter of the
current epoch. -/
theorem Start_epochs (env : Env) (e : Engine) :
    (Start env e).epochs = e.epochs ∨
    ∃ counter b, env.Counter env.FinalCurrentEpoch = Except.ok counter ∧
      (Start env e).epochs = mapStore e.epochs counter b := by
  have hrest : ∀ e2 : Engine, e2.epochs = e.epochs →
      checkShouldVoteOnStartup env (emit e [Effect.componentManagerStart]) = (e2, none) →
      (Start env e).epochs = e.epochs ∨
      ∃ counter b, env.Counter env.FinalCurrentEpoch = Except.ok counter ∧
        (Start env e).epochs = mapStore e.epochs counter b := by
    intro e2 he2 hv
    simp only [Start, hv]
    cases hcnt : env.Counter env.FinalCurrentEpoch with
    | error cerr => left; exact he2
    | ok counter =>
        simp only [createEpochComponents]
        cases hcr : env.Create env.FinalCurrentEpoch with
        | error err =>
            left
            simp only []
            split <;> exact he2
        | ok six =>
            obtain ⟨s1, s2, s3, s4, s5, s6⟩ := six
            simp only [startEpochComponents]
            cases hr : env.readyBeforeTimeout (NewEpochComponents s1 s2 s3 s4 s5 s6) with
            | false => left; simpa [emit] using he2
            | true =>
                right
                refine ⟨counter,
                  NewStartableEpochComponents (NewEpochComponents s1 s2 s3 s4 s5 s6) e2.contexts,
                  rfl, ?_⟩
                simp [emit, storeEpochComponents, he2]
  rcases checkShouldVoteOnStartup_cases env (emit e [Effect.componentManagerStart])
    with ⟨verr, hv⟩ | hv | ⟨header, hv⟩
  · left; simp only [Start, hv]; rfl
  · exact hrest (emit e [Effect.componentManagerStart]) rfl hv
  · exact hrest
      { emit e [Effect.componentManagerStart] with
        epochSetupPhaseStartedEvents :=
          (emit e [Effect.componentManagerStart]).epochSetupPhaseStartedEvents ++ [header] }
      rfl hv

/-- The factory calls of `Start`: none, or one for the current epoch, whose counter resolved;
the registry is not consulted. -/
theorem Start_creations (env : Env) (e : Engine) :
    creations (newEffects e (Start env e)) = [] ∨
    (creations (newEffects e (Start env e)) = [env.FinalCurrentEpoch] ∧
      ∃ counter, env.Counter env.FinalCurrentEpoch = Except.ok counter) := by
  have hrest : ∀ e2 : Engine,
      e2.effects = e.effects ++ [Effect.componentManagerStart] →
      checkShouldVoteOnStartup env (emit e [Effect.componentManagerStart]) = (e2, none) →
      creations (newEffects e (Start env e)) = [] ∨
      (creations (newEffects e (Start env e)) = [env.FinalCurrentEpoch] ∧
        ∃ counter, env.Counter env.FinalCurrentEpoch = Except.ok counter) := by
    intro e2 he2 hv
    simp only [Start, hv]
    cases hcnt : env.Counter env.FinalCurrentEpoch with
    | error cerr =>
        left
        simp [newEffects, emit, he2, creations]
    | ok counter =>
        right
        refine ⟨?_, counter, rfl⟩
        simp only [createEpochComponents]
        cases hcr : env.Create env.FinalCurrentEpoch with
        | error err =>
            simp only []
            split <;> simp [newEffects, emit, he2, creations]
        | ok six =>
            obtain ⟨s1, s2, s3, s4, s5, s6⟩ := six
            simp only [startEpochComponents]
            cases hr : env.readyBeforeTimeout (NewEpochComponents s1 s2 s3 s4 s5 s6) <;>
              simp [newEffects, emit, he2, creations, storeEpochComponents]
  rcases checkShouldVoteOnStartup_cases env (emit e [Effect.componentManagerStart])
    with ⟨verr, hv⟩ | hv | ⟨header, hv⟩
  · left
    simp only [Start, hv]
    simp [newEffects, emit, creations]
  · exact hrest (emit e [Effect.componentManagerStart]) rfl hv
  · exact hrest
      { emit e [Effect.componentManagerStart] with
        epochSetupPhaseStartedEvents :=
          (emit e [Effect.componentManagerStart]).epochSetupPhaseStartedEvents ++ [header] }
      rfl hv

/-- `stopEpochComponents` does not call the factory. -/
theorem stopEpochComponents_creations (env : Env) (e : Engine) (counter : Nat) :
    creations (newEffects e (stopEpochComponents env e counter).1) = [] := by
  unfold stopEpochComponents
  cases hb : getEpochComponents e counter with
  | none => simp [newEffects, emit, creations]
  | some b =>
      cases hd : env.doneBeforeTimeout b <;>
        simp [hd, newEffects, emit, creations, removeEpoch]

/-- A step that does not resolve to `c` leaves a registry without `c` without `c`. -/
theorem process_keeps_absent (e : Engine) (n : Notice) (c : Nat)
    (habs : getEpochComponents e c = none) (hn : n.resolvedCounter ≠ some c) :
    getEpochComponents (n.process e) c = none := by
  cases n with
  | transition env first =>
      simp only [Notice.process]
      rcases onEpochTransition_epochs env e first with h | ⟨c2, b, hc2, _, h⟩
      · unfold getEpochComponents at habs ⊢
        rw [h]; exact habs
      · have hne : c ≠ c2 := by
          intro heq
          apply hn
          simp [Notice.resolvedCounter, hc2, heq]
        unfold getEpochComponents at habs ⊢
        rw [h, mapLookup_mapStore, if_neg hne]
        exact habs
  | stop env counter =>
      simp only [Notice.process]
      rcases stopEpochComponents_epochs env e counter with h | h
      · unfold getEpochComponents at habs ⊢
        rw [h]; exact habs
      · unfold getEpochComponents at habs ⊢
        rw [h, mapLookup_mapDelete]
        split
        · rfl
        · exact habs
  | start env =>
      simp only [Notice.process]
      rcases Start_epochs env e with h | ⟨c2, b, hc2, h⟩
      · unfold getEpochComponents at habs ⊢
        rw [h]; exact habs
      · have hne : c ≠ c2 := by
          intro heq
          apply hn
          simp [Notice.resolvedCounter, hc2, heq]
        unfold getEpochComponents at habs ⊢
        rw [h, mapLookup_mapStore, if_neg hne]
        exact habs

/-- C11, amended: the factory is called by two steps only.  A transition notice calls it at most
once, for the epoch resolved from its first block, and only while the registry has no bundle
for the counter of that epoch; `Start` calls it at most once, for the current epoch, without
consulting the registry (called on an engine that holds a bundle for epoch 0, it calls the
factory for epoch 0 all the same); a stop notice never calls it.  So once the registry holds no bundle
for `c` (never stored, or stored and removed), it holds none in any state of a run of
transition notices, stop notices and calls of `Start` none of which resolves to `c`. -/
theorem C11_counter_not_restarted_unless_delivered_again (e : Engine) (ns : List Notice)
    (c : Nat) (habs : getEpochComponents e c = none)
    (hother : ∀ n ∈ ns, n.resolvedCounter ≠ some c) :
    (∀ s ∈ run e ns, getEpochComponents s c = none) ∧
    (∀ (env : Env) (s : Engine) (first : Header),
      creations (newEffects s (onEpochTransition env s first).1) = [] ∨
      (creations (newEffects s (onEpochTransition env s first).1)
          = [env.CurrentEpochAt first.ID] ∧
        ∃ k, env.Counter (env.CurrentEpochAt first.ID) = Except.ok k ∧
          getEpochComponents s k = none)) ∧
    (∀ (env : Env) (s : Engine),
      creations (newEffects s (Start env s)) = [] ∨
      (creations (newEffects s (Start env s)) = [env.FinalCurrentEpoch] ∧
        ∃ k, env.Counter env.FinalCurrentEpoch = Except.ok k)) ∧
    (∀ (env : Env) (s : Engine) (counter : Nat),
      creations (newEffects s (stopEpochComponents env s counter).1) = []) ∧
    (∀ (env : Env) (s : Engine),
      (Start env s).epochs = s.epochs ∨
      ∃ k b, env.Counter env.FinalCurrentEpoch = Except.ok k ∧
        (Start env s).epochs = mapStore s.epochs k b) ∧
    ((getEpochComponents engineInEpoch0 0).isSome = true ∧
      creations (newEffects engineInEpoch0 (Start authorizedEnv engineInEpoch0))
        = [Epoch.mk 0]) := by
  refine ⟨?_, fun env s first => onEpochTransition_creations env s first,
    fun env s => Start_creations env s,
    fun env s counter => stopEpochComponents_creations env s counter,
    fun env s => Start_epochs env s, by decide, by decide⟩
  induction ns generalizing e with
  | nil =>
      intro s hs
      simp only [run, List.mem_singleton] at hs
      rw [hs]; exact habs
  | cons n rest ih =>
      intro s hs
      simp only [run, List.mem_cons] at hs
      rcases hs with hs | hs
      · rw [hs]; exact habs
      · exact ih (n.process e)
          (process_keeps_absent e n c habs (hother n (List.mem_cons_self n rest)))
          (fun m hm => hother m (List.mem_cons_of_mem n hm)) s hs

/-- C11, amended, at a sample run: after the stop of epoch 1, a call of `Start` in epoch 0, the
transition to epoch 2 and the stop of epoch 1 once more leave the registry without a bundle
for counter 1. -/
theorem C11_counter_not_restarted_unless_delivered_again_witness :
    getEpochComponents (stopEpochComponents authorizedEnv engineInEpoch1 1).1 1 = none ∧
    (∀ n ∈ [Notice.start authorizedEnv, Notice.transition authorizedEnv firstBlockOfEpoch2,
        Notice.stop authorizedEnv 1],
      n.resolvedCounter ≠ some 1) ∧
    (∀ s ∈ run (stopEpochComponents authorizedEnv engineInEpoch1 1).1
        [Notice.start authorizedEnv, Notice.transition authorizedEnv firstBlockOfEpoch2,
          Notice.stop authorizedEnv 1],
      getEpochComponents s 1 = none) :=
  have hn : ∀ n ∈ [Notice.start authorizedEnv,
      Notice.transition authorizedEnv firstBlockOfEpoch2,
      Notice.stop authorizedEnv 1], n.resolvedCounter ≠ some 1 := by
    intro n hmem
    simp only [List.mem_cons, List.mem_singleton, List.not_mem_nil, or_false] at hmem
    rcases hmem with h | h | h <;> rw [h] <;> decide
  ⟨rfl, hn,
   (C11_counter_not_restarted_unless_delivered_again
     (stopEpochComponents authorizedEnv engineInEpoch1 1).1
     [Notice.start authorizedEnv, Notice.transition authorizedEnv firstBlockOfEpoch2,
       Notice.stop authorizedEnv 1] 1
     rfl hn).1⟩

end EpochMgr
